import Mathlib

/-!
# SFML window backends: X11 and Win32 window implementations

A shallow embedding of `WindowImplX11.cpp`, `WindowImplWin32.cpp` and
`Event.hpp`.

Conventions of the embedding

* `unsigned int` arithmetic is reduced modulo `2^32` (`UINT_MOD`).
  `std::size_t` arithmetic is left unreduced: every `size_t` value computed
  below is bounded by the byte size of a buffer that exists in memory.
* A `const Uint8*` argument is the function from byte offset to byte.
* A buffer is a `List Nat` of bytes; an indexed write outside the buffer has
  no defined behaviour in C++ and yields `none`.
* A C `for (i = 0; i < n; ++i)` loop is `forLoop` / `forLoopM`.
* Pointers to window instances are `Option Nat` (`none` is `NULL`), handles and
  atoms are `Nat` (`0` is the null handle).
* Native requests issued to the host are recorded, in order, in a `calls` list;
  events handed to `pushEvent` are recorded, in order, in an `events` list.
  Calls that only read from the host (`XQueryExtension`, `XRRGetScreenInfo`,
  `XRRConfigSizes`, `XInternAtom`, `GetDC`, `GetDeviceCaps`), `XFlush`, and the
  bookkeeping of the display connection, of graphics contexts and of
  client-side structures (`OpenDisplay`, `CloseDisplay`, `XCreateGC`,
  `XFreeGC`, `XDestroyImage`, `XAllocWMHints`, `XFree`,
  `XRRFreeScreenConfigInfo`) are not recorded, apart from the `GetWindowLong`
  of `setSize`, which is handed the handle of the instance.
* What the host answers to a call is a parameter of the operation that makes
  the call, or a field of the host state; a field that holds the answer to the
  next call (`WindowImplX11.Globals.screenInfo`) is set anew before each
  operation of a run of several operations.
-/

namespace SFML

/-! ## Loops and buffers -/

/-- Modulus of `unsigned int` arithmetic. -/
def UINT_MOD : Nat := 2 ^ 32

/-- The loop `for (i = 0; i < n; ++i) s = body i s`. -/
def forLoop {σ : Type} (body : Nat → σ → σ) : Nat → σ → σ
  | 0, s => s
  | n + 1, s => body n (forLoop body n s)

/-- The loop `for (i = 0; i < n; ++i)` with a body that may leave defined behaviour. -/
def forLoopM {σ : Type} (body : Nat → σ → Option σ) : Nat → σ → Option σ
  | 0, s => some s
  | n + 1, s => (forLoopM body n s).bind (body n)

/-- Indexed byte write `buf[idx] = v`; `none` when `idx` is outside the buffer. -/
def writeByte (buf : List Nat) (idx v : Nat) : Option (List Nat) :=
  if idx < buf.length then some (buf.set idx v) else none

/-- Indexed update `buf[idx] |= v` on a `Uint8` buffer (the result of the
integer `|` is converted back to `Uint8`); `none` when `idx` is outside. -/
def orByte (buf : List Nat) (idx v : Nat) : Option (List Nat) :=
  if idx < buf.length then some (buf.set idx ((buf.getD idx 0 ||| v) % 256)) else none

/-- Block of `n` bytes returned by `malloc`; its contents are indeterminate and
given by `junk`. -/
def mallocBytes (n : Nat) (junk : Nat → Nat) : List Nat :=
  (List.range n).map junk

/-! ## Event model (`Event.hpp`) and value types -/

/-- The class `sf::Event`: the tag `EventType` together with the member of the union the
tag selects; only `Resized` carries data (`SizeEvent`). -/
inductive Event where
  | Closed
  | Resized (width height : Nat)
  | LostFocus
  | GainedFocus
deriving DecidableEq, Repr

/-- The type `sf::Vector2u`. -/
structure Vector2u where
  x : Nat
  y : Nat
deriving DecidableEq, Repr

/-- The type `sf::VideoMode`. -/
structure VideoMode where
  width : Nat
  height : Nat
  bitsPerPixel : Nat
deriving DecidableEq, Repr

/-- Modelled from the spec: `WindowImpl::pushEvent` (defined in `WindowImpl.cpp`,
which is not among the sources): the event sink; it never fails and keeps the
order of the events it is given. -/
def pushEvent (events : List Event) (event : Event) : List Event :=
  events ++ [event]

/-- Conversion of an `int` to `unsigned int`. -/
def toUnsigned (v : Int) : Nat := (v % (UINT_MOD : Int)).toNat

/-- Conversion of an `unsigned int` to `int` (`static_cast<int>`). -/
def toInt (v : Nat) : Int :=
  if v % UINT_MOD < UINT_MOD / 2 then (v % UINT_MOD : Nat) else (v % UINT_MOD : Nat) - (UINT_MOD : Int)

/-- Modulus of `unsigned long` arithmetic (LP64). -/
def ULONG_MOD : Nat := 2 ^ 64

/-- Conversion of an `unsigned long` (an `Atom`) to `long` (`static_cast<long>`). -/
def toLong (v : Nat) : Int :=
  if v % ULONG_MOD < ULONG_MOD / 2 then (v % ULONG_MOD : Nat)
  else (v % ULONG_MOD : Nat) - (ULONG_MOD : Int)

/-! ## Icon conversion -/

namespace WindowImplWin32

/-- Body of the channel-swap loop of `WindowImplWin32::setIcon`
(`operator[]` on the vector; the loop bound keeps every index inside it). -/
def swapPixel (pixels : Nat → Nat) (i : Nat) (iconPixels : List Nat) : List Nat :=
  let b0 := iconPixels.set (i * 4 + 0) (pixels (i * 4 + 2))
  let b1 := b0.set (i * 4 + 1) (pixels (i * 4 + 1))
  let b2 := b1.set (i * 4 + 2) (pixels (i * 4 + 0))
  b2.set (i * 4 + 3) (pixels (i * 4 + 3))

/-- In `WindowImplWin32::setIcon`, the buffer handed to `CreateIcon`:
`std::vector<Uint8> iconPixels(width * height * 4)` followed by the
channel-swap loop over `iconPixels.size() / 4` pixels. -/
def setIcon_iconPixels (width height : Nat) (pixels : Nat → Nat) : List Nat :=
  let iconPixels := List.replicate (width * height * 4 % UINT_MOD) 0
  forLoop (swapPixel pixels) (iconPixels.length / 4) iconPixels

end WindowImplWin32

namespace WindowImplX11

/-- Body of the channel-swap loop of `WindowImplX11::setIcon`: four writes
through the pointer returned by `malloc`. -/
def swapPixel (pixels : Nat → Nat) (i : Nat) (iconPixels : List Nat) : Option (List Nat) :=
  (writeByte iconPixels (i * 4 + 0) (pixels (i * 4 + 2))).bind fun b0 =>
  (writeByte b0 (i * 4 + 1) (pixels (i * 4 + 1))).bind fun b1 =>
  (writeByte b1 (i * 4 + 2) (pixels (i * 4 + 0))).bind fun b2 =>
  writeByte b2 (i * 4 + 3) (pixels (i * 4 + 3))

/-- In `WindowImplX11::setIcon`, the buffer handed to `XCreateImage`:
`malloc(width * height * 4)` followed by the channel-swap loop
`for (std::size_t i = 0; i < width * height; ++i)`. -/
def setIcon_iconPixels (width height : Nat) (junk pixels : Nat → Nat) : Option (List Nat) :=
  let iconPixels := mallocBytes (width * height * 4 % UINT_MOD) junk
  forLoopM (swapPixel pixels) (width * height % UINT_MOD) iconPixels

/-- Innermost statement of the mask loops of `WindowImplX11::setIcon`. -/
def maskBit (width : Nat) (pixels : Nat → Nat) (pitch j i k : Nat) (maskPixels : List Nat) :
    Option (List Nat) :=
  if i * 8 + k < width then
    let opacity := if pixels ((i * 8 + k + j * width) * 4 + 3) > 0 then 1 else 0
    orByte maskPixels (i + j * pitch) (opacity <<< k)
  else some maskPixels

/-- In `WindowImplX11::setIcon`, the mask loops over rows `j`, mask bytes `i` and
bits `k`. -/
def setIcon_maskLoop (width height : Nat) (pixels : Nat → Nat) (pitch : Nat)
    (maskPixels : List Nat) : Option (List Nat) :=
  forLoopM (fun j m =>
    forLoopM (fun i m =>
      forLoopM (fun k m => maskBit width pixels pitch j i k m) 8 m) pitch m) height maskPixels

/-- In `WindowImplX11::setIcon`, the mask handed to `XCreatePixmapFromBitmapData`.
`maskStatic` is the function-local `static std::vector<Uint8> maskPixels`:
`none` until control first passes its declaration, when it is constructed with
`pitch * height` zero bytes; afterwards it keeps its size and contents. -/
def setIcon_maskPixels (maskStatic : Option (List Nat)) (width height : Nat)
    (pixels : Nat → Nat) : Option (List Nat) :=
  let pitch := (width + 7) % UINT_MOD / 8
  let maskPixels := match maskStatic with
    | none => List.replicate (pitch * height) 0
    | some m => m
  setIcon_maskLoop width height pixels pitch maskPixels

end WindowImplX11

/-! ## Window styles -/

/-- Modelled from the spec: the style bitset `{None, Titlebar, Resize, Close,
Fullscreen}` of `WindowStyle.hpp`, which is not among the sources: `None` is
the empty set. -/
def Style.None : Nat := 0

/-- Modelled from the spec: the flag `Titlebar` of the style bitset of
`WindowStyle.hpp`, which is not among the sources. -/
def Style.Titlebar : Nat := 1

/-- Modelled from the spec: the flag `Resize` of the style bitset of
`WindowStyle.hpp`, which is not among the sources. -/
def Style.Resize : Nat := 2

/-- Modelled from the spec: the flag `Close` of the style bitset of
`WindowStyle.hpp`, which is not among the sources. -/
def Style.Close : Nat := 4

/-- Modelled from the spec: the flag `Fullscreen` of the style bitset of
`WindowStyle.hpp`, which is not among the sources. -/
def Style.Fullscreen : Nat := 8

/-- The constant `WS_VISIBLE` of `winuser.h`. -/
def WS_VISIBLE : Nat := 0x10000000

/-- The constant `WS_POPUP` of `winuser.h`. -/
def WS_POPUP : Nat := 0x80000000

/-- The constant `WS_CAPTION` of `winuser.h`. -/
def WS_CAPTION : Nat := 0x00C00000

/-- The constant `WS_MINIMIZEBOX` of `winuser.h`. -/
def WS_MINIMIZEBOX : Nat := 0x00020000

/-- The constant `WS_THICKFRAME` of `winuser.h`. -/
def WS_THICKFRAME : Nat := 0x00040000

/-- The constant `WS_MAXIMIZEBOX` of `winuser.h`. -/
def WS_MAXIMIZEBOX : Nat := 0x00010000

/-- The constant `WS_SYSMENU` of `winuser.h`. -/
def WS_SYSMENU : Nat := 0x00080000

/-- The window style `win32Style` that
`WindowImplWin32::WindowImplWin32(VideoMode, title, style)` hands to
`CreateWindow`. -/
def WindowImplWin32.windowStyle (style : Nat) : Nat :=
  let s0 := WS_VISIBLE
  if style = Style.None then s0 ||| WS_POPUP
  else
    let s1 := if style &&& Style.Titlebar ≠ 0 then s0 ||| (WS_CAPTION ||| WS_MINIMIZEBOX) else s0
    let s2 := if style &&& Style.Resize ≠ 0 then s1 ||| (WS_THICKFRAME ||| WS_MAXIMIZEBOX) else s1
    if style &&& Style.Close ≠ 0 then s2 ||| WS_SYSMENU else s2

/-- The constant `MWM_HINTS_FUNCTIONS` of the X11 constructor. -/
def MWM_HINTS_FUNCTIONS : Nat := 1 <<< 0

/-- The constant `MWM_HINTS_DECORATIONS` of the X11 constructor. -/
def MWM_HINTS_DECORATIONS : Nat := 1 <<< 1

/-- The constant `MWM_DECOR_BORDER` of the X11 constructor. -/
def MWM_DECOR_BORDER : Nat := 1 <<< 1

/-- The constant `MWM_DECOR_RESIZEH` of the X11 constructor. -/
def MWM_DECOR_RESIZEH : Nat := 1 <<< 2

/-- The constant `MWM_DECOR_TITLE` of the X11 constructor. -/
def MWM_DECOR_TITLE : Nat := 1 <<< 3

/-- The constant `MWM_DECOR_MENU` of the X11 constructor. -/
def MWM_DECOR_MENU : Nat := 1 <<< 4

/-- The constant `MWM_DECOR_MINIMIZE` of the X11 constructor. -/
def MWM_DECOR_MINIMIZE : Nat := 1 <<< 5

/-- The constant `MWM_DECOR_MAXIMIZE` of the X11 constructor. -/
def MWM_DECOR_MAXIMIZE : Nat := 1 <<< 6

/-- The constant `MWM_FUNC_RESIZE` of the X11 constructor. -/
def MWM_FUNC_RESIZE : Nat := 1 <<< 1

/-- The constant `MWM_FUNC_MOVE` of the X11 constructor. -/
def MWM_FUNC_MOVE : Nat := 1 <<< 2

/-- The constant `MWM_FUNC_MINIMIZE` of the X11 constructor. -/
def MWM_FUNC_MINIMIZE : Nat := 1 <<< 3

/-- The constant `MWM_FUNC_MAXIMIZE` of the X11 constructor. -/
def MWM_FUNC_MAXIMIZE : Nat := 1 <<< 4

/-- The constant `MWM_FUNC_CLOSE` of the X11 constructor. -/
def MWM_FUNC_CLOSE : Nat := 1 <<< 5

/-- The fields of the local `struct WMHints` that the X11 constructor assigns
(`InputMode` and `State` are left uninitialised). -/
structure WMHints where
  Flags : Nat
  Functions : Nat
  Decorations : Nat
deriving DecidableEq, Repr

/-- The fields of `XSizeHints` that the X11 constructor assigns, apart from
`flags = PMinSize | PMaxSize`. -/
structure XSizeHints where
  min_width : Int
  max_width : Int
  min_height : Int
  max_height : Int
deriving DecidableEq, Repr

/-- The Motif hints that the X11 constructor computes from the style. -/
def WindowImplX11.motifHints (style : Nat) : WMHints :=
  let h0 : WMHints :=
    { Flags := MWM_HINTS_FUNCTIONS ||| MWM_HINTS_DECORATIONS, Decorations := 0, Functions := 0 }
  let h1 : WMHints := if style &&& Style.Titlebar ≠ 0 then
    { h0 with
      Decorations := h0.Decorations |||
        (MWM_DECOR_BORDER ||| MWM_DECOR_TITLE ||| MWM_DECOR_MINIMIZE ||| MWM_DECOR_MENU)
      Functions := h0.Functions ||| (MWM_FUNC_MOVE ||| MWM_FUNC_MINIMIZE) } else h0
  let h2 : WMHints := if style &&& Style.Resize ≠ 0 then
    { h1 with
      Decorations := h1.Decorations ||| (MWM_DECOR_MAXIMIZE ||| MWM_DECOR_RESIZEH)
      Functions := h1.Functions ||| (MWM_FUNC_MAXIMIZE ||| MWM_FUNC_RESIZE) } else h1
  if style &&& Style.Close ≠ 0 then
    { h2 with
      Decorations := h2.Decorations ||| 0
      Functions := h2.Functions ||| MWM_FUNC_CLOSE } else h2

/-- The block of the X11 constructor that tells the window manager the style:
the Motif hints handed to `XChangeProperty` and the size hints handed to
`XSetWMNormalHints`, if any. `wmHintsAtom` is the value returned by
`XInternAtom(m_display, "_MOTIF_WM_HINTS", false)`, `width` and `height` the
requested size. -/
def WindowImplX11.decorate (style : Nat) (wmHintsAtom : Nat) (width height : Int) :
    Option WMHints × Option XSizeHints :=
  if style &&& Style.Fullscreen ≠ 0 then (none, none)
  else
    (if wmHintsAtom ≠ 0 then some (WindowImplX11.motifHints style) else none,
     if style &&& Style.Resize = 0 then
       some { min_width := width, max_width := width, min_height := height, max_height := height }
     else none)

/-! ## Win32 backend (`WindowImplWin32.cpp`) -/

/-- The data members of `sf::priv::WindowImplWin32`. `addr` is the address of
the instance (the value of `this`), `events` the events it has handed to
`pushEvent`. -/
structure WindowImplWin32 where
  addr : Nat
  m_handle : Nat
  m_callback : Int
  m_icon : Nat
  m_lastSize : Vector2u
  m_resizing : Bool
  events : List Event
deriving DecidableEq, Repr

namespace WindowImplWin32

/-- The values of `UINT message` that `processEvent` tells apart. -/
inductive Message where
  | WM_DESTROY
  | WM_CLOSE
  | WM_SIZE
  | WM_ENTERSIZEMOVE
  | WM_EXITSIZEMOVE
  | WM_SETFOCUS
  | WM_KILLFOCUS
  | other (code : Nat)
deriving DecidableEq, Repr

/-- The constant `SIZE_MINIMIZED` of `winuser.h`. -/
def SIZE_MINIMIZED : Nat := 1

/-- Index argument of `SetWindowLongPtr`. -/
inductive LongIndex where
  | GWLP_USERDATA
  | GWLP_WNDPROC
deriving DecidableEq, Repr

/-- Value argument of `SetWindowLongPtr`. -/
inductive LongValue where
  | instance_ (addr : Nat)
  | globalOnEvent
  | saved (callback : Int)
deriving DecidableEq, Repr

/-- Native requests issued by the Win32 backend. `CreateWindow` carries its
last argument (`lpCreateParams`); `SetFullscreenStyle` stands for the two
`SetWindowLong` calls of `switchToFullscreen` (`GWL_STYLE`, `GWL_EXSTYLE`) and
`SetWindowPos` for its `SetWindowPos(m_handle, HWND_TOP, x, y, width, height,
SWP_FRAMECHANGED)`; `MoveWindow` and `ResizeWindow` stand for the `SetWindowPos`
calls of `setPosition` and `setSize`, `GetWindowStyle` for
`GetWindowLong(m_handle, GWL_STYLE)`, `SetWindowText` for `SetWindowTextA`, and
`SetIcon` for `SendMessage(m_handle, WM_SETICON, ICON_BIG / ICON_SMALL, m_icon)`. -/
inductive Call where
  | RegisterClass
  | UnregisterClass
  | CreateWindow (createParams : Nat)
  | DestroyWindow (handle : Nat)
  | DestroyIcon (icon : Nat)
  | SetWindowLongPtr (handle : Nat) (index : LongIndex) (value : LongValue)
  | ChangeDisplaySettings (mode : Option VideoMode)
  | SetFullscreenStyle (handle : Nat)
  | SetWindowPos (handle : Nat) (x y width height : Nat)
  | ShowWindow (handle : Nat) (visible : Bool)
  | MoveWindow (handle : Nat) (x y : Int)
  | ResizeWindow (handle : Nat) (width height : Int)
  | GetWindowStyle (handle : Nat)
  | SetWindowText (handle : Nat) (title : String)
  | CreateIcon (width height : Nat) (pixels : List Nat)
  | SetIcon (handle : Nat) (big : Bool) (icon : Nat)
deriving DecidableEq, Repr

/-- The variables of the unnamed namespace of `WindowImplWin32.cpp`
(`windowCount`, `fullscreenWindow`) and the native requests issued so far. -/
structure Globals where
  windowCount : Nat
  fullscreenWindow : Option Nat
  calls : List Call
deriving DecidableEq, Repr

/-- The method `WindowImplWin32::switchToFullscreen`. `changeOk` tells whether
`ChangeDisplaySettings(&devMode, CDS_FULLSCREEN)` returns
`DISP_CHANGE_SUCCESSFUL`. -/
def switchToFullscreen (g : Globals) (w : WindowImplWin32) (mode : VideoMode)
    (changeOk : Bool) : Globals :=
  let g1 := { g with calls := g.calls ++ [Call.ChangeDisplaySettings (some mode)] }
  if changeOk then
    { g1 with
      calls := g1.calls ++ [Call.SetFullscreenStyle w.m_handle,
        Call.SetWindowPos w.m_handle 0 0 mode.width mode.height,
        Call.ShowWindow w.m_handle true]
      fullscreenWindow := some w.addr }
  else g1

/-- The method `WindowImplWin32::cleanup`. -/
def cleanup (g : Globals) (w : WindowImplWin32) : Globals :=
  if g.fullscreenWindow = some w.addr then
    { g with
      calls := g.calls ++ [Call.ChangeDisplaySettings none]
      fullscreenWindow := none }
  else g

/-- The method `WindowImplWin32::processEvent`. `clientSize` is the value `getSize()`
returns (the client rectangle reported by `GetClientRect`) while the message is
processed. -/
def processEvent (g : Globals) (w : WindowImplWin32) (message : Message) (wParam : Nat)
    (clientSize : Vector2u) : Globals × WindowImplWin32 :=
  if w.m_handle = 0 then (g, w)
  else
    match message with
    | Message.WM_DESTROY => (cleanup g w, w)
    | Message.WM_CLOSE => (g, { w with events := pushEvent w.events Event.Closed })
    | Message.WM_SIZE =>
      if wParam ≠ SIZE_MINIMIZED ∧ w.m_resizing = false ∧ w.m_lastSize ≠ clientSize then
        let w1 := { w with m_lastSize := clientSize }
        (g, { w1 with
          events := pushEvent w1.events (Event.Resized w1.m_lastSize.x w1.m_lastSize.y) })
      else (g, w)
    | Message.WM_ENTERSIZEMOVE => (g, { w with m_resizing := true })
    | Message.WM_EXITSIZEMOVE =>
      let w1 := { w with m_resizing := false }
      if w1.m_lastSize ≠ clientSize then
        let w2 := { w1 with m_lastSize := clientSize }
        (g, { w2 with
          events := pushEvent w2.events (Event.Resized w2.m_lastSize.x w2.m_lastSize.y) })
      else (g, w1)
    | Message.WM_SETFOCUS => (g, { w with events := pushEvent w.events Event.GainedFocus })
    | Message.WM_KILLFOCUS => (g, { w with events := pushEvent w.events Event.LostFocus })
    | Message.other _ => (g, w)

/-- One message as it reaches `processEvent`, with the client size current at
that time. -/
structure Delivery where
  message : Message
  wParam : Nat
  clientSize : Vector2u
deriving DecidableEq, Repr

/-- Delivery of a sequence of messages to one instance, in order. -/
def deliver (s : Globals × WindowImplWin32) (ds : List Delivery) : Globals × WindowImplWin32 :=
  ds.foldl (fun s d => processEvent s.1 s.2 d.message d.wParam d.clientSize) s

/-- The constructor `WindowImplWin32::WindowImplWin32(WindowHandle handle)`, for the instance
at address `addr`. `previousProc` is the value returned by
`SetWindowLongPtr(m_handle, GWLP_WNDPROC, ...)`. -/
def adopt (g : Globals) (addr handle : Nat) (previousProc : Int) :
    Globals × WindowImplWin32 :=
  let w : WindowImplWin32 :=
    { addr := addr, m_handle := handle, m_callback := 0, m_icon := 0,
      m_lastSize := ⟨0, 0⟩, m_resizing := false, events := [] }
  if handle ≠ 0 then
    ({ g with calls := g.calls ++
        [Call.SetWindowLongPtr handle LongIndex.GWLP_USERDATA (LongValue.instance_ addr),
         Call.SetWindowLongPtr handle LongIndex.GWLP_WNDPROC LongValue.globalOnEvent] },
     { w with m_callback := previousProc })
  else (g, w)

/-- The constructor `WindowImplWin32::WindowImplWin32(VideoMode, title, style)`, for the
instance at address `addr`. `fullscreen` is `(style & Style::Fullscreen) != 0`,
`createdHandle` the value returned by `CreateWindow`, `changeOk` as in
`switchToFullscreen`.

While `CreateWindow` runs, the host sends `WM_CREATE` for the new window to
`globalOnEvent`, which stores the instance (the last argument of
`CreateWindow`) as the user data of the window:
`SetWindowLongPtr(handle, GWLP_USERDATA, window)`. A `CreateWindow` that
returns `NULL` is taken to have failed before that message was sent. Every
message sent while `CreateWindow` runs reaches `processEvent` with
`m_handle == NULL` and is dropped there. The computation of position, size and
window style does not touch the state kept here; the messages the host sends
during `SetWindowPos` and `ShowWindow` are not modelled. -/
def create (g : Globals) (addr : Nat) (mode : VideoMode) (fullscreen : Bool)
    (createdHandle : Nat) (changeOk : Bool) : Globals × WindowImplWin32 :=
  let w : WindowImplWin32 :=
    { addr := addr, m_handle := 0, m_callback := 0, m_icon := 0,
      m_lastSize := ⟨mode.width, mode.height⟩, m_resizing := false, events := [] }
  let g1 := if g.windowCount = 0 then { g with calls := g.calls ++ [Call.RegisterClass] } else g
  let g2 := { g1 with calls := g1.calls ++ [Call.CreateWindow addr] }
  let g2c := if createdHandle ≠ 0 then
    { g2 with calls := g2.calls ++
        [Call.SetWindowLongPtr createdHandle LongIndex.GWLP_USERDATA (LongValue.instance_ addr)] }
    else g2
  let w1 := { w with m_handle := createdHandle }
  let g3 := if fullscreen then switchToFullscreen g2c w1 mode changeOk else g2c
  ({ g3 with windowCount := (g3.windowCount + 1) % UINT_MOD }, w1)

/-- The host's `DestroyWindow(m_handle)`, called by the destructor: before it
returns it sends `WM_DESTROY` to the window procedure, `globalOnEvent`, which
forwards it to `processEvent` of the instance. -/
def DestroyWindow (g : Globals) (w : WindowImplWin32) : Globals :=
  (processEvent { g with calls := g.calls ++ [Call.DestroyWindow w.m_handle] } w
    Message.WM_DESTROY 0 ⟨0, 0⟩).1

/-- The destructor `WindowImplWin32::~WindowImplWin32`. -/
def destroy (g : Globals) (w : WindowImplWin32) : Globals :=
  let g1 := if w.m_icon ≠ 0 then { g with calls := g.calls ++ [Call.DestroyIcon w.m_icon] } else g
  if w.m_callback = 0 then
    let g2 := if w.m_handle ≠ 0 then DestroyWindow g1 w else g1
    let g3 := { g2 with windowCount := (g2.windowCount + UINT_MOD - 1) % UINT_MOD }
    if g3.windowCount = 0 then { g3 with calls := g3.calls ++ [Call.UnregisterClass] } else g3
  else
    { g1 with calls := g1.calls ++
        [Call.SetWindowLongPtr w.m_handle LongIndex.GWLP_WNDPROC (LongValue.saved w.m_callback)] }

/-- How a live instance was constructed. -/
inductive Origin where
  | owned
  | adopted
deriving DecidableEq, Repr

/-- A process: the globals and the live instances, each with its origin. -/
structure Process where
  g : Globals
  live : List (Origin × WindowImplWin32)
deriving Repr

/-- Constructions and destructions of instances. -/
inductive Op where
  | create (addr : Nat) (mode : VideoMode) (fullscreen : Bool) (createdHandle : Nat)
      (changeOk : Bool)
  | adopt (addr handle : Nat) (previousProc : Int)
  | destroy (addr : Nat)
deriving Repr

/-- One construction or destruction. Destroying an address that is not live
does nothing. -/
def Process.step (p : Process) : Op → Process
  | Op.create addr mode fullscreen createdHandle changeOk =>
    let r := WindowImplWin32.create p.g addr mode fullscreen createdHandle changeOk
    { g := r.1, live := p.live ++ [(Origin.owned, r.2)] }
  | Op.adopt addr handle previousProc =>
    let r := WindowImplWin32.adopt p.g addr handle previousProc
    { g := r.1, live := p.live ++ [(Origin.adopted, r.2)] }
  | Op.destroy addr =>
    match p.live.find? (fun e => e.2.addr = addr) with
    | some e =>
      { g := WindowImplWin32.destroy p.g e.2, live := p.live.filter (fun e => e.2.addr ≠ addr) }
    | none => p

/-- A sequence of constructions and destructions. -/
def Process.run (p : Process) (ops : List Op) : Process :=
  ops.foldl Process.step p

/-- The process at start: no window, nothing registered. -/
def Process.init : Process :=
  { g := { windowCount := 0, fullscreenWindow := none, calls := [] }, live := [] }

/-- Number of live owned (non-adopted) instances. -/
def Process.liveOwned (p : Process) : Nat :=
  (p.live.filter (fun e => e.1 = Origin.owned)).length

end WindowImplWin32

/-! ## X11 backend (`WindowImplX11.cpp`) -/

/-- The data members of `sf::priv::WindowImplX11` read or written by the code
below. `addr` is the address of the instance (the value of `this`), `events`
the events it has handed to `pushEvent`. -/
structure WindowImplX11 where
  addr : Nat
  m_window : Nat
  m_isExternal : Bool
  m_atomClose : Nat
  m_oldVideoMode : Int
  events : List Event
deriving DecidableEq, Repr

namespace WindowImplX11

/-- The member of the `XEvent` union selected by its `type`, with the fields
`processEvent` reads. -/
inductive XEventData where
  | DestroyNotify
  | FocusIn
  | FocusOut
  | ConfigureNotify (width height : Int)
  | ClientMessage (format : Int) (data_l0 : Int)
  | other (type : Int)
deriving DecidableEq, Repr

/-- An `XEvent`: `xany.window` and the data selected by `type`. -/
structure XEvent where
  window : Nat
  data : XEventData
deriving DecidableEq, Repr

/-- Native requests issued by the X11 backend, each with the arguments that
the theorems below speak about. `XChangeProperty` is the request that sends
the Motif hints, `XSetWMNormalHints` the one that pins the size. -/
inductive Call where
  | XSelectInput (window : Nat)
  | XCreateWindow
  | XDestroyWindow (window : Nat)
  | XSetWMProtocols (window atom : Nat)
  | XMapWindow (window : Nat)
  | XRRSetScreenConfig (sizeIndex : Int) (rotation : Nat)
  | XMoveWindow (window : Nat) (x y : Int)
  | XResizeWindow (window : Nat) (width height : Nat)
  | XStoreName (window : Nat) (title : String)
  | XUnmapWindow (window : Nat)
  | XCreateImage (pixels : List Nat) (width height : Nat)
  | XCreatePixmap (width height : Nat)
  | XPutImage (width height : Nat)
  | XCreatePixmapFromBitmapData (window : Nat) (mask : List Nat) (width height : Nat)
  | XSetWMHints (window : Nat)
  | XChangeProperty (window property : Nat) (hints : WMHints)
  | XSetWMNormalHints (window : Nat) (hints : XSizeHints)
deriving DecidableEq, Repr

/-- The variable `fullscreenWindow` of the unnamed namespace of
`WindowImplX11.cpp`, what the X server answers to the RandR queries, and the
native requests issued so far.

* `randr`: `XQueryExtension(m_display, "RANDR", ...)` succeeds;
* `screenInfo`: what `XRRGetScreenInfo` returns to the next call, a
  configuration (`true`) or `NULL` (`false`). `switchToFullscreen` and
  `cleanup` each make a call of their own, and the host may answer one call
  differently from the one before: a run of several operations sets this
  field before each of them (`Globals.answering`);
* `currentMode`, `rotation`: what `XRRConfigCurrentConfiguration` returns;
* `sizes`: the array returned by `XRRConfigSizes` (`none` when it is null),
  as (width, height) pairs. -/
structure Globals where
  fullscreenWindow : Option Nat
  randr : Bool
  screenInfo : Bool
  currentMode : Int
  rotation : Nat
  sizes : Option (List (Int × Int))
  calls : List Call
deriving DecidableEq, Repr

/-- The host's `XRRSetScreenConfig`: the request is recorded and the screen
switches to the size of the given index. -/
def XRRSetScreenConfig (g : Globals) (sizeIndex : Int) (rotation : Nat) : Globals :=
  { g with
    calls := g.calls ++ [Call.XRRSetScreenConfig sizeIndex rotation]
    currentMode := sizeIndex }

/-- The search loop of `switchToFullscreen`: the index of the first entry,
counted from `i`, whose width and height both match. -/
def findSize (width height : Int) : List (Int × Int) → Nat → Option Nat
  | [], _ => none
  | s :: rest, i =>
    if s.1 = width ∧ s.2 = height then some i else findSize width height rest (i + 1)

/-- The method `WindowImplX11::switchToFullscreen`. -/
def switchToFullscreen (g : Globals) (w : WindowImplX11) (mode : VideoMode) :
    Globals × WindowImplX11 :=
  if g.randr then
    if g.screenInfo then
      let w1 := { w with m_oldVideoMode := g.currentMode }
      match g.sizes with
      | some sizes =>
        if sizes.length > 0 then
          match findSize (toInt mode.width) (toInt mode.height) sizes 0 with
          | some i =>
            ({ XRRSetScreenConfig g i g.rotation with fullscreenWindow := some w1.addr }, w1)
          | none => (g, w1)
        else (g, w1)
      | none => (g, w1)
    else (g, w)
  else (g, w)

/-- The method `WindowImplX11::initialize`. `atom` is the value returned by
`XInternAtom(m_display, "WM_DELETE_WINDOW", false)`. -/
def initializeWindow (g : Globals) (w : WindowImplX11) (atom : Nat) : Globals × WindowImplX11 :=
  let w1 := { w with m_atomClose := atom }
  ({ g with calls := g.calls ++
      [Call.XSetWMProtocols w1.m_window w1.m_atomClose, Call.XMapWindow w1.m_window] }, w1)

/-- The method `WindowImplX11::cleanup`. -/
def cleanup (g : Globals) (w : WindowImplX11) : Globals :=
  if g.fullscreenWindow = some w.addr then
    let g1 := if g.screenInfo then XRRSetScreenConfig g w.m_oldVideoMode g.rotation else g
    { g1 with fullscreenWindow := none }
  else g

/-- The method `WindowImplX11::processEvent` (it always returns `true`). -/
def processEvent (g : Globals) (w : WindowImplX11) (windowEvent : XEvent) :
    Globals × WindowImplX11 :=
  match windowEvent.data with
  | XEventData.DestroyNotify => (cleanup g w, w)
  | XEventData.FocusIn => (g, { w with events := pushEvent w.events Event.GainedFocus })
  | XEventData.FocusOut => (g, { w with events := pushEvent w.events Event.LostFocus })
  | XEventData.ConfigureNotify width height =>
    (g, { w with events := pushEvent w.events (Event.Resized (toUnsigned width) (toUnsigned height)) })
  | XEventData.ClientMessage format data_l0 =>
    if format = 32 ∧ data_l0 = toLong w.m_atomClose then
      (g, { w with events := pushEvent w.events Event.Closed })
    else (g, w)
  | XEventData.other _ => (g, w)

/-- The host's `XCheckIfEvent` with the predicate `checkEvent` and the window
as user data: the first queued event whose `xany.window` is the given window
is removed from the queue and returned; the other events stay queued. -/
def XCheckIfEvent (window : Nat) : List XEvent → Option (XEvent × List XEvent)
  | [] => none
  | e :: rest =>
    if e.window = window then some (e, rest)
    else (XCheckIfEvent window rest).map (fun r => (r.1, e :: r.2))

set_option linter.unusedVariables false in
/-- The method `WindowImplX11::processEvents` on the event queue of the display: the
queue that is left, the globals and the instance. -/
def processEvents (queue : List XEvent) (g : Globals) (w : WindowImplX11) :
    List XEvent × Globals × WindowImplX11 :=
  match h : XCheckIfEvent w.m_window queue with
  | none => (queue, g, w)
  | some r => processEvents r.2 (processEvent g w r.1).1 (processEvent g w r.1).2
termination_by queue.length
decreasing_by
  have key : ∀ (q : List XEvent) (x : XEvent × List XEvent),
      XCheckIfEvent w.m_window q = some x → x.2.length < q.length := by
    intro q
    induction q with
    | nil => intro x hx; simp [XCheckIfEvent] at hx
    | cons e rest ih =>
      intro x hx
      simp only [XCheckIfEvent] at hx
      split at hx
      · cases hx; simp
      · cases hr : XCheckIfEvent w.m_window rest with
        | none => simp [hr] at hx
        | some y =>
          simp only [hr, Option.map_some', Option.some.injEq] at hx
          subst hx
          have := ih y hr
          simp only [List.length_cons]
          omega
  exact key queue r h

/-- The constructor `WindowImplX11::WindowImplX11(WindowHandle handle)`, for the instance at
address `addr`. `atom` is as in `initializeWindow`. -/
def adopt (g : Globals) (addr handle atom : Nat) : Globals × WindowImplX11 :=
  let w : WindowImplX11 :=
    { addr := addr, m_window := 0, m_isExternal := true, m_atomClose := 0,
      m_oldVideoMode := -1, events := [] }
  let w1 := { w with m_window := handle }
  if w1.m_window ≠ 0 then
    initializeWindow { g with calls := g.calls ++ [Call.XSelectInput w1.m_window] } w1 atom
  else (g, w1)

/-- The method `WindowImplX11::setTitle`. -/
def setTitle (g : Globals) (w : WindowImplX11) (title : String) : Globals :=
  { g with calls := g.calls ++ [Call.XStoreName w.m_window title] }

/-- The constructor `WindowImplX11::WindowImplX11(VideoMode, title, style)`, for the instance
at address `addr`. `createdWindow` is the value returned by `XCreateWindow`,
`wmHintsAtom` the value returned by
`XInternAtom(m_display, "_MOTIF_WM_HINTS", false)`, `atom` as in
`initializeWindow`. The position and size handed to `XCreateWindow` (see
`creationPosition`) are not recorded with the request. -/
def create (g : Globals) (addr : Nat) (mode : VideoMode) (title : String) (style : Nat)
    (createdWindow wmHintsAtom atom : Nat) : Globals × WindowImplX11 :=
  let w : WindowImplX11 :=
    { addr := addr, m_window := 0, m_isExternal := false, m_atomClose := 0,
      m_oldVideoMode := -1, events := [] }
  let fullscreen : Bool := decide (style &&& Style.Fullscreen ≠ 0)
  let r : Globals × WindowImplX11 := if fullscreen then switchToFullscreen g w mode else (g, w)
  let g1 : Globals := { r.1 with calls := r.1.calls ++ [Call.XCreateWindow] }
  let w1 : WindowImplX11 := { r.2 with m_window := createdWindow }
  if w1.m_window = 0 then (g1, w1)
  else
    let g2 : Globals := setTitle g1 w1 title
    let hints : Option WMHints × Option XSizeHints :=
      decorate style wmHintsAtom (toInt mode.width) (toInt mode.height)
    let g3 : Globals := match hints.1 with
      | some motif =>
        { g2 with calls := g2.calls ++ [Call.XChangeProperty w1.m_window wmHintsAtom motif] }
      | none => g2
    let g4 : Globals := match hints.2 with
      | some sizeHints =>
        { g3 with calls := g3.calls ++ [Call.XSetWMNormalHints w1.m_window sizeHints] }
      | none => g3
    initializeWindow g4 w1 atom

/-- The destructor `WindowImplX11::~WindowImplX11`. -/
def destroy (g : Globals) (w : WindowImplX11) : Globals :=
  let g1 := cleanup g w
  if w.m_window ≠ 0 ∧ w.m_isExternal = false then
    { g1 with calls := g1.calls ++ [Call.XDestroyWindow w.m_window] }
  else g1

/-- The host before an operation: `config` is what `XRRGetScreenInfo` returns
to the call that the operation makes (a constructor makes at most one, in
`switchToFullscreen`; a destructor at most one, in `cleanup`). -/
def Globals.answering (g : Globals) (config : Bool) : Globals :=
  { g with screenInfo := config }

/-- One construction of an owned window: the address of the new instance, the
arguments of the constructor, the values the host returns while it runs
(`createdWindow`, `wmHintsAtom`, `atom` as in `create`), and `config`, what
`XRRGetScreenInfo` returns to the call of `switchToFullscreen`. -/
structure Construction where
  addr : Nat
  mode : VideoMode
  title : String
  style : Nat
  createdWindow : Nat
  wmHintsAtom : Nat
  atom : Nat
  config : Bool
deriving DecidableEq, Repr

/-- The constructor `WindowImplX11::WindowImplX11(VideoMode, title, style)` run on one
construction. -/
def construct (g : Globals) (c : Construction) : Globals × WindowImplX11 :=
  create (g.answering c.config) c.addr c.mode c.title c.style c.createdWindow c.wmHintsAtom
    c.atom

/-- The destructor `WindowImplX11::~WindowImplX11` run while `XRRGetScreenInfo` returns
`config`. -/
def teardown (g : Globals) (w : WindowImplX11) (config : Bool) : Globals :=
  destroy (g.answering config) w

end WindowImplX11

/-! ## Uniform control surface -/

/-- The method `WindowImplWin32::processEvents`. `dispatched` are the messages
that `DispatchMessage` hands, through `globalOnEvent`, to `processEvent` of
this instance while the `PeekMessage` loop runs. -/
def WindowImplWin32.processEvents (g : WindowImplWin32.Globals) (w : WindowImplWin32)
    (dispatched : List WindowImplWin32.Delivery) : WindowImplWin32.Globals × WindowImplWin32 :=
  if w.m_callback = 0 then WindowImplWin32.deliver (g, w) dispatched else (g, w)

/-- The method `WindowImplWin32::setPosition`:
`SetWindowPos(m_handle, NULL, x, y, 0, 0, SWP_NOSIZE | SWP_NOZORDER)`. -/
def WindowImplWin32.setPosition (g : WindowImplWin32.Globals) (w : WindowImplWin32)
    (x y : Int) : WindowImplWin32.Globals :=
  { g with calls := g.calls ++ [WindowImplWin32.Call.MoveWindow w.m_handle x y] }

/-- The method `WindowImplWin32::setSize`. `adjusted` is the width and height of
the rectangle after `AdjustWindowRect` has grown it by the frame of the style
read with `GetWindowLong(m_handle, GWL_STYLE)`; the request is
`SetWindowPos(m_handle, NULL, 0, 0, width, height, SWP_NOMOVE | SWP_NOZORDER)`. -/
def WindowImplWin32.setSize (g : WindowImplWin32.Globals) (w : WindowImplWin32)
    (adjusted : Int × Int) : WindowImplWin32.Globals :=
  { g with calls := g.calls ++ [WindowImplWin32.Call.GetWindowStyle w.m_handle,
      WindowImplWin32.Call.ResizeWindow w.m_handle adjusted.1 adjusted.2] }

/-- The method `WindowImplWin32::setTitle`. -/
def WindowImplWin32.setTitle (g : WindowImplWin32.Globals) (w : WindowImplWin32)
    (title : String) : WindowImplWin32.Globals :=
  { g with calls := g.calls ++ [WindowImplWin32.Call.SetWindowText w.m_handle title] }

/-- The method `WindowImplWin32::setIcon`. `createdIcon` is the value returned
by `CreateIcon`. -/
def WindowImplWin32.setIcon (g : WindowImplWin32.Globals) (w : WindowImplWin32)
    (width height : Nat) (pixels : Nat → Nat) (createdIcon : Nat) :
    WindowImplWin32.Globals × WindowImplWin32 :=
  let g1 := if w.m_icon ≠ 0 then
    { g with calls := g.calls ++ [WindowImplWin32.Call.DestroyIcon w.m_icon] } else g
  let iconPixels := WindowImplWin32.setIcon_iconPixels width height pixels
  let g2 := { g1 with calls := g1.calls ++ [WindowImplWin32.Call.CreateIcon width height iconPixels] }
  let w1 := { w with m_icon := createdIcon }
  if w1.m_icon ≠ 0 then
    ({ g2 with calls := g2.calls ++ [WindowImplWin32.Call.SetIcon w1.m_handle true w1.m_icon,
        WindowImplWin32.Call.SetIcon w1.m_handle false w1.m_icon] }, w1)
  else (g2, w1)

/-- The method `WindowImplWin32::setVisible`. `shown` is the host's visible flag
of each native window, by handle; `ShowWindow(m_handle, SW_SHOW / SW_HIDE)`
sets the flag of `m_handle`. -/
def WindowImplWin32.setVisible (shown : Nat → Bool) (g : WindowImplWin32.Globals)
    (w : WindowImplWin32) (visible : Bool) : (Nat → Bool) × WindowImplWin32.Globals :=
  (Function.update shown w.m_handle visible,
    { g with calls := g.calls ++ [WindowImplWin32.Call.ShowWindow w.m_handle visible] })

/-- The method `WindowImplX11::setPosition`. -/
def WindowImplX11.setPosition (g : WindowImplX11.Globals) (w : WindowImplX11) (x y : Int) :
    WindowImplX11.Globals :=
  { g with calls := g.calls ++ [WindowImplX11.Call.XMoveWindow w.m_window x y] }

/-- The method `WindowImplX11::setSize`. -/
def WindowImplX11.setSize (g : WindowImplX11.Globals) (w : WindowImplX11) (size : Vector2u) :
    WindowImplX11.Globals :=
  { g with calls := g.calls ++ [WindowImplX11.Call.XResizeWindow w.m_window size.x size.y] }

/-- The method `WindowImplX11::setIcon`: the globals and the function-local
static mask vector after the call, `none` when a write leaves its buffer.
`maskStatic` is the static before the call, `imageOk` tells whether
`XCreateImage` returns an image (when it does not, the method returns before
the declaration of the static is reached). -/
def WindowImplX11.setIcon (g : WindowImplX11.Globals) (w : WindowImplX11)
    (maskStatic : Option (List Nat)) (width height : Nat) (junk pixels : Nat → Nat)
    (imageOk : Bool) : Option (WindowImplX11.Globals × Option (List Nat)) :=
  (WindowImplX11.setIcon_iconPixels width height junk pixels).bind fun iconPixels =>
    let g1 : WindowImplX11.Globals :=
      { g with calls := g.calls ++ [WindowImplX11.Call.XCreateImage iconPixels width height] }
    if imageOk = false then some (g1, maskStatic)
    else
      let g2 : WindowImplX11.Globals :=
        { g1 with calls := g1.calls ++
            [WindowImplX11.Call.XCreatePixmap width height, WindowImplX11.Call.XPutImage width height] }
      (WindowImplX11.setIcon_maskPixels maskStatic width height pixels).bind fun maskPixels =>
        some ({ g2 with calls := g2.calls ++
            [WindowImplX11.Call.XCreatePixmapFromBitmapData w.m_window maskPixels width height,
             WindowImplX11.Call.XSetWMHints w.m_window] }, some maskPixels)

/-- The method `WindowImplX11::setVisible`. `shown` is the host's mapped flag of
each native window, by window id; `XMapWindow` sets and `XUnmapWindow` clears
the flag of `m_window`. -/
def WindowImplX11.setVisible (shown : Nat → Bool) (g : WindowImplX11.Globals)
    (w : WindowImplX11) (visible : Bool) : (Nat → Bool) × WindowImplX11.Globals :=
  if visible then
    (Function.update shown w.m_window true,
      { g with calls := g.calls ++ [WindowImplX11.Call.XMapWindow w.m_window] })
  else
    (Function.update shown w.m_window false,
      { g with calls := g.calls ++ [WindowImplX11.Call.XUnmapWindow w.m_window] })

/-! ## Creation position -/

/-- The expression `(display - extent) / 2` of both constructors, where
`display` is an `int` (`DisplayWidth`, `GetDeviceCaps`) and `extent` an
`unsigned int` (`mode.width`): the `int` is converted to `unsigned int`, the
difference and the quotient are computed in `unsigned int`, and the result is
stored in an `int`. -/
def centredOffset (display : Int) (extent : Nat) : Int :=
  toInt ((toUnsigned display + UINT_MOD - extent % UINT_MOD) % UINT_MOD / 2)

/-- The position `left`, `top` handed to `XCreateWindow` by
`WindowImplX11::WindowImplX11(VideoMode, title, style)`. -/
def WindowImplX11.creationPosition (displayWidth displayHeight : Int) (mode : VideoMode)
    (fullscreen : Bool) : Int × Int :=
  if fullscreen = false then
    (centredOffset displayWidth mode.width, centredOffset displayHeight mode.height)
  else (0, 0)

/-- The position `left`, `top` handed to `CreateWindow` by
`WindowImplWin32::WindowImplWin32(VideoMode, title, style)`; `horzRes` and
`vertRes` are the values of `GetDeviceCaps(screenDC, HORZRES / VERTRES)`. The
constructor does not look at the style here. -/
def WindowImplWin32.creationPosition (horzRes vertRes : Int) (mode : VideoMode) : Int × Int :=
  (centredOffset horzRes mode.width, centredOffset vertRes mode.height)

/-! ## Specification predicates -/

/-- The four bytes of pixel `i` of `out` are the bytes of pixel `i` of `pixels`
with the red and blue channels exchanged. -/
def SwappedAt (pixels : Nat → Nat) (out : List Nat) (i : Nat) : Prop :=
  out[4 * i]? = some (pixels (4 * i + 2)) ∧ out[4 * i + 1]? = some (pixels (4 * i + 1)) ∧
  out[4 * i + 2]? = some (pixels (4 * i)) ∧ out[4 * i + 3]? = some (pixels (4 * i + 3))

/-- Bit `t` of byte `b` of a mask buffer. -/
def maskBitAt (m : List Nat) (b t : Nat) : Bool := (m.getD b 0).testBit t

/-- Buffer `m2` has the size of `m1`, and its bits (of significance below 8)
are those of `m1` together with the bits selected by `P`. -/
def MaskAdds (m1 m2 : List Nat) (P : Nat → Nat → Prop) : Prop :=
  m2.length = m1.length ∧
    ∀ b t, t < 8 → (maskBitAt m2 b t = true ↔ (maskBitAt m1 b t = true ∨ P b t))

/-- Opacity of the pixel in column `x` of row `y`: its alpha byte is positive. -/
def opaqueAt (width : Nat) (pixels : Nat → Nat) (x y : Nat) : Prop :=
  pixels ((x + y * width) * 4 + 3) > 0

/-- The drag of a window border as the host reports it: `WM_ENTERSIZEMOVE`,
one `WM_SIZE` for each entry of `moves` (its `wParam` and the client size at
that time), then `WM_EXITSIZEMOVE` when the client size is `final`. -/
def WindowImplWin32.dragSequence (wParam0 : Nat) (size0 : Vector2u)
    (moves : List (Nat × Vector2u)) (wParam1 : Nat) (final : Vector2u) :
    List WindowImplWin32.Delivery :=
  [⟨WindowImplWin32.Message.WM_ENTERSIZEMOVE, wParam0, size0⟩] ++
    moves.map (fun m => ⟨WindowImplWin32.Message.WM_SIZE, m.1, m.2⟩) ++
    [⟨WindowImplWin32.Message.WM_EXITSIZEMOVE, wParam1, final⟩]

/-- The native requests issued between two states of the Win32 globals. -/
def WindowImplWin32.issued (before after : WindowImplWin32.Globals) :
    List WindowImplWin32.Call :=
  after.calls.drop before.calls.length

/-- The native requests issued between two states of the X11 globals. -/
def WindowImplX11.issued (before after : WindowImplX11.Globals) : List WindowImplX11.Call :=
  after.calls.drop before.calls.length

/-- Display-mode requests of the Win32 backend. -/
def WindowImplWin32.Call.isModeRequest : WindowImplWin32.Call → Bool
  | WindowImplWin32.Call.ChangeDisplaySettings _ => true
  | _ => false

/-- Display-mode requests of the X11 backend. -/
def WindowImplX11.Call.isModeRequest : WindowImplX11.Call → Bool
  | WindowImplX11.Call.XRRSetScreenConfig _ _ => true
  | _ => false

/-- The mode switch of `WindowImplX11::switchToFullscreen` succeeds: RandR is
present, the screen configuration can be read and some available size matches
the requested mode exactly. -/
def WindowImplX11.switchSucceeds (g : WindowImplX11.Globals) (mode : VideoMode) : Prop :=
  g.randr = true ∧ g.screenInfo = true ∧
    ∃ sizes i, g.sizes = some sizes ∧
      WindowImplX11.findSize (toInt mode.width) (toInt mode.height) sizes 0 = some i

/-- The notification-to-event table of the specification, for X11: what one
notification contributes to the sink of a window whose close atom is
`atomClose`. -/
def WindowImplX11.translation (atomClose : Nat) (e : WindowImplX11.XEvent) : List Event :=
  match e.data with
  | WindowImplX11.XEventData.DestroyNotify => []
  | WindowImplX11.XEventData.FocusIn => [Event.GainedFocus]
  | WindowImplX11.XEventData.FocusOut => [Event.LostFocus]
  | WindowImplX11.XEventData.ConfigureNotify width height =>
    [Event.Resized (toUnsigned width) (toUnsigned height)]
  | WindowImplX11.XEventData.ClientMessage format data_l0 =>
    if format = 32 ∧ data_l0 = toLong atomClose then [Event.Closed] else []
  | WindowImplX11.XEventData.other _ => []

/-- The states of the X11 scenario "create A fullscreen, create B fullscreen,
destroy B, destroy A". -/
structure WindowImplX11.Nested where
  createdA : WindowImplX11.Globals × WindowImplX11
  createdB : WindowImplX11.Globals × WindowImplX11
  destroyedB : WindowImplX11.Globals
  destroyedA : WindowImplX11.Globals

/-- The X11 scenario "create A, create B, destroy B, destroy A", run from the
globals `g0`; `configB` and `configA` are what `XRRGetScreenInfo` returns
during the teardown of B and of A. -/
def WindowImplX11.nested (g0 : WindowImplX11.Globals) (a b : WindowImplX11.Construction)
    (configB configA : Bool) : WindowImplX11.Nested :=
  let sa := WindowImplX11.construct g0 a
  let sb := WindowImplX11.construct sa.1 b
  let gB := WindowImplX11.teardown sb.1 sb.2 configB
  { createdA := sa, createdB := sb, destroyedB := gB,
    destroyedA := WindowImplX11.teardown gB sa.2 configA }

/-- The states of the Win32 scenario "create A fullscreen, create B
fullscreen, destroy B, destroy A". -/
structure WindowImplWin32.Nested where
  createdA : WindowImplWin32.Globals × WindowImplWin32
  createdB : WindowImplWin32.Globals × WindowImplWin32
  destroyedB : WindowImplWin32.Globals
  destroyedA : WindowImplWin32.Globals

/-- The Win32 scenario "create A fullscreen, create B fullscreen, destroy B,
destroy A" with both `ChangeDisplaySettings` calls successful, run from the
globals `g0`. -/
def WindowImplWin32.nested (g0 : WindowImplWin32.Globals) (addrA addrB : Nat)
    (modeA modeB : VideoMode) (handleA handleB : Nat) : WindowImplWin32.Nested :=
  let a := WindowImplWin32.create g0 addrA modeA true handleA true
  let b := WindowImplWin32.create a.1 addrB modeB true handleB true
  let gB := WindowImplWin32.destroy b.1 b.2
  { createdA := a, createdB := b, destroyedB := gB, destroyedA := WindowImplWin32.destroy gB a.2 }

/-- An available display size matches the requested mode exactly, as
`switchToFullscreen` compares them (the mode's `unsigned int` extents are
converted to `int`). -/
def WindowImplX11.sizeMatches (mode : VideoMode) (s : Int × Int) : Prop :=
  s.1 = toInt mode.width ∧ s.2 = toInt mode.height

/-- The sizes carried by the `Resized` events of a list of events, in order. -/
def resizedSizes (events : List Event) : List Vector2u :=
  events.filterMap fun e =>
    match e with
    | Event.Resized width height => some ⟨width, height⟩
    | _ => none

/-- The centred offset `(display - extent) / 2` computed on signed integers,
with the quotient of C (rounded towards zero). -/
def signedCentre (display : Int) (extent : Nat) : Int :=
  Int.tdiv (display - (extent : Int)) 2

/-- The Win32 instance that `WindowImplWin32(NULL)` constructs at address
`addr`. -/
def WindowImplWin32.nullAdopted (addr : Nat) : WindowImplWin32 :=
  { addr := addr, m_handle := 0, m_callback := 0, m_icon := 0, m_lastSize := ⟨0, 0⟩,
    m_resizing := false, events := [] }

/-- The X11 instance that `WindowImplX11(0)` constructs at address `addr`. -/
def WindowImplX11.nullAdopted (addr : Nat) : WindowImplX11 :=
  { addr := addr, m_window := 0, m_isExternal := true, m_atomClose := 0, m_oldVideoMode := -1,
    events := [] }

/-- Constructions of owned X11 windows and destructions of instances; a
destruction carries what `XRRGetScreenInfo` returns while it runs. -/
inductive WindowImplX11.Op where
  | create (c : WindowImplX11.Construction)
  | destroy (addr : Nat) (config : Bool)
deriving DecidableEq, Repr

/-- An X11 process: the globals and the live instances. -/
structure WindowImplX11.Process where
  g : WindowImplX11.Globals
  live : List WindowImplX11
deriving DecidableEq, Repr

/-- One construction, or one destruction. Destroying an address that is not
live does nothing. -/
def WindowImplX11.Process.step (p : WindowImplX11.Process) :
    WindowImplX11.Op → WindowImplX11.Process
  | WindowImplX11.Op.create c =>
    { g := (WindowImplX11.construct p.g c).1,
      live := p.live ++ [(WindowImplX11.construct p.g c).2] }
  | WindowImplX11.Op.destroy addr config =>
    match p.live.find? (fun w => decide (w.addr = addr)) with
    | some w =>
      { g := WindowImplX11.teardown p.g w config,
        live := p.live.filter (fun w => decide (w.addr ≠ addr)) }
    | none => p

/-- A sequence of constructions and destructions. -/
def WindowImplX11.Process.run (p : WindowImplX11.Process) (ops : List WindowImplX11.Op) :
    WindowImplX11.Process :=
  ops.foldl WindowImplX11.Process.step p

/-- A construction is that of a fullscreen window whose mode switch succeeds
in the state `g`: its style has `Fullscreen`, and RandR is present, the call
of `XRRGetScreenInfo` returns a configuration and an available size matches
the mode. -/
def WindowImplX11.Construction.switches (g : WindowImplX11.Globals)
    (c : WindowImplX11.Construction) : Prop :=
  c.style &&& Style.Fullscreen ≠ 0 ∧ WindowImplX11.switchSucceeds (g.answering c.config) c.mode

/-- Every construction of the sequence is that of a fullscreen window and
finds the mode switch successful, in the state in which it runs. -/
def WindowImplX11.Process.switchesSucceed :
    WindowImplX11.Process → List WindowImplX11.Op → Prop
  | _, [] => True
  | p, WindowImplX11.Op.create c :: rest =>
    c.switches p.g ∧
      WindowImplX11.Process.switchesSucceed (p.step (WindowImplX11.Op.create c)) rest
  | p, WindowImplX11.Op.destroy addr config :: rest =>
    WindowImplX11.Process.switchesSucceed (p.step (WindowImplX11.Op.destroy addr config)) rest

/-- No window of the sequence is constructed while another one holds the
owner slot. -/
def WindowImplX11.Process.oneAtATime :
    WindowImplX11.Process → List WindowImplX11.Op → Prop
  | _, [] => True
  | p, WindowImplX11.Op.create c :: rest =>
    p.g.fullscreenWindow = none ∧
      WindowImplX11.Process.oneAtATime (p.step (WindowImplX11.Op.create c)) rest
  | p, WindowImplX11.Op.destroy addr config :: rest =>
    WindowImplX11.Process.oneAtATime (p.step (WindowImplX11.Op.destroy addr config)) rest

/-- The call of `XRRGetScreenInfo` that a destruction of the sequence makes
returns a configuration (a destructor makes the call only when its instance
holds the owner slot). -/
def WindowImplX11.Process.restoresAnswered :
    WindowImplX11.Process → List WindowImplX11.Op → Prop
  | _, [] => True
  | p, WindowImplX11.Op.create c :: rest =>
    WindowImplX11.Process.restoresAnswered (p.step (WindowImplX11.Op.create c)) rest
  | p, WindowImplX11.Op.destroy addr config :: rest =>
    (p.g.fullscreenWindow = some addr → config = true) ∧
      WindowImplX11.Process.restoresAnswered (p.step (WindowImplX11.Op.destroy addr config)) rest

/-- The fullscreen-owner slot, when set, holds the address of a live instance. -/
def WindowImplX11.Process.ownerIsLive (p : WindowImplX11.Process) : Prop :=
  ∀ a, p.g.fullscreenWindow = some a → ∃ w ∈ p.live, w.addr = a

/-- With at most one fullscreen window at a time: either the slot is empty, no
instance is live and the display is in mode `m0`, or the only live instance is
the owner and it has saved `m0`. -/
def WindowImplX11.Process.soleOwner (p : WindowImplX11.Process) (m0 : Int) : Prop :=
  (p.g.fullscreenWindow = none → p.live = [] ∧ p.g.currentMode = m0) ∧
  (∀ a, p.g.fullscreenWindow = some a →
    ∃ w, p.live = [w] ∧ w.addr = a ∧ w.m_oldVideoMode = m0)

/-- Sample state of the X11 globals with an empty owner slot: RandR present
with three sizes, the display in mode 2. -/
def WindowImplX11.idleGlobals : WindowImplX11.Globals :=
  { fullscreenWindow := none, randr := true, screenInfo := true, currentMode := 2,
    rotation := 1, sizes := some [(640, 480), (800, 600), (1024, 768)], calls := [] }

/-- Sample construction A: a fullscreen 800 x 600 window at address 1, while
`XRRGetScreenInfo` returns a configuration. -/
def WindowImplX11.constructionA : WindowImplX11.Construction :=
  { addr := 1, mode := ⟨800, 600, 32⟩, title := "A", style := Style.Fullscreen,
    createdWindow := 7, wmHintsAtom := 0, atom := 99, config := true }

/-- Sample construction B: a fullscreen 640 x 480 window at address 2, while
`XRRGetScreenInfo` returns a configuration. -/
def WindowImplX11.constructionB : WindowImplX11.Construction :=
  { addr := 2, mode := ⟨640, 480, 32⟩, title := "B", style := Style.Fullscreen,
    createdWindow := 8, wmHintsAtom := 0, atom := 99, config := true }

/-- Sample sequence with one fullscreen window at a time: A is created and
destroyed, then B is created and destroyed; every teardown finds a screen
configuration. -/
def WindowImplX11.sequentialOps : List WindowImplX11.Op :=
  [WindowImplX11.Op.create WindowImplX11.constructionA, WindowImplX11.Op.destroy 1 true,
   WindowImplX11.Op.create WindowImplX11.constructionB, WindowImplX11.Op.destroy 2 true]

/-- Sample sequence with two fullscreen windows alive at once: A and B are
created, then B and A are destroyed; every teardown finds a screen
configuration. -/
def WindowImplX11.overlappingOps : List WindowImplX11.Op :=
  [WindowImplX11.Op.create WindowImplX11.constructionA,
   WindowImplX11.Op.create WindowImplX11.constructionB,
   WindowImplX11.Op.destroy 2 true, WindowImplX11.Op.destroy 1 true]

/-- Sample sequence with one fullscreen window, during whose teardown
`XRRGetScreenInfo` returns `NULL`. -/
def WindowImplX11.unansweredOps : List WindowImplX11.Op :=
  [WindowImplX11.Op.create WindowImplX11.constructionA, WindowImplX11.Op.destroy 1 false]

/-- Sample state of the Win32 globals: one window, which is the fullscreen
owner. -/
def WindowImplWin32.sampleGlobals : WindowImplWin32.Globals :=
  { windowCount := 1, fullscreenWindow := some 1, calls := [] }

/-- Sample Win32 instance: created, with handle 5 and last size 10 x 10. -/
def WindowImplWin32.sampleWindow : WindowImplWin32 :=
  { addr := 1, m_handle := 5, m_callback := 0, m_icon := 0, m_lastSize := ⟨10, 10⟩,
    m_resizing := false, events := [] }

/-- Sample state of the X11 globals: RandR present with two sizes, the window
at address 1 is the fullscreen owner. -/
def WindowImplX11.sampleGlobals : WindowImplX11.Globals :=
  { fullscreenWindow := some 1, randr := true, screenInfo := true, currentMode := 1,
    rotation := 1, sizes := some [(640, 480), (800, 600)], calls := [] }

/-- Sample X11 instance: created, with window 7 and close atom 99. -/
def WindowImplX11.sampleWindow : WindowImplX11 :=
  { addr := 1, m_window := 7, m_isExternal := false, m_atomClose := 99, m_oldVideoMode := 0,
    events := [] }

/-! ## Theorems -/

/-! ### Loop rules -/

theorem forLoopM_inv {σ : Type} (body : Nat → σ → Option σ) (Inv : Nat → σ → Prop)
    (n : Nat) (s0 : σ) (h0 : Inv 0 s0)
    (hstep : ∀ i s, i < n → Inv i s → ∃ s', body i s = some s' ∧ Inv (i + 1) s') :
    ∃ s', forLoopM body n s0 = some s' ∧ Inv n s' := by
  induction n with
  | zero => exact ⟨s0, rfl, h0⟩
  | succ n ih =>
    obtain ⟨s1, h1, hI⟩ := ih (fun i s hi => hstep i s (Nat.lt_succ_of_lt hi))
    obtain ⟨s2, h2, hI2⟩ := hstep n s1 (Nat.lt_succ_self n) hI
    exact ⟨s2, by simp [forLoopM, h1, h2], hI2⟩

theorem forLoop_inv {σ : Type} (body : Nat → σ → σ) (Inv : Nat → σ → Prop)
    (n : Nat) (s0 : σ) (h0 : Inv 0 s0)
    (hstep : ∀ i s, i < n → Inv i s → Inv (i + 1) (body i s)) :
    Inv n (forLoop body n s0) := by
  induction n with
  | zero => exact h0
  | succ n ih =>
    exact hstep n _ (Nat.lt_succ_self n) (ih (fun i s hi => hstep i s (Nat.lt_succ_of_lt hi)))

/-- Once an iteration has left defined behaviour, the loop has. -/
theorem forLoopM_none_of_le {σ : Type} (body : Nat → σ → Option σ) (k n : Nat) (s : σ)
    (hk : forLoopM body k s = none) (hkn : k ≤ n) : forLoopM body n s = none := by
  induction n with
  | zero =>
    have h0 : k = 0 := Nat.le_zero.mp hkn
    subst h0
    exact hk
  | succ m ih =>
    rcases Nat.lt_or_ge k (m + 1) with hlt | hge
    · simp [forLoopM, ih (Nat.lt_succ_iff.mp hlt)]
    · have he : k = m + 1 := Nat.le_antisymm hkn hge
      subst he
      exact hk

/-! ### Icon channel conversion -/

theorem WindowImplWin32.swapPixel_length (pixels : Nat → Nat) (i : Nat) (buf : List Nat) :
    (WindowImplWin32.swapPixel pixels i buf).length = buf.length := by
  simp [WindowImplWin32.swapPixel]

theorem WindowImplWin32.swapPixel_getElem? (pixels : Nat → Nat) (i : Nat) (buf : List Nat)
    (idx : Nat) (h : idx < 4 * i ∨ 4 * i + 4 ≤ idx) :
    (WindowImplWin32.swapPixel pixels i buf)[idx]? = buf[idx]? := by
  simp only [WindowImplWin32.swapPixel]
  rw [List.getElem?_set_ne (by omega), List.getElem?_set_ne (by omega),
    List.getElem?_set_ne (by omega), List.getElem?_set_ne (by omega)]

theorem WindowImplWin32.swapPixel_swapped (pixels : Nat → Nat) (i : Nat) (buf : List Nat)
    (h : 4 * i + 4 ≤ buf.length) :
    SwappedAt pixels (WindowImplWin32.swapPixel pixels i buf) i := by
  have e : i * 4 = 4 * i := Nat.mul_comm _ _
  simp only [WindowImplWin32.swapPixel, SwappedAt, e, Nat.add_zero]
  refine ⟨?_, ?_, ?_, ?_⟩
  · rw [List.getElem?_set_ne (by omega), List.getElem?_set_ne (by omega),
      List.getElem?_set_ne (by omega), List.getElem?_set_self (by omega)]
  · rw [List.getElem?_set_ne (by omega), List.getElem?_set_ne (by omega),
      List.getElem?_set_self (by simp; omega)]
  · rw [List.getElem?_set_ne (by omega), List.getElem?_set_self (by simp; omega)]
  · rw [List.getElem?_set_self (by simp; omega)]

theorem WindowImplWin32.swapLoop_spec_win32 (pixels : Nat → Nat) (n : Nat) (buf : List Nat)
    (h : 4 * n ≤ buf.length) :
    (forLoop (WindowImplWin32.swapPixel pixels) n buf).length = buf.length ∧
      ∀ i, i < n → SwappedAt pixels (forLoop (WindowImplWin32.swapPixel pixels) n buf) i := by
  refine forLoop_inv (WindowImplWin32.swapPixel pixels)
    (fun k out => out.length = buf.length ∧ ∀ i, i < k → SwappedAt pixels out i) n buf
    ⟨rfl, fun i hi => absurd hi (Nat.not_lt_zero i)⟩ ?_
  intro k out hk hinv
  obtain ⟨hlen, hsw⟩ := hinv
  refine ⟨by rw [WindowImplWin32.swapPixel_length, hlen], fun i hi => ?_⟩
  rcases Nat.lt_succ_iff_lt_or_eq.mp hi with hlt | heq
  · have hprev := hsw i hlt
    simp only [SwappedAt] at hprev ⊢
    rw [WindowImplWin32.swapPixel_getElem? _ _ _ _ (by omega),
      WindowImplWin32.swapPixel_getElem? _ _ _ _ (by omega),
      WindowImplWin32.swapPixel_getElem? _ _ _ _ (by omega),
      WindowImplWin32.swapPixel_getElem? _ _ _ _ (by omega)]
    exact hprev
  · subst heq
    exact WindowImplWin32.swapPixel_swapped pixels i out (by omega)

theorem WindowImplX11.swapPixel_eq (pixels : Nat → Nat) (i : Nat) (buf : List Nat)
    (h : 4 * i + 4 ≤ buf.length) :
    WindowImplX11.swapPixel pixels i buf = some (WindowImplWin32.swapPixel pixels i buf) := by
  simp only [WindowImplX11.swapPixel, WindowImplWin32.swapPixel, writeByte]
  rw [if_pos (by omega)]
  simp only [Option.some_bind, List.length_set]
  rw [if_pos (by omega)]
  simp only [Option.some_bind, List.length_set]
  rw [if_pos (by omega)]
  simp only [Option.some_bind, List.length_set]
  rw [if_pos (by omega)]

theorem WindowImplX11.swapLoop_spec_x11 (pixels : Nat → Nat) (n : Nat) (buf : List Nat)
    (h : 4 * n ≤ buf.length) :
    ∃ out, forLoopM (WindowImplX11.swapPixel pixels) n buf = some out ∧
      out.length = buf.length ∧ ∀ i, i < n → SwappedAt pixels out i := by
  refine forLoopM_inv (WindowImplX11.swapPixel pixels)
    (fun k out => out = forLoop (WindowImplWin32.swapPixel pixels) k buf) n buf rfl ?_ |>.imp ?_
  · intro k out hk hout
    subst hout
    have hl := (WindowImplWin32.swapLoop_spec_win32 pixels k buf (by omega)).1
    exact ⟨_, WindowImplX11.swapPixel_eq pixels k _ (by omega), rfl⟩
  · rintro out ⟨h1, rfl⟩
    exact ⟨h1, WindowImplWin32.swapLoop_spec_win32 pixels n buf h⟩

/-- When the byte count `w * h * 4` is below `2^32` (so that the
`unsigned int` products `width * height * 4` and `width * height` do not wrap),
both `WindowImplX11::setIcon` and `WindowImplWin32::setIcon` build a native buffer of
`w * h * 4` bytes in which every pixel `i < w * h` holds B, G, R, A:
`out[4i] = in[4i+2]`, `out[4i+1] = in[4i+1]`, `out[4i+2] = in[4i]`,
`out[4i+3] = in[4i+3]`. -/
theorem setIcon_iconPixels_swapped (w h : Nat) (junk pixels : Nat → Nat)
    (hsize : w * h * 4 < UINT_MOD) :
    (∃ out, WindowImplX11.setIcon_iconPixels w h junk pixels = some out ∧
      out.length = w * h * 4 ∧ ∀ i, i < w * h → SwappedAt pixels out i) ∧
    ((WindowImplWin32.setIcon_iconPixels w h pixels).length = w * h * 4 ∧
      ∀ i, i < w * h → SwappedAt pixels (WindowImplWin32.setIcon_iconPixels w h pixels) i) := by
  have h4 : w * h * 4 % UINT_MOD = w * h * 4 := Nat.mod_eq_of_lt hsize
  have h1 : w * h % UINT_MOD = w * h := Nat.mod_eq_of_lt (by omega)
  constructor
  · simp only [WindowImplX11.setIcon_iconPixels, h4, h1]
    have hlen : (mallocBytes (w * h * 4) junk).length = w * h * 4 := by simp [mallocBytes]
    obtain ⟨out, ho, hl, hs⟩ :=
      WindowImplX11.swapLoop_spec_x11 pixels (w * h) (mallocBytes (w * h * 4) junk) (by omega)
    exact ⟨out, ho, by omega, hs⟩
  · simp only [WindowImplWin32.setIcon_iconPixels, h4, List.length_replicate]
    have hd : w * h * 4 / 4 = w * h := Nat.mul_div_cancel _ (by decide)
    rw [hd]
    have := WindowImplWin32.swapLoop_spec_win32 pixels (w * h) (List.replicate (w * h * 4) 0)
      (by simp; omega)
    simpa using this

/-- One pass of the X11 channel-swap loop over a pixel that does not lie
entirely inside the block writes outside the block. -/
theorem WindowImplX11.swapPixel_overrun (pixels : Nat → Nat) (i : Nat) (buf : List Nat)
    (h : buf.length < 4 * i + 4) : WindowImplX11.swapPixel pixels i buf = none := by
  simp only [WindowImplX11.swapPixel, writeByte]
  by_cases h0 : i * 4 + 0 < buf.length
  · rw [if_pos h0]
    simp only [Option.some_bind, List.length_set]
    by_cases h1 : i * 4 + 1 < buf.length
    · rw [if_pos h1]
      simp only [Option.some_bind, List.length_set]
      by_cases h2 : i * 4 + 2 < buf.length
      · rw [if_pos h2]
        simp only [Option.some_bind, List.length_set]
        rw [if_neg (by omega)]
      · rw [if_neg h2]
        rfl
    · rw [if_neg h1]
      rfl
  · rw [if_neg h0]
    rfl

/-- The X11 channel-swap loop, run for more pixels than the block holds,
writes outside the block. -/
theorem WindowImplX11.swapLoop_overrun (pixels : Nat → Nat) (buf : List Nat) (n : Nat)
    (h : buf.length < 4 * n) : forLoopM (WindowImplX11.swapPixel pixels) n buf = none := by
  obtain ⟨out, ho, hl, -⟩ :=
    WindowImplX11.swapLoop_spec_x11 pixels (buf.length / 4) buf (by omega)
  have hk : forLoopM (WindowImplX11.swapPixel pixels) (buf.length / 4 + 1) buf = none := by
    simp only [forLoopM, ho, Option.some_bind]
    exact WindowImplX11.swapPixel_overrun pixels _ out (by omega)
  exact forLoopM_none_of_le _ _ n buf hk (by omega)

/-- The method `WindowImplX11::setIcon` leaves defined behaviour in its channel-swap
loop whenever the wrapped byte count `(width * height * 4) mod 2^32` is below
four times the wrapped loop bound `(width * height) mod 2^32`. -/
theorem WindowImplX11.setIcon_overrun (g : WindowImplX11.Globals) (w : WindowImplX11)
    (maskStatic : Option (List Nat)) (width height : Nat) (junk pixels : Nat → Nat)
    (imageOk : Bool)
    (h : width * height * 4 % UINT_MOD < 4 * (width * height % UINT_MOD)) :
    WindowImplX11.setIcon_iconPixels width height junk pixels = none ∧
    WindowImplX11.setIcon g w maskStatic width height junk pixels imageOk = none := by
  have hn : WindowImplX11.setIcon_iconPixels width height junk pixels = none := by
    simp only [WindowImplX11.setIcon_iconPixels]
    exact WindowImplX11.swapLoop_overrun pixels _ _ (by simpa [mallocBytes] using h)
  exact ⟨hn, by simp [WindowImplX11.setIcon, hn]⟩

/-- C1, the code at the failing input: a 65536 x 16384 icon (both extents are
values of `unsigned int`) whose pixels are (10, 20, 30, 255). Its byte count
`65536 * 16384 * 4 = 2^32` wraps to 0 in `unsigned int`.
`WindowImplWin32::setIcon` builds an empty vector and hands it to `CreateIcon`:
pixel 0 of the native buffer does not hold (30, 20, 10, 255).
`WindowImplX11::setIcon` allocates 0 bytes, and its loop, which runs `2^30` times,
writes outside the block at once: the method leaves defined behaviour. -/
theorem setIcon_channel_conversion_wraps :
    (65536 < UINT_MOD ∧ 16384 < UINT_MOD ∧ 0 < 65536 * 16384 ∧
      65536 * 16384 * 4 % UINT_MOD = 0) ∧
    (WindowImplWin32.setIcon_iconPixels 65536 16384 (fun i => [10, 20, 30, 255].getD (i % 4) 0)
        = [] ∧
      ¬ SwappedAt (fun i => [10, 20, 30, 255].getD (i % 4) 0)
        (WindowImplWin32.setIcon_iconPixels 65536 16384
          (fun i => [10, 20, 30, 255].getD (i % 4) 0)) 0 ∧
      (WindowImplWin32.setIcon WindowImplWin32.sampleGlobals WindowImplWin32.sampleWindow
          65536 16384 (fun i => [10, 20, 30, 255].getD (i % 4) 0) 3).1.calls
        = [WindowImplWin32.Call.CreateIcon 65536 16384 [],
            WindowImplWin32.Call.SetIcon 5 true 3, WindowImplWin32.Call.SetIcon 5 false 3]) ∧
    (WindowImplX11.setIcon_iconPixels 65536 16384 (fun _ => 0)
        (fun i => [10, 20, 30, 255].getD (i % 4) 0) = none ∧
      WindowImplX11.setIcon WindowImplX11.sampleGlobals WindowImplX11.sampleWindow none
        65536 16384 (fun _ => 0) (fun i => [10, 20, 30, 255].getD (i % 4) 0) true = none) := by
  have he : WindowImplWin32.setIcon_iconPixels 65536 16384
      (fun i => [10, 20, 30, 255].getD (i % 4) 0) = [] := by decide
  refine ⟨⟨by decide, by decide, by decide, by decide⟩, ⟨he, ?_, ?_⟩, ?_⟩
  · rw [he]
    exact fun hs => by simp [SwappedAt] at hs
  · simp only [WindowImplWin32.setIcon, he]
    decide
  · exact WindowImplX11.setIcon_overrun WindowImplX11.sampleGlobals WindowImplX11.sampleWindow
      none 65536 16384 (fun _ => 0) _ true (by decide)

/-! ### Mask derivation -/

theorem MaskAdds.refl (m : List Nat) (P : Nat → Nat → Prop) (hP : ∀ b t, ¬ P b t) :
    MaskAdds m m P :=
  ⟨rfl, fun b t _ => ⟨fun h => Or.inl h, fun h => h.elim id (fun hp => absurd hp (hP b t))⟩⟩

theorem MaskAdds.trans {m1 m2 m3 : List Nat} {P Q R : Nat → Nat → Prop}
    (h12 : MaskAdds m1 m2 P) (h23 : MaskAdds m2 m3 Q)
    (hR : ∀ b t, t < 8 → (R b t ↔ (P b t ∨ Q b t))) : MaskAdds m1 m3 R := by
  refine ⟨h23.1.trans h12.1, fun b t ht => ?_⟩
  rw [h23.2 b t ht, h12.2 b t ht, hR b t ht]
  tauto

theorem orByte_adds (m : List Nat) (idx v : Nat) (h : idx < m.length) :
    ∃ m2, orByte m idx v = some m2 ∧
      MaskAdds m m2 (fun b t => b = idx ∧ v.testBit t = true) := by
  refine ⟨m.set idx ((m.getD idx 0 ||| v) % 256), by simp [orByte, h], by simp,
    fun b t ht => ?_⟩
  have h256 : (256 : Nat) = 2 ^ 8 := by norm_num
  by_cases hb : b = idx
  · subst hb
    simp only [maskBitAt, List.getD_eq_getElem?_getD, List.getElem?_set_self h, Option.getD_some,
      h256, Nat.testBit_mod_two_pow, Nat.testBit_or, ht, decide_True, Bool.true_and,
      Bool.or_eq_true, true_and]
  · simp only [maskBitAt, List.getD_eq_getElem?_getD, List.getElem?_set_ne (Ne.symm hb), hb,
      false_and, or_false]

theorem maskBit_adds (width : Nat) (pixels : Nat → Nat) (pitch j i k : Nat) (m : List Nat)
    (h : i + j * pitch < m.length) :
    ∃ m2, WindowImplX11.maskBit width pixels pitch j i k m = some m2 ∧
      MaskAdds m m2 (fun b t => b = i + j * pitch ∧ t = k ∧ i * 8 + t < width ∧
        opaqueAt width pixels (i * 8 + t) j) := by
  unfold WindowImplX11.maskBit
  by_cases hk : i * 8 + k < width
  · rw [if_pos hk]
    obtain ⟨m2, h1, h2⟩ := orByte_adds m (i + j * pitch)
      ((if pixels ((i * 8 + k + j * width) * 4 + 3) > 0 then 1 else 0) <<< k) h
    refine ⟨m2, h1, h2.1, fun b t ht => ?_⟩
    rw [h2.2 b t ht]
    apply or_congr_right
    by_cases hop : pixels ((i * 8 + k + j * width) * 4 + 3) > 0
    · simp only [hop, if_true, Nat.one_shiftLeft, Nat.testBit_two_pow, decide_eq_true_eq,
        opaqueAt]
      constructor
      · rintro ⟨rfl, rfl⟩
        exact ⟨rfl, rfl, hk, hop⟩
      · rintro ⟨rfl, rfl, _, _⟩
        exact ⟨rfl, rfl⟩
    · simp only [hop, if_false, Nat.zero_shiftLeft, Nat.zero_testBit, opaqueAt]
      constructor
      · rintro ⟨_, hf⟩
        exact absurd hf (by simp)
      · rintro ⟨_, rfl, _, ho⟩
        exact absurd ho hop
  · rw [if_neg hk]
    exact ⟨m, rfl, MaskAdds.refl m _ (fun b t hp => hk (hp.2.1 ▸ hp.2.2.1))⟩

theorem maskByteLoop_adds (width : Nat) (pixels : Nat → Nat) (pitch j i : Nat) (m : List Nat)
    (h : i + j * pitch < m.length) :
    ∃ m2, forLoopM (fun k m => WindowImplX11.maskBit width pixels pitch j i k m) 8 m = some m2 ∧
      MaskAdds m m2 (fun b t => b = i + j * pitch ∧ i * 8 + t < width ∧
        opaqueAt width pixels (i * 8 + t) j) := by
  obtain ⟨m2, h1, h2⟩ := forLoopM_inv
    (fun k m => WindowImplX11.maskBit width pixels pitch j i k m)
    (fun k mk => MaskAdds m mk (fun b t => b = i + j * pitch ∧ t < k ∧ i * 8 + t < width ∧
        opaqueAt width pixels (i * 8 + t) j)) 8 m
    (MaskAdds.refl m _ (fun b t hp => Nat.not_lt_zero _ hp.2.1))
    (fun k mk _ hinv => by
      obtain ⟨m3, h3, h4⟩ := maskBit_adds width pixels pitch j i k mk (by rw [hinv.1]; exact h)
      refine ⟨m3, h3, hinv.trans h4 (fun b t _ => ?_)⟩
      constructor
      · rintro ⟨hb, ht, hw, ho⟩
        rcases Nat.lt_succ_iff_lt_or_eq.mp ht with hlt | heq
        · exact Or.inl ⟨hb, hlt, hw, ho⟩
        · exact Or.inr ⟨hb, heq, hw, ho⟩
      · rintro (⟨hb, ht, hw, ho⟩ | ⟨hb, ht, hw, ho⟩)
        · exact ⟨hb, Nat.lt_succ_of_lt ht, hw, ho⟩
        · exact ⟨hb, by omega, hw, ho⟩)
  refine ⟨m2, h1, h2.1, fun b t ht => ?_⟩
  rw [h2.2 b t ht]
  apply or_congr_right
  constructor
  · rintro ⟨hb, _, hw, ho⟩
    exact ⟨hb, hw, ho⟩
  · rintro ⟨hb, hw, ho⟩
    exact ⟨hb, ht, hw, ho⟩

theorem maskRowLoop_adds (width : Nat) (pixels : Nat → Nat) (pitch j : Nat) (m : List Nat)
    (h : pitch + j * pitch ≤ m.length) :
    ∃ m2, forLoopM (fun i m =>
        forLoopM (fun k m => WindowImplX11.maskBit width pixels pitch j i k m) 8 m) pitch m
          = some m2 ∧
      MaskAdds m m2 (fun b t => ∃ i, i < pitch ∧ b = i + j * pitch ∧ i * 8 + t < width ∧
        opaqueAt width pixels (i * 8 + t) j) := by
  obtain ⟨m2, h1, h2⟩ := forLoopM_inv
    (fun i m => forLoopM (fun k m => WindowImplX11.maskBit width pixels pitch j i k m) 8 m)
    (fun n mn => MaskAdds m mn (fun b t => ∃ i, i < n ∧ b = i + j * pitch ∧ i * 8 + t < width ∧
        opaqueAt width pixels (i * 8 + t) j)) pitch m
    (MaskAdds.refl m _ (fun b t hp => by obtain ⟨i, hi, _⟩ := hp; exact Nat.not_lt_zero _ hi))
    (fun n mn hn hinv => by
      obtain ⟨m3, h3, h4⟩ := maskByteLoop_adds width pixels pitch j n mn
        (by rw [hinv.1]; omega)
      refine ⟨m3, h3, hinv.trans h4 (fun b t _ => ?_)⟩
      constructor
      · rintro ⟨i, hi, hb, hw, ho⟩
        rcases Nat.lt_succ_iff_lt_or_eq.mp hi with hlt | heq
        · exact Or.inl ⟨i, hlt, hb, hw, ho⟩
        · subst heq
          exact Or.inr ⟨hb, hw, ho⟩
      · rintro (⟨i, hi, hb, hw, ho⟩ | ⟨hb, hw, ho⟩)
        · exact ⟨i, Nat.lt_succ_of_lt hi, hb, hw, ho⟩
        · exact ⟨n, Nat.lt_succ_self n, hb, hw, ho⟩)
  exact ⟨m2, h1, h2⟩

theorem maskLoop_adds (width height : Nat) (pixels : Nat → Nat) (pitch : Nat) (m : List Nat)
    (h : pitch * height ≤ m.length) :
    ∃ m2, WindowImplX11.setIcon_maskLoop width height pixels pitch m = some m2 ∧
      MaskAdds m m2 (fun b t => ∃ j, j < height ∧ ∃ i, i < pitch ∧ b = i + j * pitch ∧
        i * 8 + t < width ∧ opaqueAt width pixels (i * 8 + t) j) := by
  unfold WindowImplX11.setIcon_maskLoop
  obtain ⟨m2, h1, h2⟩ := forLoopM_inv
    (fun j m => forLoopM (fun i m =>
      forLoopM (fun k m => WindowImplX11.maskBit width pixels pitch j i k m) 8 m) pitch m)
    (fun n mn => MaskAdds m mn (fun b t => ∃ j, j < n ∧ ∃ i, i < pitch ∧ b = i + j * pitch ∧
        i * 8 + t < width ∧ opaqueAt width pixels (i * 8 + t) j)) height m
    (MaskAdds.refl m _ (fun b t hp => by obtain ⟨j, hj, _⟩ := hp; exact Nat.not_lt_zero _ hj))
    (fun n mn hn hinv => by
      have hle : pitch + n * pitch ≤ pitch * height := by
        calc pitch + n * pitch = pitch * (n + 1) := by ring
          _ ≤ pitch * height := Nat.mul_le_mul_left _ hn
      obtain ⟨m3, h3, h4⟩ := maskRowLoop_adds width pixels pitch n mn
        (by rw [hinv.1]; omega)
      refine ⟨m3, h3, hinv.trans h4 (fun b t _ => ?_)⟩
      constructor
      · rintro ⟨j, hj, hr⟩
        rcases Nat.lt_succ_iff_lt_or_eq.mp hj with hlt | heq
        · exact Or.inl ⟨j, hlt, hr⟩
        · subst heq
          exact Or.inr hr
      · rintro (⟨j, hj, hr⟩ | hr)
        · exact ⟨j, Nat.lt_succ_of_lt hj, hr⟩
        · exact ⟨n, Nat.lt_succ_self n, hr⟩)
  exact ⟨m2, h1, h2⟩

theorem maskIndex_unique (p i j i2 j2 : Nat) (hi : i < p) (hi2 : i2 < p)
    (h : i + j * p = i2 + j2 * p) : i = i2 ∧ j = j2 := by
  have hm : (i + j * p) % p = (i2 + j2 * p) % p := by rw [h]
  rw [Nat.add_mul_mod_self_right, Nat.add_mul_mod_self_right, Nat.mod_eq_of_lt hi,
    Nat.mod_eq_of_lt hi2] at hm
  subst hm
  have hjp : j * p = j2 * p := by omega
  exact ⟨rfl, Nat.eq_of_mul_eq_mul_right (by omega) hjp⟩

theorem maskBitAt_replicate_zero (n b t : Nat) : maskBitAt (List.replicate n 0) b t = false := by
  simp only [maskBitAt, List.getD_eq_getElem?_getD, List.getElem?_replicate]
  split <;> simp


/-- The mask block of `WindowImplX11::setIcon` on its own, when the static mask
buffer is constructed, zeroed, by this call and `w + 7 < 2^32`: the mask has
`pitch = ceil(w / 8) = (w + 7) / 8` bytes per row and `h` rows; for `x < w`,
`y < h`, bit `x mod 8` (bit 0 is the least significant) of mask byte
`x / 8 + y * pitch` is 1 iff the alpha byte of pixel `(x, y)` is positive; and
every padding bit, of column index `c >= w`, is 0. -/
theorem WindowImplX11.setIcon_maskPixels_first_call (w h : Nat) (pixels : Nat → Nat) (hw : w + 7 < UINT_MOD) :
    ∃ mask, WindowImplX11.setIcon_maskPixels none w h pixels = some mask ∧
      mask.length = (w + 7) / 8 * h ∧
      (w ≤ 8 * ((w + 7) / 8) ∧ 8 * ((w + 7) / 8) < w + 8) ∧
      (∀ x y, x < w → y < h →
        ((mask.getD (x / 8 + y * ((w + 7) / 8)) 0).testBit (x % 8) = true ↔
          pixels ((x + y * w) * 4 + 3) > 0)) ∧
      (∀ c y, w ≤ c → c < 8 * ((w + 7) / 8) → y < h →
        (mask.getD (c / 8 + y * ((w + 7) / 8)) 0).testBit (c % 8) = false) := by
  have hp : (w + 7) % UINT_MOD / 8 = (w + 7) / 8 := by rw [Nat.mod_eq_of_lt hw]
  simp only [WindowImplX11.setIcon_maskPixels, hp]
  obtain ⟨mask, h1, hlen, hbits⟩ := maskLoop_adds w h pixels ((w + 7) / 8)
    (List.replicate ((w + 7) / 8 * h) 0) (by simp)
  have hchar : ∀ b t, t < 8 → (maskBitAt mask b t = true ↔
      ∃ j, j < h ∧ ∃ i, i < (w + 7) / 8 ∧ b = i + j * ((w + 7) / 8) ∧
        i * 8 + t < w ∧ opaqueAt w pixels (i * 8 + t) j) := by
    intro b t ht
    rw [hbits b t ht, maskBitAt_replicate_zero]
    simp
  refine ⟨mask, h1, by simpa using hlen, by omega, ?_, ?_⟩
  · intro x y hx hy
    have hx8 : x / 8 < (w + 7) / 8 := by omega
    have ht : x % 8 < 8 := Nat.mod_lt _ (by decide)
    have := hchar (x / 8 + y * ((w + 7) / 8)) (x % 8) ht
    simp only [maskBitAt] at this
    rw [this]
    constructor
    · rintro ⟨j, _, i, hi, hb, _, ho⟩
      obtain ⟨rfl, rfl⟩ := maskIndex_unique _ _ _ _ _ hx8 hi hb
      have hxe : x / 8 * 8 + x % 8 = x := by omega
      rw [hxe] at ho
      exact ho
    · intro ho
      have hxe : x / 8 * 8 + x % 8 = x := by omega
      exact ⟨y, hy, x / 8, hx8, rfl, by omega, by rw [hxe]; exact ho⟩
  · intro c y hc hc8 _
    have hc8' : c / 8 < (w + 7) / 8 := by omega
    have ht : c % 8 < 8 := Nat.mod_lt _ (by decide)
    have := hchar (c / 8 + y * ((w + 7) / 8)) (c % 8) ht
    simp only [maskBitAt] at this
    rw [Bool.eq_false_iff]
    intro hset
    obtain ⟨j, _, i, hi, hb, hlt, _⟩ := this.mp hset
    obtain ⟨rfl, rfl⟩ := maskIndex_unique _ _ _ _ _ hc8' hi hb
    omega

/-- The first call of `WindowImplX11::setIcon` in a process, for an icon whose
byte count `width * height * 4` is below `2^32`, when `XCreateImage` returns an
image: the method stays inside its buffers, hands the channel-swapped buffer
to `XCreateImage` and hands `XCreatePixmapFromBitmapData` a mask of
`(width + 7) / 8` bytes per row and `height` rows in which bit `x mod 8` of
byte `x / 8 + y * pitch` is 1 iff the alpha byte of pixel `(x, y)` is positive,
and every padding bit is 0. -/
theorem WindowImplX11.setIcon_first_call (g : WindowImplX11.Globals) (w : WindowImplX11)
    (width height : Nat) (junk pixels : Nat → Nat) (hsize : width * height * 4 < UINT_MOD) :
    ∃ iconPixels mask,
      WindowImplX11.setIcon g w none width height junk pixels true =
        some ({ g with calls := g.calls ++
            [WindowImplX11.Call.XCreateImage iconPixels width height,
             WindowImplX11.Call.XCreatePixmap width height,
             WindowImplX11.Call.XPutImage width height,
             WindowImplX11.Call.XCreatePixmapFromBitmapData w.m_window mask width height,
             WindowImplX11.Call.XSetWMHints w.m_window] }, some mask) ∧
      (iconPixels.length = width * height * 4 ∧
        ∀ i, i < width * height → SwappedAt pixels iconPixels i) ∧
      mask.length = (width + 7) / 8 * height ∧
      (∀ x y, x < width → y < height →
        ((mask.getD (x / 8 + y * ((width + 7) / 8)) 0).testBit (x % 8) = true ↔
          pixels ((x + y * width) * 4 + 3) > 0)) ∧
      (∀ c y, width ≤ c → c < 8 * ((width + 7) / 8) → y < height →
        (mask.getD (c / 8 + y * ((width + 7) / 8)) 0).testBit (c % 8) = false) := by
  obtain ⟨⟨iconPixels, hi, hil, his⟩, -⟩ := setIcon_iconPixels_swapped width height junk pixels hsize
  have hmask : ∃ mask, WindowImplX11.setIcon_maskPixels none width height pixels = some mask ∧
      mask.length = (width + 7) / 8 * height ∧
      (∀ x y, x < width → y < height →
        ((mask.getD (x / 8 + y * ((width + 7) / 8)) 0).testBit (x % 8) = true ↔
          pixels ((x + y * width) * 4 + 3) > 0)) ∧
      (∀ c y, width ≤ c → c < 8 * ((width + 7) / 8) → y < height →
        (mask.getD (c / 8 + y * ((width + 7) / 8)) 0).testBit (c % 8) = false) := by
    rcases Nat.eq_zero_or_pos height with hz | hpos
    · subst hz
      exact ⟨[], by simp [WindowImplX11.setIcon_maskPixels, WindowImplX11.setIcon_maskLoop,
          forLoopM], by simp, fun x y _ hy => absurd hy (Nat.not_lt_zero y),
        fun c y _ _ hy => absurd hy (Nat.not_lt_zero y)⟩
    · have hw : width + 7 < UINT_MOD := by
        have h1 : width * 4 ≤ width * height * 4 :=
          Nat.mul_le_mul_right 4 (Nat.le_mul_of_pos_right width hpos)
        unfold UINT_MOD at hsize ⊢
        omega
      obtain ⟨mask, h1, h2, -, h3, h4⟩ :=
        WindowImplX11.setIcon_maskPixels_first_call width height pixels hw
      exact ⟨mask, h1, h2, h3, h4⟩
  obtain ⟨mask, hm, hml, hmb, hmp⟩ := hmask
  refine ⟨iconPixels, mask, ?_, ⟨hil, his⟩, hml, hmb, hmp⟩
  simp [WindowImplX11.setIcon, hi, hm, List.append_assoc]

/-- C2, the code at the failing inputs. (1) A first call of `setIcon` with a
32768 x 32768 icon: `width + 7` does not wrap, but the byte count
`32768 * 32768 * 4 = 2^32` wraps to 0 in `unsigned int`, the channel-swap loop
(bound `2^30`) writes outside the 0-byte block at once, and the method leaves
defined behaviour before any mask is built. (2) A first call with a
4294967295 x 1 icon: the block has `2^32 - 4` bytes while the loop runs for
`2^32 - 1` pixels, so the method leaves defined behaviour in the same loop; and
the mask block on its own computes `pitch = (width + 7) / 8` in `unsigned int`,
where `width + 7` wraps to 6: `pitch` is 0 and the mask is empty, whereas
`ceil(w / 8)` is 536870912 and pixel (0, 0) is opaque. -/
theorem setIcon_mask_derivation_wraps :
    ((32768 < UINT_MOD ∧ 32768 + 7 < UINT_MOD ∧ 32768 * 32768 * 4 % UINT_MOD = 0 ∧
        32768 * 32768 % UINT_MOD = 1073741824) ∧
      WindowImplX11.setIcon WindowImplX11.sampleGlobals WindowImplX11.sampleWindow none
        32768 32768 (fun _ => 0) (fun _ => 255) true = none) ∧
    ((4294967295 < UINT_MOD ∧ 4294967295 * 1 * 4 % UINT_MOD = 4294967292 ∧
        4294967295 * 1 % UINT_MOD = 4294967295) ∧
      WindowImplX11.setIcon WindowImplX11.sampleGlobals WindowImplX11.sampleWindow none
        4294967295 1 (fun _ => 0) (fun _ => 255) true = none ∧
      (4294967295 + 7) % UINT_MOD / 8 = 0 ∧ (4294967295 + 7) / 8 = 536870912 ∧
      WindowImplX11.setIcon_maskPixels none 4294967295 1 (fun _ => 255) = some [] ∧
      (fun _ => 255) ((0 + 0 * 4294967295) * 4 + 3) > 0 ∧
      (([] : List Nat).getD (0 / 8 + 0 * ((4294967295 + 7) / 8)) 0).testBit (0 % 8) = false) := by
  refine ⟨⟨⟨by decide, by decide, by decide, by decide⟩, ?_⟩,
    ⟨by decide, by decide, by decide⟩, ?_, by decide, by decide, by decide, by decide,
    by decide⟩
  · exact (WindowImplX11.setIcon_overrun WindowImplX11.sampleGlobals WindowImplX11.sampleWindow
      none 32768 32768 (fun _ => 0) (fun _ => 255) true (by decide)).2
  · exact (WindowImplX11.setIcon_overrun WindowImplX11.sampleGlobals WindowImplX11.sampleWindow
      none 4294967295 1 (fun _ => 0) (fun _ => 255) true (by decide)).2


/-! ### Win32 message handling -/

theorem WindowImplWin32.deliver_nil (s : WindowImplWin32.Globals × WindowImplWin32) :
    WindowImplWin32.deliver s [] = s := rfl

theorem WindowImplWin32.deliver_cons (s : WindowImplWin32.Globals × WindowImplWin32)
    (d : WindowImplWin32.Delivery) (ds : List WindowImplWin32.Delivery) :
    WindowImplWin32.deliver s (d :: ds) =
      WindowImplWin32.deliver
        (WindowImplWin32.processEvent s.1 s.2 d.message d.wParam d.clientSize) ds := rfl

theorem WindowImplWin32.deliver_append (s : WindowImplWin32.Globals × WindowImplWin32)
    (ds1 ds2 : List WindowImplWin32.Delivery) :
    WindowImplWin32.deliver s (ds1 ++ ds2) =
      WindowImplWin32.deliver (WindowImplWin32.deliver s ds1) ds2 := by
  simp [WindowImplWin32.deliver, List.foldl_append]

/-- While a drag is in progress a `WM_SIZE` changes nothing. -/
theorem WindowImplWin32.processEvent_size_resizing (g : WindowImplWin32.Globals)
    (w : WindowImplWin32) (wParam : Nat) (size : Vector2u) (hr : w.m_resizing = true) :
    WindowImplWin32.processEvent g w WindowImplWin32.Message.WM_SIZE wParam size = (g, w) := by
  simp [WindowImplWin32.processEvent, hr]

theorem WindowImplWin32.deliver_sizes_resizing (g : WindowImplWin32.Globals)
    (w : WindowImplWin32) (moves : List (Nat × Vector2u)) (hr : w.m_resizing = true) :
    WindowImplWin32.deliver (g, w)
      (moves.map (fun m => ⟨WindowImplWin32.Message.WM_SIZE, m.1, m.2⟩)) = (g, w) := by
  induction moves with
  | nil => rfl
  | cons m rest ih =>
    rw [List.map_cons, WindowImplWin32.deliver_cons]
    simp only []
    rw [WindowImplWin32.processEvent_size_resizing g w m.1 m.2 hr]
    exact ih

/-- C3 (as amended): on an instance with a non-null handle and
`m_lastSize = S0` (with `m_resizing = false`, and also when it is `true`), for
every `N >= 0` and every sequence
`WM_ENTERSIZEMOVE`, `N` times `WM_SIZE` (with arbitrary `wParam` and client
sizes), `WM_EXITSIZEMOVE` at which the client size is `S`: if `S != S0` exactly
one event is pushed over the whole sequence, `Resized` with width and height
of `S`; if `S = S0` no event is pushed at all. -/
theorem resize_coalescing (g : WindowImplWin32.Globals) (w : WindowImplWin32)
    (wParam0 : Nat) (size0 : Vector2u) (moves : List (Nat × Vector2u)) (wParam1 : Nat)
    (S : Vector2u) (hh : w.m_handle ≠ 0) :
    (S ≠ w.m_lastSize →
      (WindowImplWin32.deliver (g, w)
        (WindowImplWin32.dragSequence wParam0 size0 moves wParam1 S)).2.events
        = w.events ++ [Event.Resized S.x S.y]) ∧
    (S = w.m_lastSize →
      (WindowImplWin32.deliver (g, w)
        (WindowImplWin32.dragSequence wParam0 size0 moves wParam1 S)).2.events = w.events) := by
  have hrun : WindowImplWin32.deliver (g, w)
      (WindowImplWin32.dragSequence wParam0 size0 moves wParam1 S) =
      WindowImplWin32.processEvent g { w with m_resizing := true }
        WindowImplWin32.Message.WM_EXITSIZEMOVE wParam1 S := by
    have h1 : WindowImplWin32.deliver (g, w)
        [⟨WindowImplWin32.Message.WM_ENTERSIZEMOVE, wParam0, size0⟩] =
        (g, { w with m_resizing := true }) := by
      simp [WindowImplWin32.deliver, WindowImplWin32.processEvent, hh]
    unfold WindowImplWin32.dragSequence
    rw [WindowImplWin32.deliver_append, WindowImplWin32.deliver_append, h1,
      WindowImplWin32.deliver_sizes_resizing g _ moves rfl]
    rfl
  rw [hrun]
  constructor
  · intro hS
    simp [WindowImplWin32.processEvent, hh, Ne.symm hS, pushEvent]
  · intro hS
    simp [WindowImplWin32.processEvent, hh, hS]

/-- C3, witness: a drag from 10 x 10 through 11 x 10 to 12 x 10. -/
theorem resize_coalescing_witness :
    (⟨1, 5, 0, 0, ⟨10, 10⟩, false, []⟩ : WindowImplWin32).m_handle ≠ 0 ∧
    ((⟨12, 10⟩ : Vector2u) ≠ (⟨10, 10⟩ : Vector2u) →
      (WindowImplWin32.deliver (⟨0, none, []⟩, ⟨1, 5, 0, 0, ⟨10, 10⟩, false, []⟩)
        (WindowImplWin32.dragSequence 0 ⟨10, 10⟩ [(0, ⟨11, 10⟩), (0, ⟨12, 10⟩)] 0 ⟨12, 10⟩)).2.events
        = [] ++ [Event.Resized 12 10]) ∧
    ((⟨12, 10⟩ : Vector2u) = (⟨10, 10⟩ : Vector2u) →
      (WindowImplWin32.deliver (⟨0, none, []⟩, ⟨1, 5, 0, 0, ⟨10, 10⟩, false, []⟩)
        (WindowImplWin32.dragSequence 0 ⟨10, 10⟩ [(0, ⟨11, 10⟩), (0, ⟨12, 10⟩)] 0 ⟨12, 10⟩)).2.events
        = []) :=
  ⟨by decide, resize_coalescing ⟨0, none, []⟩ ⟨1, 5, 0, 0, ⟨10, 10⟩, false, []⟩ 0 ⟨10, 10⟩
    [(0, ⟨11, 10⟩), (0, ⟨12, 10⟩)] 0 ⟨12, 10⟩ (by decide)⟩

/-- C3, counterexample: the claim as stated for every state with
`m_resizing = false` and `m_lastSize = S0` fails on an instance whose handle is
null: `processEvent` returns before its `switch`, so a drag from 10 x 10 to
12 x 10 pushes no event instead of one `Resized`. -/
theorem resize_coalescing_counterexample :
    (⟨1, 0, 0, 0, ⟨10, 10⟩, false, []⟩ : WindowImplWin32).m_resizing = false ∧
    (⟨12, 10⟩ : Vector2u) ≠ (⟨1, 0, 0, 0, ⟨10, 10⟩, false, []⟩ : WindowImplWin32).m_lastSize ∧
    (WindowImplWin32.deliver (⟨0, none, []⟩, ⟨1, 0, 0, 0, ⟨10, 10⟩, false, []⟩)
      (WindowImplWin32.dragSequence 0 ⟨10, 10⟩ [(0, ⟨11, 10⟩)] 0 ⟨12, 10⟩)).2.events = [] := by
  decide


/-! ### Close and destroy notifications -/

theorem toLong_of_lt (a : Nat) (h : a < ULONG_MOD / 2) : toLong a = (a : Int) := by
  have h2 : a % ULONG_MOD = a := Nat.mod_eq_of_lt (by unfold ULONG_MOD at *; omega)
  simp [toLong, h2, h]

/-- C4: on Win32, `processEvent(WM_CLOSE)` on an instance with a non-null
handle pushes exactly one event, `Closed`; on X11, `processEvent` of a
`ClientMessage` pushes exactly one `Closed` event if its format is 32 and
`data.l[0]` equals `m_atomClose` (compared as `long`; the conversion is the
identity for every atom below `2^63`), and pushes nothing otherwise. In both
cases nothing else changes: no other event is pushed, and the globals (the
fullscreen-owner slot among them), `m_lastSize` and `m_resizing` are as before. -/
theorem close_request_emits_one_closed (g : WindowImplWin32.Globals) (w : WindowImplWin32)
    (wParam : Nat) (size : Vector2u) (gx : WindowImplX11.Globals) (wx : WindowImplX11)
    (window : Nat) (format data_l0 : Int) (hh : w.m_handle ≠ 0) :
    WindowImplWin32.processEvent g w WindowImplWin32.Message.WM_CLOSE wParam size
      = (g, { w with events := w.events ++ [Event.Closed] }) ∧
    (format = 32 ∧ data_l0 = toLong wx.m_atomClose →
      WindowImplX11.processEvent gx wx
        ⟨window, WindowImplX11.XEventData.ClientMessage format data_l0⟩
        = (gx, { wx with events := wx.events ++ [Event.Closed] })) ∧
    (¬ (format = 32 ∧ data_l0 = toLong wx.m_atomClose) →
      WindowImplX11.processEvent gx wx
        ⟨window, WindowImplX11.XEventData.ClientMessage format data_l0⟩ = (gx, wx)) ∧
    (wx.m_atomClose < 2 ^ 63 → toLong wx.m_atomClose = (wx.m_atomClose : Int)) := by
  refine ⟨?_, ?_, ?_, ?_⟩
  · simp [WindowImplWin32.processEvent, hh, pushEvent]
  · intro hc
    simp only [WindowImplX11.processEvent, pushEvent]
    rw [if_pos hc]
  · intro hc
    simp only [WindowImplX11.processEvent, pushEvent]
    rw [if_neg hc]
  · intro ha
    exact toLong_of_lt _ (by unfold ULONG_MOD; omega)

/-- C4, witness: a `WM_CLOSE` on a created window, and a `ClientMessage` of
format 32 carrying the close atom 99. -/
theorem close_request_emits_one_closed_witness :
    WindowImplWin32.sampleWindow.m_handle ≠ 0 ∧
    (WindowImplWin32.processEvent WindowImplWin32.sampleGlobals WindowImplWin32.sampleWindow
        WindowImplWin32.Message.WM_CLOSE 0 ⟨20, 20⟩
      = (WindowImplWin32.sampleGlobals,
        { WindowImplWin32.sampleWindow with
          events := WindowImplWin32.sampleWindow.events ++ [Event.Closed] }) ∧
    ((32 : Int) = 32 ∧ (99 : Int) = toLong WindowImplX11.sampleWindow.m_atomClose →
      WindowImplX11.processEvent WindowImplX11.sampleGlobals WindowImplX11.sampleWindow
        ⟨7, WindowImplX11.XEventData.ClientMessage 32 99⟩
        = (WindowImplX11.sampleGlobals,
          { WindowImplX11.sampleWindow with
            events := WindowImplX11.sampleWindow.events ++ [Event.Closed] })) ∧
    (¬ ((32 : Int) = 32 ∧ (99 : Int) = toLong WindowImplX11.sampleWindow.m_atomClose) →
      WindowImplX11.processEvent WindowImplX11.sampleGlobals WindowImplX11.sampleWindow
        ⟨7, WindowImplX11.XEventData.ClientMessage 32 99⟩
        = (WindowImplX11.sampleGlobals, WindowImplX11.sampleWindow)) ∧
    (WindowImplX11.sampleWindow.m_atomClose < 2 ^ 63 →
      toLong WindowImplX11.sampleWindow.m_atomClose
        = (WindowImplX11.sampleWindow.m_atomClose : Int))) :=
  ⟨by decide, close_request_emits_one_closed WindowImplWin32.sampleGlobals
    WindowImplWin32.sampleWindow 0 ⟨20, 20⟩ WindowImplX11.sampleGlobals
    WindowImplX11.sampleWindow 7 32 99 (by decide)⟩

/-- C5 (as amended): on both backends `processEvent` of the destroy
notification (X11 `DestroyNotify`, Win32 `WM_DESTROY`) pushes no event and
leaves the instance as it was. If the instance is the current fullscreen owner
(and, on Win32, its handle is non-null) the owner slot becomes null and the
display-mode restore is issued: on Win32 `ChangeDisplaySettings(NULL, 0)`, on
X11 `XRRSetScreenConfig` with `m_oldVideoMode` when `XRRGetScreenInfo` yields a
configuration (when it yields none, no request is issued). If the instance is
not the owner, the globals (owner slot, display mode, requests) are unchanged. -/
theorem destroy_notification (g : WindowImplWin32.Globals) (w : WindowImplWin32)
    (wParam : Nat) (size : Vector2u) (gx : WindowImplX11.Globals) (wx : WindowImplX11)
    (window : Nat) :
    ((WindowImplWin32.processEvent g w WindowImplWin32.Message.WM_DESTROY wParam size).2 = w ∧
      (w.m_handle ≠ 0 → g.fullscreenWindow = some w.addr →
        (WindowImplWin32.processEvent g w WindowImplWin32.Message.WM_DESTROY wParam size).1 =
          { g with
            calls := g.calls ++ [WindowImplWin32.Call.ChangeDisplaySettings none]
            fullscreenWindow := none }) ∧
      (g.fullscreenWindow ≠ some w.addr →
        (WindowImplWin32.processEvent g w WindowImplWin32.Message.WM_DESTROY wParam size).1 = g)) ∧
    ((WindowImplX11.processEvent gx wx ⟨window, WindowImplX11.XEventData.DestroyNotify⟩).2 = wx ∧
      (gx.fullscreenWindow = some wx.addr → gx.screenInfo = true →
        (WindowImplX11.processEvent gx wx ⟨window, WindowImplX11.XEventData.DestroyNotify⟩).1 =
          { gx with
            calls := gx.calls ++
              [WindowImplX11.Call.XRRSetScreenConfig wx.m_oldVideoMode gx.rotation]
            currentMode := wx.m_oldVideoMode
            fullscreenWindow := none }) ∧
      (gx.fullscreenWindow = some wx.addr → gx.screenInfo = false →
        (WindowImplX11.processEvent gx wx ⟨window, WindowImplX11.XEventData.DestroyNotify⟩).1 =
          { gx with fullscreenWindow := none }) ∧
      (gx.fullscreenWindow ≠ some wx.addr →
        (WindowImplX11.processEvent gx wx ⟨window, WindowImplX11.XEventData.DestroyNotify⟩).1
          = gx)) := by
  refine ⟨⟨?_, ?_, ?_⟩, ?_, ?_, ?_, ?_⟩
  · unfold WindowImplWin32.processEvent
    split <;> rfl
  · intro hh ho
    simp [WindowImplWin32.processEvent, WindowImplWin32.cleanup, hh, ho]
  · intro ho
    unfold WindowImplWin32.processEvent
    split
    · rfl
    · simp [WindowImplWin32.cleanup, ho]
  · rfl
  · intro ho hs
    simp [WindowImplX11.processEvent, WindowImplX11.cleanup, WindowImplX11.XRRSetScreenConfig,
      ho, hs]
  · intro ho hs
    simp [WindowImplX11.processEvent, WindowImplX11.cleanup, ho, hs]
  · intro ho
    simp [WindowImplX11.processEvent, WindowImplX11.cleanup, ho]

/-- C5, counterexample: the claim as stated fails on X11 for a fullscreen
owner when `XRRGetScreenInfo` yields no configuration: the owner slot is
cleared but no display-mode restore is issued; and it fails on Win32 for a
fullscreen owner whose handle is null: `processEvent` returns before its
`switch`, the owner slot stays set and no restore is issued. -/
theorem destroy_notification_counterexample :
    ((⟨some 1, true, false, 2, 1, none, []⟩ : WindowImplX11.Globals).fullscreenWindow
        = some (⟨1, 7, false, 99, 0, []⟩ : WindowImplX11).addr ∧
      (WindowImplX11.processEvent ⟨some 1, true, false, 2, 1, none, []⟩ ⟨1, 7, false, 99, 0, []⟩
        ⟨7, WindowImplX11.XEventData.DestroyNotify⟩).1.calls = []) ∧
    ((⟨1, some 1, []⟩ : WindowImplWin32.Globals).fullscreenWindow
        = some (⟨1, 0, 0, 0, ⟨10, 10⟩, false, []⟩ : WindowImplWin32).addr ∧
      (WindowImplWin32.processEvent ⟨1, some 1, []⟩ ⟨1, 0, 0, 0, ⟨10, 10⟩, false, []⟩
        WindowImplWin32.Message.WM_DESTROY 0 ⟨10, 10⟩).1 = ⟨1, some 1, []⟩) := by
  decide


/-- C5, witness: the sample windows, each the fullscreen owner of its backend,
receive the destroy notification. -/
theorem destroy_notification_witness :
    (WindowImplWin32.processEvent WindowImplWin32.sampleGlobals WindowImplWin32.sampleWindow
        WindowImplWin32.Message.WM_DESTROY 0 ⟨10, 10⟩).1 =
      { WindowImplWin32.sampleGlobals with
        calls := WindowImplWin32.sampleGlobals.calls ++
          [WindowImplWin32.Call.ChangeDisplaySettings none]
        fullscreenWindow := none } ∧
    (WindowImplX11.processEvent WindowImplX11.sampleGlobals WindowImplX11.sampleWindow
        ⟨7, WindowImplX11.XEventData.DestroyNotify⟩).1 =
      { WindowImplX11.sampleGlobals with
        calls := WindowImplX11.sampleGlobals.calls ++
          [WindowImplX11.Call.XRRSetScreenConfig WindowImplX11.sampleWindow.m_oldVideoMode
            WindowImplX11.sampleGlobals.rotation]
        currentMode := WindowImplX11.sampleWindow.m_oldVideoMode
        fullscreenWindow := none } :=
  ⟨(destroy_notification WindowImplWin32.sampleGlobals WindowImplWin32.sampleWindow 0 ⟨10, 10⟩
      WindowImplX11.sampleGlobals WindowImplX11.sampleWindow 7).1.2.1 (by decide) (by decide),
    (destroy_notification WindowImplWin32.sampleGlobals WindowImplWin32.sampleWindow 0 ⟨10, 10⟩
      WindowImplX11.sampleGlobals WindowImplX11.sampleWindow 7).2.2.1 (by decide) (by decide)⟩

/-! ### Requests of the X11 constructor -/

/-- The requests of the X11 constructor, in order. For a 800 x 600 window with
title bar and close button: `XCreateWindow`, the `XStoreName` of `setTitle`,
the Motif hints, the pinned size (the style has no `Resize`), and the two
requests of `initialize`. For a fullscreen window: the mode switch first, and
no hints. -/
theorem WindowImplX11.create_requests_example :
    (WindowImplX11.create WindowImplX11.idleGlobals 1 ⟨800, 600, 32⟩ "A"
        (Style.Titlebar ||| Style.Close) 7 5 99).1.calls
      = [WindowImplX11.Call.XCreateWindow, WindowImplX11.Call.XStoreName 7 "A",
          WindowImplX11.Call.XChangeProperty 7 5
            (WindowImplX11.motifHints (Style.Titlebar ||| Style.Close)),
          WindowImplX11.Call.XSetWMNormalHints 7
            { min_width := 800, max_width := 800, min_height := 600, max_height := 600 },
          WindowImplX11.Call.XSetWMProtocols 7 99, WindowImplX11.Call.XMapWindow 7] ∧
    (WindowImplX11.create WindowImplX11.idleGlobals 1 ⟨800, 600, 32⟩ "A" Style.Fullscreen
        7 5 99).1.calls
      = [WindowImplX11.Call.XRRSetScreenConfig 1 1, WindowImplX11.Call.XCreateWindow,
          WindowImplX11.Call.XStoreName 7 "A", WindowImplX11.Call.XSetWMProtocols 7 99,
          WindowImplX11.Call.XMapWindow 7] := by
  decide

/-! ### Fullscreen ownership -/

theorem WindowImplX11.findSize_some_pos (width height : Int) (sizes : List (Int × Int))
    (k i : Nat) (h : WindowImplX11.findSize width height sizes k = some i) :
    0 < sizes.length := by
  cases sizes with
  | nil => simp [WindowImplX11.findSize] at h
  | cons s rest => simp

/-- A successful switch makes the instance the owner and saves the mode that
was current before it. -/
theorem WindowImplX11.switchToFullscreen_succeeds (g : WindowImplX11.Globals)
    (w : WindowImplX11) (mode : VideoMode) (h : WindowImplX11.switchSucceeds g mode) :
    ∃ i, WindowImplX11.switchToFullscreen g w mode =
      ({ WindowImplX11.XRRSetScreenConfig g i g.rotation with fullscreenWindow := some w.addr },
        { w with m_oldVideoMode := g.currentMode }) := by
  obtain ⟨hr, hs, sizes, i, hsz, hf⟩ := h
  have hpos := WindowImplX11.findSize_some_pos _ _ _ _ _ hf
  exact ⟨i, by simp [WindowImplX11.switchToFullscreen, hr, hs, hsz, hf, hpos]⟩

/-- For a style with `Fullscreen` the constructor sends no window-manager
hints. -/
theorem WindowImplX11.decorate_fullscreen (style wmHintsAtom : Nat) (width height : Int)
    (hf : style &&& Style.Fullscreen ≠ 0) :
    WindowImplX11.decorate style wmHintsAtom width height = (none, none) := by
  simp [WindowImplX11.decorate, hf]

theorem WindowImplX11.create_fullscreen_x11 (g : WindowImplX11.Globals) (addr : Nat)
    (mode : VideoMode) (title : String) (style win wm atom : Nat)
    (hf : style &&& Style.Fullscreen ≠ 0) (h : WindowImplX11.switchSucceeds g mode) :
    (WindowImplX11.create g addr mode title style win wm atom).1.fullscreenWindow = some addr ∧
    (WindowImplX11.create g addr mode title style win wm atom).1.rotation = g.rotation ∧
    (WindowImplX11.create g addr mode title style win wm atom).2.addr = addr ∧
    (WindowImplX11.create g addr mode title style win wm atom).2.m_oldVideoMode
      = g.currentMode := by
  obtain ⟨i, hi⟩ := WindowImplX11.switchToFullscreen_succeeds g
    { addr := addr, m_window := 0, m_isExternal := false, m_atomClose := 0,
      m_oldVideoMode := -1, events := [] } mode h
  have hd := WindowImplX11.decorate_fullscreen style wm (toInt mode.width) (toInt mode.height) hf
  by_cases hw : win = 0
  · simp [WindowImplX11.create, hi, hw, hf, WindowImplX11.XRRSetScreenConfig]
  · simp [WindowImplX11.create, hi, hw, hf, hd, WindowImplX11.XRRSetScreenConfig,
      WindowImplX11.setTitle, WindowImplX11.initializeWindow]

/-- A fullscreen construction whose switch succeeds makes the new instance the
owner; the instance saves the mode that was current before. -/
theorem WindowImplX11.construct_fullscreen (g : WindowImplX11.Globals)
    (c : WindowImplX11.Construction) (h : c.switches g) :
    (WindowImplX11.construct g c).1.fullscreenWindow = some c.addr ∧
    (WindowImplX11.construct g c).1.rotation = g.rotation ∧
    (WindowImplX11.construct g c).2.addr = c.addr ∧
    (WindowImplX11.construct g c).2.m_oldVideoMode = g.currentMode :=
  WindowImplX11.create_fullscreen_x11 (g.answering c.config) c.addr c.mode c.title c.style
    c.createdWindow c.wmHintsAtom c.atom h.1 h.2

theorem WindowImplX11.destroy_owner_x11 (g : WindowImplX11.Globals) (w : WindowImplX11)
    (ho : g.fullscreenWindow = some w.addr) (hs : g.screenInfo = true) :
    (WindowImplX11.issued g (WindowImplX11.destroy g w)).filter
        WindowImplX11.Call.isModeRequest
      = [WindowImplX11.Call.XRRSetScreenConfig w.m_oldVideoMode g.rotation] ∧
    (WindowImplX11.destroy g w).fullscreenWindow = none := by
  by_cases hw : w.m_window ≠ 0 ∧ w.m_isExternal = false
  · simp [WindowImplX11.destroy, WindowImplX11.cleanup, WindowImplX11.XRRSetScreenConfig,
      WindowImplX11.issued, ho, hs, hw, WindowImplX11.Call.isModeRequest]
  · simp [WindowImplX11.destroy, WindowImplX11.cleanup, WindowImplX11.XRRSetScreenConfig,
      WindowImplX11.issued, ho, hs, hw, WindowImplX11.Call.isModeRequest]

/-- The teardown of the owner when `XRRGetScreenInfo` returns a configuration
puts the display in the mode the instance had saved. -/
theorem WindowImplX11.destroy_owner_mode (g : WindowImplX11.Globals) (w : WindowImplX11)
    (ho : g.fullscreenWindow = some w.addr) (hs : g.screenInfo = true) :
    (WindowImplX11.destroy g w).currentMode = w.m_oldVideoMode := by
  by_cases hw : w.m_window ≠ 0 ∧ w.m_isExternal = false <;>
    simp [WindowImplX11.destroy, WindowImplX11.cleanup, WindowImplX11.XRRSetScreenConfig, ho, hs,
      hw]

/-- The teardown of the owner when `XRRGetScreenInfo` returns `NULL`: the slot
is cleared and no display-mode request is issued. -/
theorem WindowImplX11.destroy_owner_no_config (g : WindowImplX11.Globals) (w : WindowImplX11)
    (ho : g.fullscreenWindow = some w.addr) (hs : g.screenInfo = false) :
    (WindowImplX11.issued g (WindowImplX11.destroy g w)).filter
        WindowImplX11.Call.isModeRequest = [] ∧
    (WindowImplX11.destroy g w).fullscreenWindow = none ∧
    (WindowImplX11.destroy g w).currentMode = g.currentMode := by
  by_cases hw : w.m_window ≠ 0 ∧ w.m_isExternal = false
  · simp [WindowImplX11.destroy, WindowImplX11.cleanup, WindowImplX11.issued, ho, hs, hw,
      WindowImplX11.Call.isModeRequest]
  · simp [WindowImplX11.destroy, WindowImplX11.cleanup, WindowImplX11.issued, ho, hs, hw,
      WindowImplX11.Call.isModeRequest]

theorem WindowImplX11.destroy_not_owner_x11 (g : WindowImplX11.Globals) (w : WindowImplX11)
    (ho : g.fullscreenWindow ≠ some w.addr) :
    (WindowImplX11.issued g (WindowImplX11.destroy g w)).filter
        WindowImplX11.Call.isModeRequest = [] ∧
    (WindowImplX11.destroy g w).fullscreenWindow = g.fullscreenWindow := by
  by_cases hw : w.m_window ≠ 0 ∧ w.m_isExternal = false
  · simp [WindowImplX11.destroy, WindowImplX11.cleanup, WindowImplX11.issued, ho, hw,
      WindowImplX11.Call.isModeRequest]
  · simp [WindowImplX11.destroy, WindowImplX11.cleanup, WindowImplX11.issued, ho, hw,
      WindowImplX11.Call.isModeRequest]


/-- The X11 destructor only adds requests to those already issued. -/
theorem WindowImplX11.destroy_calls_prefix_x11 (g : WindowImplX11.Globals) (w : WindowImplX11) :
    g.calls <+: (WindowImplX11.destroy g w).calls := by
  by_cases hw : w.m_window ≠ 0 ∧ w.m_isExternal = false <;>
    by_cases ho : g.fullscreenWindow = some w.addr <;>
    by_cases hs : g.screenInfo = true <;>
    simp [WindowImplX11.destroy, WindowImplX11.cleanup, WindowImplX11.XRRSetScreenConfig, hw, ho,
      hs, List.append_assoc]

/-- The Win32 destructor only adds requests to those already issued. -/
theorem WindowImplWin32.destroy_calls_prefix_win32 (g : WindowImplWin32.Globals)
    (w : WindowImplWin32) : g.calls <+: (WindowImplWin32.destroy g w).calls := by
  simp only [WindowImplWin32.destroy, WindowImplWin32.DestroyWindow,
    WindowImplWin32.processEvent, WindowImplWin32.cleanup]
  by_cases hi : w.m_icon = 0 <;> by_cases hc : w.m_callback = 0 <;>
    by_cases hh : w.m_handle = 0 <;> by_cases ho : g.fullscreenWindow = some w.addr <;>
    simp only [hi, hc, hh, ho, if_true, if_false, ne_eq, not_true_eq_false,
      not_false_eq_true] <;>
    (try split) <;>
    simp [List.append_assoc]

theorem WindowImplWin32.create_fullscreen_win32 (g : WindowImplWin32.Globals) (addr : Nat)
    (mode : VideoMode) (handle : Nat) :
    (WindowImplWin32.create g addr mode true handle true).1.fullscreenWindow = some addr ∧
    (WindowImplWin32.create g addr mode true handle true).2 =
      { addr := addr, m_handle := handle, m_callback := 0, m_icon := 0,
        m_lastSize := ⟨mode.width, mode.height⟩, m_resizing := false, events := [] } := by
  simp [WindowImplWin32.create, WindowImplWin32.switchToFullscreen]

theorem WindowImplWin32.destroy_owner_win32 (g : WindowImplWin32.Globals) (w : WindowImplWin32)
    (hc : w.m_callback = 0) (hh : w.m_handle ≠ 0) (ho : g.fullscreenWindow = some w.addr) :
    (WindowImplWin32.issued g (WindowImplWin32.destroy g w)).filter
        WindowImplWin32.Call.isModeRequest
      = [WindowImplWin32.Call.ChangeDisplaySettings none] ∧
    (WindowImplWin32.destroy g w).fullscreenWindow = none := by
  simp only [WindowImplWin32.destroy, WindowImplWin32.DestroyWindow,
    WindowImplWin32.processEvent, WindowImplWin32.cleanup, WindowImplWin32.issued, hc, hh, ho,
    if_true, if_false, ne_eq, not_false_eq_true]
  by_cases hi : w.m_icon = 0 <;>
    simp only [hi, if_true, if_false, not_true_eq_false, not_false_eq_true, ho] <;>
    split <;>
    simp [WindowImplWin32.Call.isModeRequest]

theorem WindowImplWin32.destroy_not_owner_win32 (g : WindowImplWin32.Globals) (w : WindowImplWin32)
    (ho : g.fullscreenWindow ≠ some w.addr) :
    (WindowImplWin32.issued g (WindowImplWin32.destroy g w)).filter
        WindowImplWin32.Call.isModeRequest = [] ∧
    (WindowImplWin32.destroy g w).fullscreenWindow = g.fullscreenWindow := by
  simp only [WindowImplWin32.destroy, WindowImplWin32.DestroyWindow,
    WindowImplWin32.processEvent, WindowImplWin32.cleanup, WindowImplWin32.issued]
  by_cases hi : w.m_icon = 0 <;> by_cases hc : w.m_callback = 0 <;>
    by_cases hh : w.m_handle = 0 <;>
    simp only [hi, hc, hh, ho, if_true, if_false, ne_eq, not_true_eq_false,
      not_false_eq_true] <;>
    (try split) <;>
    simp [WindowImplWin32.Call.isModeRequest]

/-- C6 (as amended): window A is created fullscreen and its mode switch
succeeds, then window B is created fullscreen and its mode switch succeeds,
then B is destroyed, then A.

On X11, A saves the mode current before its switch and B the mode current
after A's switch. B's teardown makes a call of `XRRGetScreenInfo` of its own:
when it returns a configuration (`configB = true`), the teardown issues exactly
one display-mode request, `XRRSetScreenConfig` with the token `m_oldVideoMode`
that B recorded at its own switch, and the display is in that mode again; when
it returns `NULL`, the teardown issues no display-mode request. In both cases it leaves the owner slot null. A's
teardown afterwards issues no display-mode request and leaves the owner slot
null, whatever `XRRGetScreenInfo` returns.

On Win32, where no token is kept, B's teardown of a window that was created
(`handleB` is not null) issues exactly one display-mode request,
`ChangeDisplaySettings(NULL, 0)`, and leaves the owner slot null; A's teardown
afterwards issues no display-mode request and leaves the owner slot null.

(`issued` is the list of requests a teardown adds: the requests recorded before
it are a prefix of those recorded after it.) -/
theorem fullscreen_ownership_exclusivity (g0 : WindowImplX11.Globals)
    (a b : WindowImplX11.Construction) (configB configA : Bool)
    (h0 : WindowImplWin32.Globals) (addrA addrB : Nat) (modeA modeB : VideoMode)
    (handleA handleB : Nat)
    (hA : a.switches g0) (hB : b.switches (WindowImplX11.construct g0 a).1) :
    ((WindowImplX11.nested g0 a b configB configA).createdA.2.m_oldVideoMode = g0.currentMode ∧
      (WindowImplX11.nested g0 a b configB configA).createdB.2.m_oldVideoMode
        = (WindowImplX11.nested g0 a b configB configA).createdA.1.currentMode ∧
      (configB = true →
        (WindowImplX11.issued (WindowImplX11.nested g0 a b configB configA).createdB.1
            (WindowImplX11.nested g0 a b configB configA).destroyedB).filter
            WindowImplX11.Call.isModeRequest
          = [WindowImplX11.Call.XRRSetScreenConfig
              (WindowImplX11.nested g0 a b configB configA).createdB.2.m_oldVideoMode
              (WindowImplX11.nested g0 a b configB configA).createdB.1.rotation] ∧
        (WindowImplX11.nested g0 a b configB configA).destroyedB.currentMode
          = (WindowImplX11.nested g0 a b configB configA).createdB.2.m_oldVideoMode) ∧
      (configB = false →
        (WindowImplX11.issued (WindowImplX11.nested g0 a b configB configA).createdB.1
            (WindowImplX11.nested g0 a b configB configA).destroyedB).filter
            WindowImplX11.Call.isModeRequest = []) ∧
      (WindowImplX11.nested g0 a b configB configA).destroyedB.fullscreenWindow = none ∧
      (WindowImplX11.issued (WindowImplX11.nested g0 a b configB configA).destroyedB
          (WindowImplX11.nested g0 a b configB configA).destroyedA).filter
          WindowImplX11.Call.isModeRequest = [] ∧
      (WindowImplX11.nested g0 a b configB configA).destroyedA.fullscreenWindow = none ∧
      (WindowImplX11.nested g0 a b configB configA).createdB.1.calls
        <+: (WindowImplX11.nested g0 a b configB configA).destroyedB.calls ∧
      (WindowImplX11.nested g0 a b configB configA).destroyedB.calls
        <+: (WindowImplX11.nested g0 a b configB configA).destroyedA.calls) ∧
    (handleB ≠ 0 →
      (WindowImplWin32.issued
          (WindowImplWin32.nested h0 addrA addrB modeA modeB handleA handleB).createdB.1
          (WindowImplWin32.nested h0 addrA addrB modeA modeB handleA handleB).destroyedB).filter
          WindowImplWin32.Call.isModeRequest
        = [WindowImplWin32.Call.ChangeDisplaySettings none] ∧
      (WindowImplWin32.nested h0 addrA addrB modeA modeB handleA
          handleB).destroyedB.fullscreenWindow = none ∧
      (WindowImplWin32.issued
          (WindowImplWin32.nested h0 addrA addrB modeA modeB handleA handleB).destroyedB
          (WindowImplWin32.nested h0 addrA addrB modeA modeB handleA handleB).destroyedA).filter
          WindowImplWin32.Call.isModeRequest = [] ∧
      (WindowImplWin32.nested h0 addrA addrB modeA modeB handleA
          handleB).destroyedA.fullscreenWindow = none ∧
      (WindowImplWin32.nested h0 addrA addrB modeA modeB handleA handleB).createdB.1.calls
        <+: (WindowImplWin32.nested h0 addrA addrB modeA modeB handleA
          handleB).destroyedB.calls ∧
      (WindowImplWin32.nested h0 addrA addrB modeA modeB handleA handleB).destroyedB.calls
        <+: (WindowImplWin32.nested h0 addrA addrB modeA modeB handleA
          handleB).destroyedA.calls) := by
  simp only [WindowImplX11.nested, WindowImplWin32.nested]
  constructor
  · obtain ⟨-, -, -, hAm⟩ := WindowImplX11.construct_fullscreen g0 a hA
    obtain ⟨hBo, -, hBa, hBm⟩ :=
      WindowImplX11.construct_fullscreen (WindowImplX11.construct g0 a).1 b hB
    generalize WindowImplX11.construct (WindowImplX11.construct g0 a).1 b = sb
      at hBo hBa hBm ⊢
    have hown : (sb.1.answering configB).fullscreenWindow = some sb.2.addr := by
      rw [hBa]
      exact hBo
    have hslot : (WindowImplX11.teardown sb.1 sb.2 configB).fullscreenWindow = none := by
      cases hc : configB with
      | true => exact (WindowImplX11.destroy_owner_x11 _ sb.2 (hc ▸ hown) rfl).2
      | false => exact (WindowImplX11.destroy_owner_no_config _ sb.2 (hc ▸ hown) rfl).2.1
    obtain ⟨hd3, hd4⟩ := WindowImplX11.destroy_not_owner_x11
      ((WindowImplX11.teardown sb.1 sb.2 configB).answering configA)
      (WindowImplX11.construct g0 a).2
      (by
        show (WindowImplX11.teardown sb.1 sb.2 configB).fullscreenWindow ≠ _
        rw [hslot]
        simp)
    refine ⟨hAm, hBm, ?_, ?_, hslot, hd3, ?_, ?_, ?_⟩
    · intro hc
      subst hc
      exact ⟨(WindowImplX11.destroy_owner_x11 _ sb.2 hown rfl).1,
        WindowImplX11.destroy_owner_mode _ sb.2 hown rfl⟩
    · intro hc
      subst hc
      exact (WindowImplX11.destroy_owner_no_config _ sb.2 hown rfl).1
    · show (WindowImplX11.destroy _ _).fullscreenWindow = none
      rw [hd4]
      exact hslot
    · exact WindowImplX11.destroy_calls_prefix_x11 (sb.1.answering configB) sb.2
    · exact WindowImplX11.destroy_calls_prefix_x11
        ((WindowImplX11.teardown sb.1 sb.2 configB).answering configA) _
  · intro hhB
    obtain ⟨hBo, hBw⟩ := WindowImplWin32.create_fullscreen_win32
      (WindowImplWin32.create h0 addrA modeA true handleA true).1 addrB modeB handleB
    generalize WindowImplWin32.create (WindowImplWin32.create h0 addrA modeA true handleA true).1
      addrB modeB true handleB true = b at hBo hBw ⊢
    obtain ⟨hd1, hd2⟩ := WindowImplWin32.destroy_owner_win32 b.1 b.2 (by rw [hBw])
      (by rw [hBw]; exact hhB) (by rw [hBo, hBw])
    obtain ⟨hd3, hd4⟩ := WindowImplWin32.destroy_not_owner_win32 (WindowImplWin32.destroy b.1 b.2)
      (WindowImplWin32.create h0 addrA modeA true handleA true).2 (by rw [hd2]; simp)
    exact ⟨hd1, hd2, hd3, by rw [hd4, hd2],
      WindowImplWin32.destroy_calls_prefix_win32 _ _,
      WindowImplWin32.destroy_calls_prefix_win32 _ _⟩

/-- The sample construction A switches from the idle sample state, and the
sample construction B from the state that A leaves. -/
theorem WindowImplX11.sample_constructions_switch :
    WindowImplX11.constructionA.switches WindowImplX11.idleGlobals ∧
    WindowImplX11.constructionB.switches
      (WindowImplX11.construct WindowImplX11.idleGlobals WindowImplX11.constructionA).1 :=
  ⟨⟨by decide, by decide, by decide, [(640, 480), (800, 600), (1024, 768)], 1, by decide,
      by decide⟩,
    ⟨by decide, by decide, by decide, [(640, 480), (800, 600), (1024, 768)], 0, by decide,
      by decide⟩⟩

/-- C6, witness: from a display in mode 2 with sizes 640 x 480, 800 x 600 and
1024 x 768, A asks for 800 x 600 and B for 640 x 480; both teardowns find a
screen configuration: B's teardown restores mode 1, the token B saved. On
Win32 the windows have the handles 7 and 8. -/
theorem fullscreen_ownership_exclusivity_witness :
    (WindowImplX11.constructionA.switches WindowImplX11.idleGlobals ∧
      WindowImplX11.constructionB.switches
        (WindowImplX11.construct WindowImplX11.idleGlobals WindowImplX11.constructionA).1 ∧
      (8 : Nat) ≠ 0) ∧
    (WindowImplX11.issued
        (WindowImplX11.nested WindowImplX11.idleGlobals WindowImplX11.constructionA
          WindowImplX11.constructionB true true).createdB.1
        (WindowImplX11.nested WindowImplX11.idleGlobals WindowImplX11.constructionA
          WindowImplX11.constructionB true true).destroyedB).filter
        WindowImplX11.Call.isModeRequest
      = [WindowImplX11.Call.XRRSetScreenConfig 1 1] ∧
    (WindowImplWin32.issued
        (WindowImplWin32.nested WindowImplWin32.Process.init.g 1 2 ⟨800, 600, 32⟩
          ⟨640, 480, 32⟩ 7 8).createdB.1
        (WindowImplWin32.nested WindowImplWin32.Process.init.g 1 2 ⟨800, 600, 32⟩
          ⟨640, 480, 32⟩ 7 8).destroyedB).filter WindowImplWin32.Call.isModeRequest
      = [WindowImplWin32.Call.ChangeDisplaySettings none] :=
  have hA : WindowImplX11.constructionA.switches WindowImplX11.idleGlobals :=
    ⟨by decide, by decide, by decide, [(640, 480), (800, 600), (1024, 768)], 1, by decide,
      by decide⟩
  have hB : WindowImplX11.constructionB.switches
      (WindowImplX11.construct WindowImplX11.idleGlobals WindowImplX11.constructionA).1 :=
    ⟨by decide, by decide, by decide, [(640, 480), (800, 600), (1024, 768)], 0, by decide,
      by decide⟩
  have h := fullscreen_ownership_exclusivity WindowImplX11.idleGlobals
    WindowImplX11.constructionA WindowImplX11.constructionB true true
    WindowImplWin32.Process.init.g 1 2 ⟨800, 600, 32⟩ ⟨640, 480, 32⟩ 7 8 hA hB
  ⟨⟨hA, hB, by decide⟩, (h.1.2.2.1 rfl).1.trans (by decide), (h.2 (by decide)).1⟩

/-- C6, counterexample: the claim as stated fails. (1) On X11, A (800 x 600)
and B (640 x 480) are created fullscreen from a display in mode 2 and both mode
switches succeed; B has saved mode 1. During B's teardown `XRRGetScreenInfo`
returns `NULL`: the teardown issues no display-mode request at all, and the
display stays in mode 0, the mode B had switched to. (2) On Win32, A and B are
created fullscreen and both `ChangeDisplaySettings` calls succeed, but
`CreateWindow` returned `NULL` for B: B's destructor does not call
`DestroyWindow`, so `cleanup` never runs: the teardown issues no display-mode
request and the owner slot still holds the address of B, also after A's
teardown. (3) On Win32, with both windows created, the one display-mode request
of B's teardown is `ChangeDisplaySettings(NULL, 0)`: it names no mode, neither
one saved by B nor one saved by A. -/
theorem fullscreen_ownership_exclusivity_counterexample :
    ((WindowImplX11.constructionA.switches WindowImplX11.idleGlobals ∧
        WindowImplX11.constructionB.switches
          (WindowImplX11.construct WindowImplX11.idleGlobals WindowImplX11.constructionA).1) ∧
      (WindowImplX11.issued
          (WindowImplX11.nested WindowImplX11.idleGlobals WindowImplX11.constructionA
            WindowImplX11.constructionB false true).createdB.1
          (WindowImplX11.nested WindowImplX11.idleGlobals WindowImplX11.constructionA
            WindowImplX11.constructionB false true).destroyedB).filter
          WindowImplX11.Call.isModeRequest = [] ∧
      (WindowImplX11.nested WindowImplX11.idleGlobals WindowImplX11.constructionA
          WindowImplX11.constructionB false true).createdB.2.m_oldVideoMode = 1 ∧
      (WindowImplX11.nested WindowImplX11.idleGlobals WindowImplX11.constructionA
          WindowImplX11.constructionB false true).destroyedB.currentMode = 0) ∧
    ((WindowImplWin32.issued
          (WindowImplWin32.nested WindowImplWin32.Process.init.g 1 2 ⟨800, 600, 32⟩
            ⟨640, 480, 32⟩ 7 0).createdB.1
          (WindowImplWin32.nested WindowImplWin32.Process.init.g 1 2 ⟨800, 600, 32⟩
            ⟨640, 480, 32⟩ 7 0).destroyedB).filter WindowImplWin32.Call.isModeRequest = [] ∧
      (WindowImplWin32.nested WindowImplWin32.Process.init.g 1 2 ⟨800, 600, 32⟩
          ⟨640, 480, 32⟩ 7 0).createdB.1.fullscreenWindow = some 2 ∧
      (WindowImplWin32.nested WindowImplWin32.Process.init.g 1 2 ⟨800, 600, 32⟩
          ⟨640, 480, 32⟩ 7 0).destroyedB.fullscreenWindow = some 2 ∧
      (WindowImplWin32.nested WindowImplWin32.Process.init.g 1 2 ⟨800, 600, 32⟩
          ⟨640, 480, 32⟩ 7 0).destroyedA.fullscreenWindow = some 2) ∧
    (WindowImplWin32.issued
        (WindowImplWin32.nested WindowImplWin32.Process.init.g 1 2 ⟨800, 600, 32⟩
          ⟨640, 480, 32⟩ 7 8).createdB.1
        (WindowImplWin32.nested WindowImplWin32.Process.init.g 1 2 ⟨800, 600, 32⟩
          ⟨640, 480, 32⟩ 7 8).destroyedB).filter WindowImplWin32.Call.isModeRequest
      = [WindowImplWin32.Call.ChangeDisplaySettings none] := by
  refine ⟨⟨WindowImplX11.sample_constructions_switch, by decide, by decide, by decide⟩,
    ⟨by decide, by decide, by decide, by decide⟩, by decide⟩

/-! ### Adopted windows and the window-class count -/

/-- On X11 an adopted window is never destroyed by the wrapper: its teardown
issues no request at all unless it restores the display mode. -/
theorem WindowImplX11.adopt_destroy (g : WindowImplX11.Globals) (addr handle atom : Nat) :
    WindowImplX11.destroy (WindowImplX11.adopt g addr handle atom).1
        (WindowImplX11.adopt g addr handle atom).2
      = WindowImplX11.cleanup (WindowImplX11.adopt g addr handle atom).1
        (WindowImplX11.adopt g addr handle atom).2 := by
  by_cases hh : handle = 0 <;>
    simp [WindowImplX11.destroy, WindowImplX11.adopt, WindowImplX11.initializeWindow, hh]

/-- On Win32 an adopted window whose hook returned a non-null previous
procedure is not destroyed by the wrapper, and the previous procedure is put
back. -/
theorem WindowImplWin32.adopt_destroy_hooked (g : WindowImplWin32.Globals)
    (addr handle : Nat) (previousProc : Int) (hh : handle ≠ 0) (hp : previousProc ≠ 0) :
    WindowImplWin32.destroy (WindowImplWin32.adopt g addr handle previousProc).1
        (WindowImplWin32.adopt g addr handle previousProc).2
      = { g with calls := g.calls ++
          [WindowImplWin32.Call.SetWindowLongPtr handle WindowImplWin32.LongIndex.GWLP_USERDATA
            (WindowImplWin32.LongValue.instance_ addr),
           WindowImplWin32.Call.SetWindowLongPtr handle WindowImplWin32.LongIndex.GWLP_WNDPROC
            WindowImplWin32.LongValue.globalOnEvent,
           WindowImplWin32.Call.SetWindowLongPtr handle WindowImplWin32.LongIndex.GWLP_WNDPROC
            (WindowImplWin32.LongValue.saved previousProc)] } := by
  simp [WindowImplWin32.destroy, WindowImplWin32.adopt, hh, hp]

/-- C7, the code at the failing input: the window with handle 5 is adopted by
`WindowImplWin32(WindowHandle)` and `SetWindowLongPtr(m_handle, GWLP_WNDPROC,
...)` returns 0, so `m_callback` is 0; the destructor then takes the branch of
owned windows: it calls `DestroyWindow` on the adopted handle, does not
re-install a window procedure, and decrements `windowCount` (from 0 to
`2^32 - 1`). -/
theorem adopted_window_destroyed_when_hook_returns_null :
    (WindowImplWin32.destroy (WindowImplWin32.adopt WindowImplWin32.Process.init.g 1 5 0).1
        (WindowImplWin32.adopt WindowImplWin32.Process.init.g 1 5 0).2)
      = { windowCount := 4294967295, fullscreenWindow := none,
          calls :=
            [WindowImplWin32.Call.SetWindowLongPtr 5 WindowImplWin32.LongIndex.GWLP_USERDATA
              (WindowImplWin32.LongValue.instance_ 1),
             WindowImplWin32.Call.SetWindowLongPtr 5 WindowImplWin32.LongIndex.GWLP_WNDPROC
              WindowImplWin32.LongValue.globalOnEvent,
             WindowImplWin32.Call.DestroyWindow 5] } := by
  decide

/-- C8, the code at the failing input: (1) a null handle is adopted and the
wrapper destroyed: `windowCount` goes from 0 to `2^32 - 1` although no owned
instance is live; (2) one owned window is created, then a null handle is
adopted and that wrapper destroyed: `windowCount` is 0 and the window class is
unregistered although the owned instance is still live. -/
theorem windowCount_changed_by_null_adoption :
    ((WindowImplWin32.Process.init.run
        [WindowImplWin32.Op.adopt 1 0 0, WindowImplWin32.Op.destroy 1]).g.windowCount = 4294967295 ∧
      (WindowImplWin32.Process.init.run
        [WindowImplWin32.Op.adopt 1 0 0, WindowImplWin32.Op.destroy 1]).liveOwned = 0) ∧
    ((WindowImplWin32.Process.init.run
        [WindowImplWin32.Op.create 1 ⟨800, 600, 32⟩ false 5 true, WindowImplWin32.Op.adopt 2 0 0,
          WindowImplWin32.Op.destroy 2]).g
        = { windowCount := 0, fullscreenWindow := none,
            calls := [WindowImplWin32.Call.RegisterClass, WindowImplWin32.Call.CreateWindow 1,
              WindowImplWin32.Call.SetWindowLongPtr 5 WindowImplWin32.LongIndex.GWLP_USERDATA
                (WindowImplWin32.LongValue.instance_ 1),
              WindowImplWin32.Call.UnregisterClass] } ∧
      (WindowImplWin32.Process.init.run
        [WindowImplWin32.Op.create 1 ⟨800, 600, 32⟩ false 5 true, WindowImplWin32.Op.adopt 2 0 0,
          WindowImplWin32.Op.destroy 2]).liveOwned = 1) := by
  decide

/-! ### Resize notifications -/

/-- What `processEvent` hands to the sink for one notification is the entry of
the table; the window and the close atom of the instance stay as they are. -/
theorem WindowImplX11.processEvent_translation (g : WindowImplX11.Globals) (w : WindowImplX11)
    (e : WindowImplX11.XEvent) :
    (WindowImplX11.processEvent g w e).2.events
        = w.events ++ WindowImplX11.translation w.m_atomClose e ∧
    (WindowImplX11.processEvent g w e).2.m_window = w.m_window ∧
    (WindowImplX11.processEvent g w e).2.m_atomClose = w.m_atomClose := by
  unfold WindowImplX11.processEvent WindowImplX11.translation
  cases e.data with
  | DestroyNotify => simp
  | FocusIn => simp [pushEvent]
  | FocusOut => simp [pushEvent]
  | ConfigureNotify width height => simp [pushEvent]
  | ClientMessage format data_l0 =>
    by_cases hc : format = 32 ∧ data_l0 = toLong w.m_atomClose
    · simp [hc, pushEvent]
    · simp only [if_neg hc]
      simp
  | other t => simp

theorem WindowImplX11.translation_length (atomClose : Nat) (e : WindowImplX11.XEvent) :
    (WindowImplX11.translation atomClose e).length ≤ 1 := by
  unfold WindowImplX11.translation
  cases e.data with
  | ClientMessage format data_l0 => simp only []; split <;> simp
  | _ => simp

theorem WindowImplX11.XCheckIfEvent_none (window : Nat) (queue : List WindowImplX11.XEvent)
    (h : WindowImplX11.XCheckIfEvent window queue = none) :
    queue.filter (fun e => decide (e.window ≠ window)) = queue ∧
    queue.filter (fun e => decide (e.window = window)) = [] := by
  induction queue with
  | nil => simp
  | cons e rest ih =>
    simp only [WindowImplX11.XCheckIfEvent] at h
    by_cases he : e.window = window
    · simp [he] at h
    · simp only [he, if_false, Option.map_eq_none'] at h
      obtain ⟨h1, h2⟩ := ih h
      rw [List.filter_cons_of_pos (by simpa using he),
        List.filter_cons_of_neg (by simpa using he), h1, h2]
      exact ⟨rfl, rfl⟩

theorem WindowImplX11.XCheckIfEvent_some (window : Nat) (queue : List WindowImplX11.XEvent)
    (r : WindowImplX11.XEvent × List WindowImplX11.XEvent)
    (h : WindowImplX11.XCheckIfEvent window queue = some r) :
    queue.filter (fun e => decide (e.window ≠ window))
        = r.2.filter (fun e => decide (e.window ≠ window)) ∧
    queue.filter (fun e => decide (e.window = window))
        = r.1 :: r.2.filter (fun e => decide (e.window = window)) ∧
    r.2.length < queue.length := by
  induction queue generalizing r with
  | nil => simp [WindowImplX11.XCheckIfEvent] at h
  | cons e rest ih =>
    simp only [WindowImplX11.XCheckIfEvent] at h
    by_cases he : e.window = window
    · simp only [he, if_true, Option.some.injEq] at h
      subst h
      rw [List.filter_cons_of_neg (by simp [he]), List.filter_cons_of_pos (by simp [he])]
      exact ⟨rfl, rfl, by simp⟩
    · simp only [he, if_false] at h
      cases hr : WindowImplX11.XCheckIfEvent window rest with
      | none => simp [hr] at h
      | some y =>
        simp only [hr, Option.map_some', Option.some.injEq] at h
        subst h
        obtain ⟨h1, h2, h3⟩ := ih y hr
        refine ⟨?_, ?_, ?_⟩
        · rw [List.filter_cons_of_pos (by simpa using he),
            List.filter_cons_of_pos (by simpa using he), h1]
        · rw [List.filter_cons_of_neg (by simpa using he),
            List.filter_cons_of_neg (by simpa using he), h2]
        · simp only [List.length_cons]
          omega

theorem WindowImplX11.processEvents_none (queue : List WindowImplX11.XEvent)
    (g : WindowImplX11.Globals) (w : WindowImplX11)
    (h : WindowImplX11.XCheckIfEvent w.m_window queue = none) :
    WindowImplX11.processEvents queue g w = (queue, g, w) := by
  rw [WindowImplX11.processEvents]
  split
  · rfl
  · rename_i r hr
    rw [h] at hr
    cases hr

theorem WindowImplX11.processEvents_some (queue : List WindowImplX11.XEvent)
    (g : WindowImplX11.Globals) (w : WindowImplX11)
    (r : WindowImplX11.XEvent × List WindowImplX11.XEvent)
    (h : WindowImplX11.XCheckIfEvent w.m_window queue = some r) :
    WindowImplX11.processEvents queue g w =
      WindowImplX11.processEvents r.2 (WindowImplX11.processEvent g w r.1).1
        (WindowImplX11.processEvent g w r.1).2 := by
  rw [WindowImplX11.processEvents]
  split
  · rename_i hr
    rw [h] at hr
    cases hr
  · rename_i r2 hr
    rw [h] at hr
    cases hr
    rfl

theorem WindowImplX11.processEvents_spec (n : Nat) :
    ∀ (queue : List WindowImplX11.XEvent) (g : WindowImplX11.Globals) (w : WindowImplX11),
      queue.length ≤ n →
      (WindowImplX11.processEvents queue g w).1
          = queue.filter (fun e => decide (e.window ≠ w.m_window)) ∧
      (WindowImplX11.processEvents queue g w).2.2.events
          = w.events ++ (queue.filter (fun e => decide (e.window = w.m_window))).flatMap
              (WindowImplX11.translation w.m_atomClose) := by
  induction n with
  | zero =>
    intro queue g w hlen
    have hq : queue = [] := List.length_eq_zero.mp (Nat.le_zero.mp hlen)
    subst hq
    rw [WindowImplX11.processEvents_none [] g w rfl]
    simp
  | succ n ih =>
    intro queue g w hlen
    cases hc : WindowImplX11.XCheckIfEvent w.m_window queue with
    | none =>
      obtain ⟨h1, h2⟩ := WindowImplX11.XCheckIfEvent_none _ _ hc
      rw [WindowImplX11.processEvents_none queue g w hc, h1, h2]
      simp
    | some r =>
      obtain ⟨h1, h2, h3⟩ := WindowImplX11.XCheckIfEvent_some _ _ r hc
      obtain ⟨he, hw, ha⟩ := WindowImplX11.processEvent_translation g w r.1
      obtain ⟨i1, i2⟩ := ih r.2 (WindowImplX11.processEvent g w r.1).1
        (WindowImplX11.processEvent g w r.1).2 (by omega)
      rw [WindowImplX11.processEvents_some queue g w r hc, i1, i2, hw, ha, he, h1, h2]
      simp

/-- C10: for every finite notification queue `Q` of the display and every
window, `WindowImplX11::processEvents` terminates (the function is total);
the queue it leaves is `Q` without the notifications whose window field equals
the window of the instance, the others in their original relative order; the
events pushed to the sink are the concatenation, in queue order, of what
`processEvent` pushes for each removed notification (`translation`), and each
notification contributes at most one event. -/
theorem processEvents_drain_filter_order (queue : List WindowImplX11.XEvent)
    (g : WindowImplX11.Globals) (w : WindowImplX11) :
    (WindowImplX11.processEvents queue g w).1
        = queue.filter (fun e => decide (e.window ≠ w.m_window)) ∧
    (WindowImplX11.processEvents queue g w).2.2.events
        = w.events ++ (queue.filter (fun e => decide (e.window = w.m_window))).flatMap
            (WindowImplX11.translation w.m_atomClose) ∧
    (∀ (g1 : WindowImplX11.Globals) (w1 : WindowImplX11) (e : WindowImplX11.XEvent),
      (WindowImplX11.processEvent g1 w1 e).2.events
        = w1.events ++ WindowImplX11.translation w1.m_atomClose e) ∧
    (∀ e, (WindowImplX11.translation w.m_atomClose e).length ≤ 1) :=
  ⟨(WindowImplX11.processEvents_spec queue.length queue g w (Nat.le_refl _)).1,
    (WindowImplX11.processEvents_spec queue.length queue g w (Nat.le_refl _)).2,
    fun g1 w1 e => (WindowImplX11.processEvent_translation g1 w1 e).1,
    WindowImplX11.translation_length w.m_atomClose⟩

/-! ### Bounds of the X11 icon buffer -/

/-- C20, the code at the failing input: for width 65536 and height 16384 (both
below `2^32`) the allocation size `(width * height * 4) mod 2^32` is 0 and the
loop bound `(width * height) mod 2^32` is `2^30`; the first write of the
channel-swap loop, at byte index `0 * 4 + 0`, is not below the allocated size:
the out-of-range branch of the indexed write is taken and `setIcon` leaves
defined behaviour. -/
theorem setIcon_iconPixels_out_of_range :
    65536 < UINT_MOD ∧ 16384 < UINT_MOD ∧
    65536 * 16384 * 4 % UINT_MOD = 0 ∧
    65536 * 16384 % UINT_MOD = 1073741824 ∧
    ¬ (0 * 4 + 0 < (mallocBytes (65536 * 16384 * 4 % UINT_MOD) (fun _ => 0)).length) ∧
    writeByte (mallocBytes (65536 * 16384 * 4 % UINT_MOD) (fun _ => 0)) (0 * 4 + 0) 30 = none ∧
    WindowImplX11.setIcon_iconPixels 65536 16384 (fun _ => 0) (fun _ => 30) = none := by
  have h4 : 65536 * 16384 * 4 % UINT_MOD = 0 := by decide
  have h1 : 65536 * 16384 % UINT_MOD = 1073741824 := by decide
  refine ⟨by decide, by decide, h4, h1, by rw [h4]; decide, by rw [h4]; decide, ?_⟩
  simp only [WindowImplX11.setIcon_iconPixels, h4, h1]
  exact forLoopM_none_of_le _ 1 1073741824 _ (by decide) (by decide)

/-! ### The static mask buffer -/

set_option maxRecDepth 20000 in
/-- C19, the code at the failing inputs. (1) `setIcon` is called with a 1 x 1
opaque icon and then with a 1 x 1 transparent icon: the static mask vector
still holds the bit of the first icon, so the second call hands the mask `[1]`
to `XCreatePixmapFromBitmapData`, where a first-ever call with the second
icon hands `[0]`. (2) `setIcon` is called with a 1 x 1 icon and then with a
16 x 2 icon: the static vector keeps its size of 1 byte, and the second call
indexes it outside (mask bytes 1, 2 and 3). -/
theorem setIcon_mask_depends_on_history :
    (WindowImplX11.setIcon WindowImplX11.sampleGlobals WindowImplX11.sampleWindow none 1 1
        (fun _ => 0) (fun _ => 255) true).map Prod.snd = some (some [1]) ∧
    ((WindowImplX11.setIcon WindowImplX11.sampleGlobals WindowImplX11.sampleWindow (some [1]) 1 1
        (fun _ => 0) (fun _ => 0) true).map Prod.snd = some (some [1]) ∧
      (WindowImplX11.setIcon WindowImplX11.sampleGlobals WindowImplX11.sampleWindow none 1 1
        (fun _ => 0) (fun _ => 0) true).map Prod.snd = some (some [0])) ∧
    (WindowImplX11.setIcon_maskPixels (some [1]) 1 1 (fun _ => 0) = some [1] ∧
      WindowImplX11.setIcon_maskPixels none 1 1 (fun _ => 0) = some [0]) ∧
    (WindowImplX11.setIcon_maskPixels (some [1]) 16 2 (fun _ => 255) = none ∧
      WindowImplX11.setIcon WindowImplX11.sampleGlobals WindowImplX11.sampleWindow (some [1]) 16 2
        (fun _ => 0) (fun _ => 255) true = none ∧
      WindowImplX11.setIcon_maskPixels none 16 2 (fun _ => 255) = some [255, 255, 255, 255]) := by
  refine ⟨by decide, ⟨by decide, by decide⟩, ⟨by decide, by decide⟩, by decide, by decide,
    by decide⟩

/-! ### Win32 resize bookkeeping -/

/-- On an instance with a null handle `processEvent` ignores every message. -/
theorem WindowImplWin32.processEvent_null_handle (g : WindowImplWin32.Globals)
    (w : WindowImplWin32) (message : WindowImplWin32.Message) (wParam : Nat) (size : Vector2u)
    (hh : w.m_handle = 0) :
    WindowImplWin32.processEvent g w message wParam size = (g, w) := by
  simp [WindowImplWin32.processEvent, hh]

/-- C17 (as amended): `processEvent(WM_SIZE)` pushes no event and leaves
`m_lastSize` and `m_resizing` (and everything else) unchanged whenever
`wParam = SIZE_MINIMIZED` or `m_resizing` is true, whatever the client size;
on an instance with a non-null handle `WM_ENTERSIZEMOVE` pushes no event, sets
`m_resizing = true` and leaves `m_lastSize` unchanged, and `WM_EXITSIZEMOVE`
leaves `m_resizing = false`. -/
theorem minimize_and_drag_suppression (g : WindowImplWin32.Globals) (w : WindowImplWin32)
    (wParam : Nat) (size : Vector2u) (hh : w.m_handle ≠ 0) :
    (wParam = WindowImplWin32.SIZE_MINIMIZED ∨ w.m_resizing = true →
      WindowImplWin32.processEvent g w WindowImplWin32.Message.WM_SIZE wParam size = (g, w)) ∧
    WindowImplWin32.processEvent g w WindowImplWin32.Message.WM_ENTERSIZEMOVE wParam size
      = (g, { w with m_resizing := true }) ∧
    (WindowImplWin32.processEvent g w WindowImplWin32.Message.WM_EXITSIZEMOVE wParam size).2.m_resizing
      = false := by
  refine ⟨?_, ?_, ?_⟩
  · rintro (h | h)
    · simp [WindowImplWin32.processEvent, h]
    · simp [WindowImplWin32.processEvent, h]
  · simp [WindowImplWin32.processEvent, hh]
  · simp only [WindowImplWin32.processEvent, hh, if_false]
    split <;> rfl

/-- C17, witness: the sample window, minimized. -/
theorem minimize_and_drag_suppression_witness :
    WindowImplWin32.sampleWindow.m_handle ≠ 0 ∧
    ((WindowImplWin32.SIZE_MINIMIZED = WindowImplWin32.SIZE_MINIMIZED ∨
        WindowImplWin32.sampleWindow.m_resizing = true →
      WindowImplWin32.processEvent WindowImplWin32.sampleGlobals WindowImplWin32.sampleWindow
        WindowImplWin32.Message.WM_SIZE WindowImplWin32.SIZE_MINIMIZED ⟨0, 0⟩
        = (WindowImplWin32.sampleGlobals, WindowImplWin32.sampleWindow)) ∧
    WindowImplWin32.processEvent WindowImplWin32.sampleGlobals WindowImplWin32.sampleWindow
        WindowImplWin32.Message.WM_ENTERSIZEMOVE WindowImplWin32.SIZE_MINIMIZED ⟨0, 0⟩
      = (WindowImplWin32.sampleGlobals, { WindowImplWin32.sampleWindow with m_resizing := true }) ∧
    (WindowImplWin32.processEvent WindowImplWin32.sampleGlobals WindowImplWin32.sampleWindow
        WindowImplWin32.Message.WM_EXITSIZEMOVE WindowImplWin32.SIZE_MINIMIZED ⟨0, 0⟩).2.m_resizing
      = false) :=
  ⟨by decide, minimize_and_drag_suppression WindowImplWin32.sampleGlobals
    WindowImplWin32.sampleWindow WindowImplWin32.SIZE_MINIMIZED ⟨0, 0⟩ (by decide)⟩

/-- C17, counterexample: the claim as stated for every state fails on an
instance whose handle is null, as `WindowImplWin32(NULL)` constructs it:
`processEvent` returns before its `switch`, so `WM_ENTERSIZEMOVE` does not set
`m_resizing`. -/
theorem minimize_and_drag_suppression_counterexample :
    (WindowImplWin32.processEvent WindowImplWin32.Process.init.g
        (WindowImplWin32.adopt WindowImplWin32.Process.init.g 1 0 0).2
        WindowImplWin32.Message.WM_ENTERSIZEMOVE 0 ⟨10, 10⟩).2.m_resizing = false := by
  decide

/-- One message either leaves `m_lastSize` and the `Resized` events as they
are, or pushes one `Resized` event, last in the sink, whose size differs from
`m_lastSize` and becomes the new `m_lastSize`. -/
theorem WindowImplWin32.processEvent_resize_step (g : WindowImplWin32.Globals)
    (w : WindowImplWin32) (message : WindowImplWin32.Message) (wParam : Nat) (size : Vector2u) :
    ((WindowImplWin32.processEvent g w message wParam size).2.m_lastSize = w.m_lastSize ∧
      resizedSizes (WindowImplWin32.processEvent g w message wParam size).2.events
        = resizedSizes w.events) ∨
    (size ≠ w.m_lastSize ∧
      (WindowImplWin32.processEvent g w message wParam size).2.m_lastSize = size ∧
      (WindowImplWin32.processEvent g w message wParam size).2.events
        = w.events ++ [Event.Resized size.x size.y]) := by
  by_cases hh : w.m_handle = 0
  · left
    rw [WindowImplWin32.processEvent_null_handle g w message wParam size hh]
    exact ⟨rfl, rfl⟩
  · cases message with
    | WM_DESTROY => left; simp [WindowImplWin32.processEvent, hh]
    | WM_CLOSE =>
      left; simp [WindowImplWin32.processEvent, hh, pushEvent, resizedSizes, List.filterMap_append]
    | WM_SIZE =>
      by_cases hc : wParam ≠ WindowImplWin32.SIZE_MINIMIZED ∧ w.m_resizing = false ∧
          w.m_lastSize ≠ size
      · right
        refine ⟨Ne.symm hc.2.2, ?_, ?_⟩ <;>
          simp [WindowImplWin32.processEvent, hh, hc, pushEvent]
      · left
        constructor <;> simp only [WindowImplWin32.processEvent, hh, if_false, if_neg hc]
    | WM_ENTERSIZEMOVE => left; simp [WindowImplWin32.processEvent, hh]
    | WM_EXITSIZEMOVE =>
      by_cases hc : w.m_lastSize ≠ size
      · right
        refine ⟨Ne.symm hc, ?_, ?_⟩ <;>
          simp [WindowImplWin32.processEvent, hh, hc, pushEvent]
      · left
        constructor <;> simp only [WindowImplWin32.processEvent, hh, if_false, if_neg hc]
    | WM_SETFOCUS =>
      left; simp [WindowImplWin32.processEvent, hh, pushEvent, resizedSizes, List.filterMap_append]
    | WM_KILLFOCUS =>
      left; simp [WindowImplWin32.processEvent, hh, pushEvent, resizedSizes, List.filterMap_append]
    | other code => left; simp [WindowImplWin32.processEvent, hh]

theorem WindowImplWin32.deliver_resize_chain (ds : List WindowImplWin32.Delivery) :
    ∀ (g : WindowImplWin32.Globals) (w : WindowImplWin32),
      ∃ new : List Vector2u,
        resizedSizes (WindowImplWin32.deliver (g, w) ds).2.events = resizedSizes w.events ++ new ∧
        List.Chain (fun a b => a ≠ b) w.m_lastSize new ∧
        (WindowImplWin32.deliver (g, w) ds).2.m_lastSize = new.getLastD w.m_lastSize := by
  induction ds with
  | nil => intro g w; exact ⟨[], by simp [WindowImplWin32.deliver], List.Chain.nil, rfl⟩
  | cons d ds ih =>
    intro g w
    rw [WindowImplWin32.deliver_cons]
    obtain ⟨new, h1, h2, h3⟩ := ih
      (WindowImplWin32.processEvent g w d.message d.wParam d.clientSize).1
      (WindowImplWin32.processEvent g w d.message d.wParam d.clientSize).2
    rcases WindowImplWin32.processEvent_resize_step g w d.message d.wParam d.clientSize with
      ⟨hl, hr⟩ | ⟨hne, hl, he⟩
    · exact ⟨new, by rw [h1, hr], by rw [← hl]; exact h2, by rw [h3, hl]⟩
    · refine ⟨d.clientSize :: new, ?_, ?_, ?_⟩
      · rw [h1, he]
        simp [resizedSizes, List.filterMap_append]
      · rw [hl] at h2
        exact List.Chain.cons (Ne.symm hne) h2
      · rw [h3, hl, List.getLastD_cons]

/-- C18: for every sequence of messages delivered to `processEvent`, with
arbitrary client sizes, from any state (so also from the state the constructor
leaves, which has no event and `m_lastSize` equal to the mode's size): each
message either leaves `m_lastSize` and the `Resized` events untouched or
pushes one `Resized` event whose size differs from `m_lastSize` just before
and becomes `m_lastSize`; over the sequence, the sizes `new` of the `Resized`
events pushed form a chain in which the first differs from the initial
`m_lastSize` and every two consecutive ones differ, and the final `m_lastSize`
is the last of them, or the initial one if there is none. -/
theorem resize_event_invariant (g : WindowImplWin32.Globals) (w : WindowImplWin32)
    (ds : List WindowImplWin32.Delivery) (addr : Nat) (mode : VideoMode) (fullscreen : Bool)
    (createdHandle : Nat) (changeOk : Bool) :
    (∀ (g1 : WindowImplWin32.Globals) (w1 : WindowImplWin32) (message : WindowImplWin32.Message)
        (wParam : Nat) (size : Vector2u),
      ((WindowImplWin32.processEvent g1 w1 message wParam size).2.m_lastSize = w1.m_lastSize ∧
        resizedSizes (WindowImplWin32.processEvent g1 w1 message wParam size).2.events
          = resizedSizes w1.events) ∨
      (size ≠ w1.m_lastSize ∧
        (WindowImplWin32.processEvent g1 w1 message wParam size).2.m_lastSize = size ∧
        (WindowImplWin32.processEvent g1 w1 message wParam size).2.events
          = w1.events ++ [Event.Resized size.x size.y])) ∧
    (∃ new : List Vector2u,
      resizedSizes (WindowImplWin32.deliver (g, w) ds).2.events = resizedSizes w.events ++ new ∧
      List.Chain (fun a b => a ≠ b) w.m_lastSize new ∧
      (WindowImplWin32.deliver (g, w) ds).2.m_lastSize = new.getLastD w.m_lastSize) ∧
    ((WindowImplWin32.create g addr mode fullscreen createdHandle changeOk).2.events = [] ∧
      (WindowImplWin32.create g addr mode fullscreen createdHandle changeOk).2.m_lastSize
        = ⟨mode.width, mode.height⟩) :=
  ⟨WindowImplWin32.processEvent_resize_step, WindowImplWin32.deliver_resize_chain ds g w,
    by simp [WindowImplWin32.create]⟩

/-! ### Fullscreen mode selection and restore -/

/-- The search loop returns no index exactly when no entry matches. -/
theorem WindowImplX11.findSize_none (width height : Int) (sizes : List (Int × Int)) (k : Nat) :
    WindowImplX11.findSize width height sizes k = none ↔
      ∀ s ∈ sizes, ¬ (s.1 = width ∧ s.2 = height) := by
  induction sizes generalizing k with
  | nil => simp [WindowImplX11.findSize]
  | cons s rest ih =>
    simp only [WindowImplX11.findSize, List.mem_cons, forall_eq_or_imp]
    by_cases hs : s.1 = width ∧ s.2 = height
    · simp [hs]
    · rw [if_neg hs, ih (k + 1)]
      exact ⟨fun h => ⟨hs, h⟩, fun h => h.2⟩

/-- An index returned by the search loop, counted from `k`, is the smallest
index of a matching entry. -/
theorem WindowImplX11.findSize_some (width height : Int) (sizes : List (Int × Int)) (k i : Nat)
    (h : WindowImplX11.findSize width height sizes k = some i) :
    k ≤ i ∧ (∃ s, sizes[i - k]? = some s ∧ s.1 = width ∧ s.2 = height) ∧
      ∀ j s, j < i - k → sizes[j]? = some s → ¬ (s.1 = width ∧ s.2 = height) := by
  induction sizes generalizing k with
  | nil => simp [WindowImplX11.findSize] at h
  | cons s rest ih =>
    simp only [WindowImplX11.findSize] at h
    by_cases hs : s.1 = width ∧ s.2 = height
    · rw [if_pos hs] at h
      cases h
      refine ⟨Nat.le_refl _, ⟨s, by simp, hs⟩, fun j s2 hj => ?_⟩
      omega
    · rw [if_neg hs] at h
      obtain ⟨hk, ⟨s2, hget, hm⟩, hmin⟩ := ih (k + 1) h
      have hik : i - k = (i - (k + 1)) + 1 := by omega
      refine ⟨by omega, ⟨s2, by rw [hik, List.getElem?_cons_succ]; exact hget, hm⟩, ?_⟩
      intro j s3 hj hget3
      cases j with
      | zero =>
        simp only [List.getElem?_cons_zero, Option.some.injEq] at hget3
        subst hget3
        exact hs
      | succ j =>
        rw [List.getElem?_cons_succ] at hget3
        exact hmin j s3 (by omega) hget3

theorem toInt_of_lt (v : Nat) (h : v < UINT_MOD / 2) : toInt v = (v : Int) := by
  have h2 : v % UINT_MOD = v := Nat.mod_eq_of_lt (by unfold UINT_MOD at *; omega)
  simp [toInt, h2, h]

/-- C11: in `WindowImplX11::switchToFullscreen`, once RandR is present and the
screen configuration with its list of available sizes has been obtained, for
every such list and every requested mode: if some entry matches the width and
height exactly, the mode of the smallest matching index `i` is applied, by
exactly one `XRRSetScreenConfig` request, and the instance becomes the
fullscreen owner; if no entry matches exactly, no request is issued and the
globals, the fullscreen-owner slot among them, are unchanged. In both cases
the instance records the mode that was current in `m_oldVideoMode`. An entry
matches when its `int` width and height equal the mode's extents converted to
`int`, which for extents below `2^31` is plain equality. -/
theorem fullscreen_mode_selection (g : WindowImplX11.Globals) (w : WindowImplX11)
    (mode : VideoMode) (sizes : List (Int × Int)) (hr : g.randr = true)
    (hs : g.screenInfo = true) (hsz : g.sizes = some sizes) :
    ((∃ s ∈ sizes, WindowImplX11.sizeMatches mode s) →
      ∃ (i : Nat) (s : Int × Int), sizes[i]? = some s ∧ WindowImplX11.sizeMatches mode s ∧
        (∀ (j : Nat) (s2 : Int × Int), j < i → sizes[j]? = some s2 →
          ¬ WindowImplX11.sizeMatches mode s2) ∧
        WindowImplX11.switchToFullscreen g w mode =
          ({ g with
              calls := g.calls ++ [WindowImplX11.Call.XRRSetScreenConfig (i : Int) g.rotation]
              currentMode := (i : Int)
              fullscreenWindow := some w.addr },
            { w with m_oldVideoMode := g.currentMode })) ∧
    ((∀ s ∈ sizes, ¬ WindowImplX11.sizeMatches mode s) →
      WindowImplX11.switchToFullscreen g w mode
        = (g, { w with m_oldVideoMode := g.currentMode })) ∧
    (mode.width < 2 ^ 31 → mode.height < 2 ^ 31 →
      ∀ s : Int × Int, WindowImplX11.sizeMatches mode s ↔
        (s.1 = (mode.width : Int) ∧ s.2 = (mode.height : Int))) := by
  refine ⟨?_, ?_, ?_⟩
  · intro hex
    cases hf : WindowImplX11.findSize (toInt mode.width) (toInt mode.height) sizes 0 with
    | none =>
      obtain ⟨s, hmem, hm⟩ := hex
      exact absurd hm ((WindowImplX11.findSize_none _ _ _ _).mp hf s hmem)
    | some i =>
      obtain ⟨-, ⟨s, hget, hm⟩, hmin⟩ := WindowImplX11.findSize_some _ _ _ _ _ hf
      have hpos := WindowImplX11.findSize_some_pos _ _ _ _ _ hf
      refine ⟨i, s, by simpa using hget, hm, fun j s2 hj hg => hmin j s2 (by simpa using hj) hg, ?_⟩
      simp [WindowImplX11.switchToFullscreen, hr, hs, hsz, hf, hpos,
        WindowImplX11.XRRSetScreenConfig]
  · intro hno
    have hf : WindowImplX11.findSize (toInt mode.width) (toInt mode.height) sizes 0 = none :=
      (WindowImplX11.findSize_none _ _ _ _).mpr hno
    simp only [WindowImplX11.switchToFullscreen, hr, hs, hsz, hf, if_true]
    split <;> rfl
  · intro hw hh s
    unfold WindowImplX11.sizeMatches
    rw [toInt_of_lt _ (by unfold UINT_MOD; omega), toInt_of_lt _ (by unfold UINT_MOD; omega)]

/-- C11, witness: with the sizes 640 x 480, 800 x 600, 800 x 600 the request
for 800 x 600 applies index 1. -/
theorem fullscreen_mode_selection_witness :
    ((⟨none, true, true, 0, 1, some [(640, 480), (800, 600), (800, 600)], []⟩ :
        WindowImplX11.Globals).randr = true ∧
      (⟨none, true, true, 0, 1, some [(640, 480), (800, 600), (800, 600)], []⟩ :
        WindowImplX11.Globals).screenInfo = true ∧
      (⟨none, true, true, 0, 1, some [(640, 480), (800, 600), (800, 600)], []⟩ :
        WindowImplX11.Globals).sizes = some [(640, 480), (800, 600), (800, 600)]) ∧
    WindowImplX11.switchToFullscreen
        ⟨none, true, true, 0, 1, some [(640, 480), (800, 600), (800, 600)], []⟩
        WindowImplX11.sampleWindow ⟨800, 600, 32⟩ =
      (⟨some 1, true, true, 1, 1, some [(640, 480), (800, 600), (800, 600)],
          [WindowImplX11.Call.XRRSetScreenConfig 1 1]⟩,
        { WindowImplX11.sampleWindow with m_oldVideoMode := 0 }) ∧
    WindowImplX11.switchToFullscreen
        ⟨none, true, true, 0, 1, some [(640, 480), (800, 600), (800, 600)], []⟩
        WindowImplX11.sampleWindow ⟨1024, 768, 32⟩ =
      (⟨none, true, true, 0, 1, some [(640, 480), (800, 600), (800, 600)], []⟩,
        { WindowImplX11.sampleWindow with m_oldVideoMode := 0 }) :=
  have h := fullscreen_mode_selection
    ⟨none, true, true, 0, 1, some [(640, 480), (800, 600), (800, 600)], []⟩
    WindowImplX11.sampleWindow ⟨1024, 768, 32⟩ [(640, 480), (800, 600), (800, 600)] rfl rfl rfl
  ⟨⟨rfl, rfl, rfl⟩, by decide, h.2.1 (by unfold WindowImplX11.sizeMatches; decide)⟩

/-- C12: on both backends `cleanup()` called on an instance that is not the
current fullscreen owner changes nothing: no display-mode request is issued
and the owner slot is as before; and for every state, calling `cleanup()`
twice in a row yields the same globals, owner slot and requests included, as
calling it once. -/
theorem cleanup_noop_and_idempotent (g : WindowImplWin32.Globals) (w : WindowImplWin32)
    (gx : WindowImplX11.Globals) (wx : WindowImplX11) :
    (g.fullscreenWindow ≠ some w.addr → WindowImplWin32.cleanup g w = g) ∧
    (gx.fullscreenWindow ≠ some wx.addr → WindowImplX11.cleanup gx wx = gx) ∧
    WindowImplWin32.cleanup (WindowImplWin32.cleanup g w) w = WindowImplWin32.cleanup g w ∧
    WindowImplX11.cleanup (WindowImplX11.cleanup gx wx) wx = WindowImplX11.cleanup gx wx := by
  refine ⟨?_, ?_, ?_, ?_⟩
  · intro h
    simp [WindowImplWin32.cleanup, h]
  · intro h
    simp [WindowImplX11.cleanup, h]
  · by_cases h : g.fullscreenWindow = some w.addr <;> simp [WindowImplWin32.cleanup, h]
  · by_cases h : gx.fullscreenWindow = some wx.addr <;>
      by_cases hs : gx.screenInfo = true <;>
      simp [WindowImplX11.cleanup, WindowImplX11.XRRSetScreenConfig, h, hs]

/-- C12, witness: the sample windows, first as owners (two calls of `cleanup()`
restore once), then after the restore as non-owners. -/
theorem cleanup_noop_and_idempotent_witness :
    (WindowImplWin32.cleanup WindowImplWin32.sampleGlobals WindowImplWin32.sampleWindow).fullscreenWindow
      ≠ some WindowImplWin32.sampleWindow.addr ∧
    WindowImplWin32.cleanup
        (WindowImplWin32.cleanup WindowImplWin32.sampleGlobals WindowImplWin32.sampleWindow)
        WindowImplWin32.sampleWindow
      = WindowImplWin32.cleanup WindowImplWin32.sampleGlobals WindowImplWin32.sampleWindow ∧
    (WindowImplX11.cleanup
        (WindowImplX11.cleanup WindowImplX11.sampleGlobals WindowImplX11.sampleWindow)
        WindowImplX11.sampleWindow).calls
      = [WindowImplX11.Call.XRRSetScreenConfig 0 1] :=
  ⟨by decide,
    (cleanup_noop_and_idempotent
      (WindowImplWin32.cleanup WindowImplWin32.sampleGlobals WindowImplWin32.sampleWindow)
      WindowImplWin32.sampleWindow WindowImplX11.sampleGlobals WindowImplX11.sampleWindow).1
      (by decide),
    by rw [(cleanup_noop_and_idempotent WindowImplWin32.sampleGlobals WindowImplWin32.sampleWindow
      WindowImplX11.sampleGlobals WindowImplX11.sampleWindow).2.2.2]; decide⟩

/-! ### Creation position -/

/-- For a display extent `display` below `2^31` and a requested extent not
larger than it, the offset the constructors compute is the centred one. -/
theorem centredOffset_of_le (display : Int) (extent : Nat) (hd : display < 2 ^ 31)
    (he : (extent : Int) ≤ display) :
    centredOffset display extent = signedCentre display extent ∧
    centredOffset display extent = (display - (extent : Int)) / 2 := by
  have h0 : (0 : Int) ≤ display := le_trans (Int.ofNat_nonneg extent) he
  obtain ⟨d, rfl⟩ := Int.eq_ofNat_of_zero_le h0
  have hd2 : d < 2 ^ 31 := by exact_mod_cast hd
  have he2 : extent ≤ d := by exact_mod_cast he
  have hu : toUnsigned (d : Int) = d := by
    unfold toUnsigned UINT_MOD
    have : ((d : Int) % ((2 ^ 32 : Nat) : Int)) = ((d % 2 ^ 32 : Nat) : Int) := by
      exact_mod_cast rfl
    rw [this, Int.toNat_ofNat]
    omega
  have hq : (d + UINT_MOD - extent % UINT_MOD) % UINT_MOD / 2 = (d - extent) / 2 := by
    unfold UINT_MOD
    have h1 : extent % 2 ^ 32 = extent := Nat.mod_eq_of_lt (by omega)
    rw [h1]
    have h2 : d + 2 ^ 32 - extent = (d - extent) + 2 ^ 32 := by omega
    rw [h2, Nat.add_mod_right, Nat.mod_eq_of_lt (by omega)]
  have hsub : ((d : Int) - (extent : Int)) = (((d - extent : Nat)) : Int) := by omega
  have hres : centredOffset (d : Int) extent = (((d - extent) / 2 : Nat) : Int) := by
    unfold centredOffset
    rw [hu, hq]
    unfold toInt UINT_MOD
    have h3 : (d - extent) / 2 % 2 ^ 32 = (d - extent) / 2 := Nat.mod_eq_of_lt (by omega)
    rw [h3, if_pos (by omega)]
  refine ⟨?_, ?_⟩
  · rw [hres]
    unfold signedCentre
    rw [hsub]
    exact_mod_cast rfl
  · rw [hres, hsub]
    exact_mod_cast rfl

/-- The requests the Win32 constructor issues: the class registration when no
window is counted, `CreateWindow`, the `SetWindowLongPtr` of `WM_CREATE` when
the window is created, and, for a style with Fullscreen,
`ChangeDisplaySettings` followed, when it succeeds, by the three requests that
make the window cover the screen. -/
theorem WindowImplWin32.create_issued (g : WindowImplWin32.Globals) (addr : Nat)
    (mode : VideoMode) (fullscreen : Bool) (handle : Nat) (changeOk : Bool) :
    WindowImplWin32.issued g (WindowImplWin32.create g addr mode fullscreen handle changeOk).1 =
      (if g.windowCount = 0 then [WindowImplWin32.Call.RegisterClass] else []) ++
      [WindowImplWin32.Call.CreateWindow addr] ++
      (if handle ≠ 0 then
        [WindowImplWin32.Call.SetWindowLongPtr handle WindowImplWin32.LongIndex.GWLP_USERDATA
          (WindowImplWin32.LongValue.instance_ addr)] else []) ++
      (if fullscreen = true then
        [WindowImplWin32.Call.ChangeDisplaySettings (some mode)] ++
        (if changeOk = true then
          [WindowImplWin32.Call.SetFullscreenStyle handle,
           WindowImplWin32.Call.SetWindowPos handle 0 0 mode.width mode.height,
           WindowImplWin32.Call.ShowWindow handle true] else [])
       else []) := by
  by_cases hc : g.windowCount = 0 <;> by_cases hh : handle = 0 <;> cases fullscreen <;>
    cases changeOk <;>
    simp [WindowImplWin32.create, WindowImplWin32.switchToFullscreen, WindowImplWin32.issued, hc,
      hh, List.append_assoc]

/-- C14 (as amended): the X11 constructor creates a window whose style has
Fullscreen at (0, 0), for every display size and every mode. For every display
size (W, H), values of `int` and so below `2^31`, and every requested mode whose
width and height do not exceed it, the X11 constructor creates a window without
Fullscreen at `left = (W - width) / 2`, `top = (H - height) / 2`, the centred
position computed on signed integers (twice the offset differs from
`W - width` by at most one, so the centre of the window is within one pixel of
the centre of the display), and the Win32 constructor hands that centred
position to `CreateWindow` whatever the style. The Win32 constructor
afterwards moves the window to (0, 0), by the
`SetWindowPos(m_handle, HWND_TOP, 0, 0, width, height, ...)` of
`switchToFullscreen`, exactly when the style has Fullscreen and
`ChangeDisplaySettings` succeeds. -/
theorem creation_position (displayWidth displayHeight : Int) (mode : VideoMode)
    (g : WindowImplWin32.Globals) (addr handle : Nat) (fullscreen changeOk : Bool) :
    WindowImplX11.creationPosition displayWidth displayHeight mode true = (0, 0) ∧
    (displayWidth < 2 ^ 31 → displayHeight < 2 ^ 31 →
      (mode.width : Int) ≤ displayWidth → (mode.height : Int) ≤ displayHeight →
      WindowImplX11.creationPosition displayWidth displayHeight mode false
        = ((displayWidth - (mode.width : Int)) / 2, (displayHeight - (mode.height : Int)) / 2) ∧
      WindowImplWin32.creationPosition displayWidth displayHeight mode
        = ((displayWidth - (mode.width : Int)) / 2, (displayHeight - (mode.height : Int)) / 2) ∧
      signedCentre displayWidth mode.width = (displayWidth - (mode.width : Int)) / 2 ∧
      signedCentre displayHeight mode.height = (displayHeight - (mode.height : Int)) / 2 ∧
      (0 ≤ displayWidth - (mode.width : Int) - 2 * ((displayWidth - (mode.width : Int)) / 2) ∧
        displayWidth - (mode.width : Int) - 2 * ((displayWidth - (mode.width : Int)) / 2) ≤ 1) ∧
      (0 ≤ displayHeight - (mode.height : Int)
            - 2 * ((displayHeight - (mode.height : Int)) / 2) ∧
        displayHeight - (mode.height : Int)
            - 2 * ((displayHeight - (mode.height : Int)) / 2) ≤ 1)) ∧
    (WindowImplWin32.Call.SetWindowPos handle 0 0 mode.width mode.height ∈
        WindowImplWin32.issued g
          (WindowImplWin32.create g addr mode fullscreen handle changeOk).1
      ↔ fullscreen = true ∧ changeOk = true) := by
  refine ⟨rfl, ?_, ?_⟩
  · intro hW hH hw hh
    obtain ⟨a1, a2⟩ := centredOffset_of_le displayWidth mode.width hW hw
    obtain ⟨b1, b2⟩ := centredOffset_of_le displayHeight mode.height hH hh
    refine ⟨?_, ?_, by rw [← a1, a2], by rw [← b1, b2], by omega, by omega⟩
    · simp [WindowImplX11.creationPosition, a2, b2]
    · simp [WindowImplWin32.creationPosition, a2, b2]
  · rw [WindowImplWin32.create_issued]
    by_cases hc : g.windowCount = 0 <;> by_cases hh : handle = 0 <;> cases fullscreen <;>
      cases changeOk <;> simp [hc, hh]

/-- C14, witness: a 800 x 600 window on a 1920 x 1080 display. -/
theorem creation_position_witness :
    ((1920 : Int) < 2 ^ 31 ∧ (1080 : Int) < 2 ^ 31 ∧
      (((⟨800, 600, 32⟩ : VideoMode).width : Nat) : Int) ≤ 1920 ∧
      (((⟨800, 600, 32⟩ : VideoMode).height : Nat) : Int) ≤ 1080) ∧
    WindowImplX11.creationPosition 1920 1080 ⟨800, 600, 32⟩ false = (560, 240) ∧
    WindowImplWin32.creationPosition 1920 1080 ⟨800, 600, 32⟩ = (560, 240) :=
  have h := (creation_position 1920 1080 ⟨800, 600, 32⟩ WindowImplWin32.sampleGlobals 1 5 true
    true).2.1 (by decide) (by decide) (by decide) (by decide)
  ⟨⟨by decide, by decide, by decide, by decide⟩, by rw [h.1]; decide, by rw [h.2.1]; decide⟩

/-- C14, counterexample: (1) for a 1024 x 768 mode on a 800 x 600 display both
constructors compute `left = 2147483536` and `top = 2147483564`, where the
signed quotients are -112 and -84: the difference is taken in `unsigned int`;
(2) the Win32 constructor hands the centred position (560, 240), not (0, 0),
to `CreateWindow` for a fullscreen 800 x 600 window on a 1920 x 1080 display:
it does not look at the style when it computes the position; and when
`ChangeDisplaySettings` fails the constructor issues no `SetWindowPos`, so the
window stays there. -/
theorem creation_position_counterexample :
    (WindowImplX11.creationPosition 800 600 ⟨1024, 768, 32⟩ false = (2147483536, 2147483564) ∧
      WindowImplWin32.creationPosition 800 600 ⟨1024, 768, 32⟩ = (2147483536, 2147483564) ∧
      signedCentre 800 1024 = -112 ∧ signedCentre 600 768 = -84) ∧
    (WindowImplWin32.creationPosition 1920 1080 ⟨800, 600, 32⟩ = (560, 240) ∧
      WindowImplWin32.issued WindowImplWin32.Process.init.g
          (WindowImplWin32.create WindowImplWin32.Process.init.g 1 ⟨800, 600, 32⟩ true 5
            false).1
        = [WindowImplWin32.Call.RegisterClass, WindowImplWin32.Call.CreateWindow 1,
            WindowImplWin32.Call.SetWindowLongPtr 5 WindowImplWin32.LongIndex.GWLP_USERDATA
              (WindowImplWin32.LongValue.instance_ 1),
            WindowImplWin32.Call.ChangeDisplaySettings (some ⟨800, 600, 32⟩)]) := by
  decide

/-! ### Style translation -/

/-- The Motif functions and decorations are the union of one fixed
contribution per flag. -/
theorem WindowImplX11.motifHints_union (style : Nat) :
    (WindowImplX11.motifHints style).Functions =
      (if style &&& Style.Titlebar ≠ 0 then MWM_FUNC_MOVE ||| MWM_FUNC_MINIMIZE else 0) |||
      (if style &&& Style.Resize ≠ 0 then MWM_FUNC_MAXIMIZE ||| MWM_FUNC_RESIZE else 0) |||
      (if style &&& Style.Close ≠ 0 then MWM_FUNC_CLOSE else 0) ∧
    (WindowImplX11.motifHints style).Decorations =
      (if style &&& Style.Titlebar ≠ 0 then
        MWM_DECOR_BORDER ||| MWM_DECOR_TITLE ||| MWM_DECOR_MINIMIZE ||| MWM_DECOR_MENU else 0) |||
      (if style &&& Style.Resize ≠ 0 then MWM_DECOR_MAXIMIZE ||| MWM_DECOR_RESIZEH else 0) ∧
    (WindowImplX11.motifHints style).Flags = MWM_HINTS_FUNCTIONS ||| MWM_HINTS_DECORATIONS := by
  by_cases ht : style &&& Style.Titlebar ≠ 0 <;> by_cases hr : style &&& Style.Resize ≠ 0 <;>
    by_cases hc : style &&& Style.Close ≠ 0 <;>
    simp only [WindowImplX11.motifHints, ht, hr, hc, if_true, if_false, not_true_eq_false,
      not_false_eq_true, ne_eq] <;>
    decide

/-- C16: the native hints are the union of fixed per-flag contributions of
Titlebar, Resize and Close. On Win32 the creation style is exactly
`WS_VISIBLE | WS_POPUP` when style = None, and otherwise `WS_VISIBLE` plus
`WS_CAPTION | WS_MINIMIZEBOX` if Titlebar, plus `WS_THICKFRAME |
WS_MAXIMIZEBOX` if Resize, plus `WS_SYSMENU` if Close. On X11 the Motif hints
have Decorations = 0 and Functions = 0 when style = None; the CLOSE function
bit is set iff Close is set, the RESIZE function bit iff Resize is set, the
MOVE and MINIMIZE function bits iff Titlebar is set; for a style without
Fullscreen these hints are the ones sent (when the `_MOTIF_WM_HINTS` atom
exists) and min = max = requested size is pinned iff Resize is absent; for a
style with Fullscreen nothing is sent. -/
theorem style_translation (style wmHintsAtom : Nat) (width height : Int) :
    WindowImplWin32.windowStyle style =
      (if style = Style.None then WS_VISIBLE ||| WS_POPUP
       else WS_VISIBLE |||
        (if style &&& Style.Titlebar ≠ 0 then WS_CAPTION ||| WS_MINIMIZEBOX else 0) |||
        (if style &&& Style.Resize ≠ 0 then WS_THICKFRAME ||| WS_MAXIMIZEBOX else 0) |||
        (if style &&& Style.Close ≠ 0 then WS_SYSMENU else 0)) ∧
    ((WindowImplX11.motifHints Style.None).Decorations = 0 ∧
      (WindowImplX11.motifHints Style.None).Functions = 0) ∧
    ((WindowImplX11.motifHints style).Functions =
        (if style &&& Style.Titlebar ≠ 0 then MWM_FUNC_MOVE ||| MWM_FUNC_MINIMIZE else 0) |||
        (if style &&& Style.Resize ≠ 0 then MWM_FUNC_MAXIMIZE ||| MWM_FUNC_RESIZE else 0) |||
        (if style &&& Style.Close ≠ 0 then MWM_FUNC_CLOSE else 0) ∧
      (WindowImplX11.motifHints style).Decorations =
        (if style &&& Style.Titlebar ≠ 0 then
          MWM_DECOR_BORDER ||| MWM_DECOR_TITLE ||| MWM_DECOR_MINIMIZE ||| MWM_DECOR_MENU
         else 0) |||
        (if style &&& Style.Resize ≠ 0 then MWM_DECOR_MAXIMIZE ||| MWM_DECOR_RESIZEH else 0)) ∧
    (((WindowImplX11.motifHints style).Functions &&& MWM_FUNC_CLOSE ≠ 0 ↔
        style &&& Style.Close ≠ 0) ∧
      ((WindowImplX11.motifHints style).Functions &&& MWM_FUNC_RESIZE ≠ 0 ↔
        style &&& Style.Resize ≠ 0) ∧
      ((WindowImplX11.motifHints style).Functions &&& MWM_FUNC_MOVE ≠ 0 ↔
        style &&& Style.Titlebar ≠ 0) ∧
      ((WindowImplX11.motifHints style).Functions &&& MWM_FUNC_MINIMIZE ≠ 0 ↔
        style &&& Style.Titlebar ≠ 0)) ∧
    WindowImplX11.decorate style wmHintsAtom width height =
      (if style &&& Style.Fullscreen ≠ 0 then (none, none)
       else
        (if wmHintsAtom ≠ 0 then some (WindowImplX11.motifHints style) else none,
         if style &&& Style.Resize = 0 then
           some { min_width := width, max_width := width, min_height := height,
                  max_height := height }
         else none)) := by
  obtain ⟨hF, hD, -⟩ := WindowImplX11.motifHints_union style
  refine ⟨?_, ⟨by decide, by decide⟩, ⟨hF, hD⟩, ?_, rfl⟩
  · by_cases hn : style = Style.None
    · simp [WindowImplWin32.windowStyle, hn]
    · by_cases ht : style &&& Style.Titlebar ≠ 0 <;> by_cases hr : style &&& Style.Resize ≠ 0 <;>
        by_cases hc : style &&& Style.Close ≠ 0 <;>
        simp only [WindowImplWin32.windowStyle, hn, ht, hr, hc, if_true, if_false,
          not_true_eq_false, not_false_eq_true, ne_eq] <;>
        decide
  · rw [hF]
    by_cases ht : style &&& Style.Titlebar ≠ 0 <;> by_cases hr : style &&& Style.Resize ≠ 0 <;>
      by_cases hc : style &&& Style.Close ≠ 0 <;>
      simp only [ht, hr, hc, if_true, if_false, not_true_eq_false, not_false_eq_true, ne_eq,
        iff_true, iff_false, not_not] <;>
      decide

/-! ### Visibility -/

/-- C15: over the model in which the host keeps a mapped/shown flag for each
native window, on both backends and for every state: calling `setVisible(b)`
twice in a row leaves the same flags as calling it once; after `setVisible(b1)`
followed by `setVisible(b2)` the flag of the window is `b2`, the last argument
passed; the flags of the other windows, the owner slot, the window count and
the display state are unchanged (the instance itself, with its handle, last
size and resizing flag, is not written by `setVisible`); each call issues one
request. -/
theorem setVisible_idempotent (shown : Nat → Bool) (g : WindowImplWin32.Globals)
    (w : WindowImplWin32) (gx : WindowImplX11.Globals) (wx : WindowImplX11) (b b1 b2 : Bool) :
    ((WindowImplWin32.setVisible (WindowImplWin32.setVisible shown g w b).1
          (WindowImplWin32.setVisible shown g w b).2 w b).1
        = (WindowImplWin32.setVisible shown g w b).1 ∧
      (WindowImplWin32.setVisible (WindowImplWin32.setVisible shown g w b1).1
          (WindowImplWin32.setVisible shown g w b1).2 w b2).1 w.m_handle = b2 ∧
      (∀ h, h ≠ w.m_handle → (WindowImplWin32.setVisible shown g w b).1 h = shown h) ∧
      (WindowImplWin32.setVisible shown g w b).2
        = { g with calls := g.calls ++ [WindowImplWin32.Call.ShowWindow w.m_handle b] }) ∧
    ((WindowImplX11.setVisible (WindowImplX11.setVisible shown gx wx b).1
          (WindowImplX11.setVisible shown gx wx b).2 wx b).1
        = (WindowImplX11.setVisible shown gx wx b).1 ∧
      (WindowImplX11.setVisible (WindowImplX11.setVisible shown gx wx b1).1
          (WindowImplX11.setVisible shown gx wx b1).2 wx b2).1 wx.m_window = b2 ∧
      (∀ h, h ≠ wx.m_window → (WindowImplX11.setVisible shown gx wx b).1 h = shown h) ∧
      (WindowImplX11.setVisible shown gx wx b).2
        = { gx with calls := gx.calls ++
            [if b then WindowImplX11.Call.XMapWindow wx.m_window
             else WindowImplX11.Call.XUnmapWindow wx.m_window] }) := by
  refine ⟨⟨?_, ?_, ?_, rfl⟩, ?_, ?_, ?_, ?_⟩
  · simp [WindowImplWin32.setVisible]
  · simp [WindowImplWin32.setVisible]
  · intro h hne
    simp [WindowImplWin32.setVisible, Function.update_noteq hne]
  · cases b <;> simp [WindowImplX11.setVisible]
  · cases b1 <;> cases b2 <;> simp [WindowImplX11.setVisible]
  · intro h hne
    cases b <;> simp [WindowImplX11.setVisible, Function.update_noteq hne]
  · cases b <;> simp [WindowImplX11.setVisible]

/-! ### Adoption of a null handle -/

theorem WindowImplWin32.deliver_null_handle (ds : List WindowImplWin32.Delivery)
    (g : WindowImplWin32.Globals) (w : WindowImplWin32) (hh : w.m_handle = 0) :
    WindowImplWin32.deliver (g, w) ds = (g, w) := by
  induction ds with
  | nil => rfl
  | cons d ds ih =>
    rw [WindowImplWin32.deliver_cons]
    simp only []
    rw [WindowImplWin32.processEvent_null_handle g w d.message d.wParam d.clientSize hh]
    exact ih

theorem WindowImplX11.XCheckIfEvent_no_match (window : Nat) (queue : List WindowImplX11.XEvent)
    (h : ∀ e ∈ queue, e.window ≠ window) : WindowImplX11.XCheckIfEvent window queue = none := by
  induction queue with
  | nil => rfl
  | cons e rest ih =>
    have he : e.window ≠ window := h e (List.mem_cons_self _ _)
    have hr := ih (fun x hx => h x (List.mem_cons_of_mem _ hx))
    simp [WindowImplX11.XCheckIfEvent, he, hr]

/-- C13 (as amended): an instance constructed by adopting a null handle
performs no notification subscription and no hook installation at construction
(no request is issued, the globals are unchanged). On Win32 it pushes no event
for any message passed to `processEvent` or dispatched during `processEvents`;
on X11 `processEvents` pushes no event and leaves the queue as it is when no
queued notification has the window field 0, while `processEvent` itself has no
handle check and pushes the event of the notification it is given. On both
backends `setPosition`, `setSize`, `setTitle`, `setIcon` and `setVisible` issue
their native requests with the null handle. Destruction issues no native
destroy and leaves the fullscreen-owner slot unchanged (on X11, where the
instance is not the recorded owner, it changes nothing at all; nothing is
stated about the Win32 window count). -/
theorem null_handle_adoption (g : WindowImplWin32.Globals) (addr : Nat) (previousProc : Int)
    (message : WindowImplWin32.Message) (wParam : Nat) (size : Vector2u)
    (ds : List WindowImplWin32.Delivery) (x y : Int) (adjusted : Int × Int) (title : String)
    (width height : Nat) (pixels : Nat → Nat) (createdIcon : Nat) (shown : Nat → Bool)
    (visible : Bool) (gx : WindowImplX11.Globals) (atom : Nat)
    (queue : List WindowImplX11.XEvent) (e : WindowImplX11.XEvent)
    (hq : ∀ n ∈ queue, n.window ≠ 0) (ho : gx.fullscreenWindow ≠ some addr) :
    (WindowImplWin32.adopt g addr 0 previousProc = (g, WindowImplWin32.nullAdopted addr) ∧
      WindowImplWin32.processEvent g (WindowImplWin32.nullAdopted addr) message wParam size
        = (g, WindowImplWin32.nullAdopted addr) ∧
      WindowImplWin32.processEvents g (WindowImplWin32.nullAdopted addr) ds
        = (g, WindowImplWin32.nullAdopted addr) ∧
      WindowImplWin32.setPosition g (WindowImplWin32.nullAdopted addr) x y
        = { g with calls := g.calls ++ [WindowImplWin32.Call.MoveWindow 0 x y] } ∧
      WindowImplWin32.setSize g (WindowImplWin32.nullAdopted addr) adjusted
        = { g with calls := g.calls ++ [WindowImplWin32.Call.GetWindowStyle 0,
            WindowImplWin32.Call.ResizeWindow 0 adjusted.1 adjusted.2] } ∧
      WindowImplWin32.setTitle g (WindowImplWin32.nullAdopted addr) title
        = { g with calls := g.calls ++ [WindowImplWin32.Call.SetWindowText 0 title] } ∧
      (WindowImplWin32.setIcon g (WindowImplWin32.nullAdopted addr) width height pixels
          createdIcon).1.calls
        = g.calls ++ [WindowImplWin32.Call.CreateIcon width height
            (WindowImplWin32.setIcon_iconPixels width height pixels)] ++
          (if createdIcon ≠ 0 then [WindowImplWin32.Call.SetIcon 0 true createdIcon,
            WindowImplWin32.Call.SetIcon 0 false createdIcon] else []) ∧
      (WindowImplWin32.setVisible shown g (WindowImplWin32.nullAdopted addr) visible).2
        = { g with calls := g.calls ++ [WindowImplWin32.Call.ShowWindow 0 visible] } ∧
      (WindowImplWin32.destroy g (WindowImplWin32.nullAdopted addr)).fullscreenWindow
        = g.fullscreenWindow ∧
      (∀ c ∈ (WindowImplWin32.destroy g (WindowImplWin32.nullAdopted addr)).calls,
        c ∈ g.calls ∨ c = WindowImplWin32.Call.UnregisterClass)) ∧
    (WindowImplX11.adopt gx addr 0 atom = (gx, WindowImplX11.nullAdopted addr) ∧
      WindowImplX11.processEvents queue gx (WindowImplX11.nullAdopted addr)
        = (queue, gx, WindowImplX11.nullAdopted addr) ∧
      (WindowImplX11.processEvent gx (WindowImplX11.nullAdopted addr) e).2.events
        = WindowImplX11.translation 0 e ∧
      WindowImplX11.setPosition gx (WindowImplX11.nullAdopted addr) x y
        = { gx with calls := gx.calls ++ [WindowImplX11.Call.XMoveWindow 0 x y] } ∧
      WindowImplX11.setSize gx (WindowImplX11.nullAdopted addr) size
        = { gx with calls := gx.calls ++ [WindowImplX11.Call.XResizeWindow 0 size.x size.y] } ∧
      WindowImplX11.setTitle gx (WindowImplX11.nullAdopted addr) title
        = { gx with calls := gx.calls ++ [WindowImplX11.Call.XStoreName 0 title] } ∧
      (WindowImplX11.setVisible shown gx (WindowImplX11.nullAdopted addr) visible).2
        = { gx with calls := gx.calls ++
            [if visible then WindowImplX11.Call.XMapWindow 0
             else WindowImplX11.Call.XUnmapWindow 0] } ∧
      WindowImplX11.destroy gx (WindowImplX11.nullAdopted addr) = gx ∧
      (∀ (maskStatic : Option (List Nat)) (junk : Nat → Nat)
          (r : WindowImplX11.Globals × Option (List Nat)),
        WindowImplX11.setIcon gx (WindowImplX11.nullAdopted addr) maskStatic width height junk
          pixels true = some r →
        WindowImplX11.Call.XSetWMHints 0 ∈ r.1.calls)) := by
  refine ⟨⟨rfl, ?_, ?_, rfl, rfl, rfl, ?_, rfl, ?_, ?_⟩, rfl, ?_, ?_, rfl, rfl, rfl, ?_, ?_, ?_⟩
  · exact WindowImplWin32.processEvent_null_handle _ _ _ _ _ rfl
  · simp only [WindowImplWin32.processEvents, WindowImplWin32.nullAdopted, if_true]
    exact WindowImplWin32.deliver_null_handle ds g _ rfl
  · by_cases hi : createdIcon = 0 <;>
      simp [WindowImplWin32.setIcon, WindowImplWin32.nullAdopted, hi]
  · simp only [WindowImplWin32.destroy, WindowImplWin32.nullAdopted]
    simp only [ne_eq, not_true_eq_false, if_false, if_true]
    split <;> rfl
  · intro c hc
    simp only [WindowImplWin32.destroy, WindowImplWin32.nullAdopted, ne_eq, not_true_eq_false,
      if_false, if_true] at hc
    split at hc
    · simp only [List.mem_append, List.mem_singleton] at hc
      exact hc
    · exact Or.inl hc
  · exact WindowImplX11.processEvents_none queue gx _
      (WindowImplX11.XCheckIfEvent_no_match 0 queue hq)
  · have h := (WindowImplX11.processEvent_translation gx (WindowImplX11.nullAdopted addr) e).1
    simpa [WindowImplX11.nullAdopted] using h
  · cases visible <;> simp [WindowImplX11.setVisible, WindowImplX11.nullAdopted]
  · simp [WindowImplX11.destroy, WindowImplX11.cleanup, WindowImplX11.nullAdopted, ho]
  · intro maskStatic junk r hr
    unfold WindowImplX11.setIcon at hr
    cases h1 : WindowImplX11.setIcon_iconPixels width height junk pixels with
    | none => simp [h1] at hr
    | some iconPixels =>
      cases h2 : WindowImplX11.setIcon_maskPixels maskStatic width height pixels with
      | none => simp [h1, h2] at hr
      | some maskPixels =>
        simp only [h1, h2, Option.some_bind, Bool.true_eq_false, if_false,
          Option.some.injEq] at hr
        subst hr
        simp [WindowImplX11.nullAdopted]

/-- C13, witness: a null handle is adopted at address 9 while the sample
windows exist; the queue holds notifications of windows 7 and 8 only. -/
theorem null_handle_adoption_witness :
    ((∀ n ∈ [(⟨7, WindowImplX11.XEventData.FocusIn⟩ : WindowImplX11.XEvent),
          ⟨8, WindowImplX11.XEventData.DestroyNotify⟩], n.window ≠ 0) ∧
      WindowImplX11.sampleGlobals.fullscreenWindow ≠ some 9) ∧
    WindowImplX11.processEvents
        [⟨7, WindowImplX11.XEventData.FocusIn⟩, ⟨8, WindowImplX11.XEventData.DestroyNotify⟩]
        WindowImplX11.sampleGlobals (WindowImplX11.nullAdopted 9)
      = ([⟨7, WindowImplX11.XEventData.FocusIn⟩, ⟨8, WindowImplX11.XEventData.DestroyNotify⟩],
          WindowImplX11.sampleGlobals, WindowImplX11.nullAdopted 9) ∧
    WindowImplX11.destroy WindowImplX11.sampleGlobals (WindowImplX11.nullAdopted 9)
      = WindowImplX11.sampleGlobals :=
  have h := null_handle_adoption WindowImplWin32.sampleGlobals 9 0
    WindowImplWin32.Message.WM_SIZE 0 ⟨1, 1⟩ [] 0 0 (0, 0) "" 1 1 (fun _ => 0) 0 (fun _ => false)
    true WindowImplX11.sampleGlobals 0
    [⟨7, WindowImplX11.XEventData.FocusIn⟩, ⟨8, WindowImplX11.XEventData.DestroyNotify⟩]
    ⟨7, WindowImplX11.XEventData.FocusIn⟩ (by decide) (by decide)
  ⟨⟨by decide, by decide⟩, h.2.2.1, h.2.2.2.2.2.2.2.2.1⟩

/-- C13, counterexample: an instance that adopted a null handle is not inert.
(1) On X11 `setVisible(true)` issues `XMapWindow` and `setPosition` issues
`XMoveWindow` on window 0; on Win32 `setTitle` issues `SetWindowText` on the
null handle. (2) On X11 `processEvent` of a `FocusIn` notification pushes
`GainedFocus`. (3) On Win32 the destruction decrements `windowCount`, from 0 to
`2^32 - 1`. -/
theorem null_handle_adoption_counterexample :
    ((WindowImplX11.setVisible (fun _ => false) WindowImplX11.sampleGlobals
          (WindowImplX11.adopt WindowImplX11.sampleGlobals 9 0 99).2 true).2.calls
        = [WindowImplX11.Call.XMapWindow 0] ∧
      (WindowImplX11.setPosition WindowImplX11.sampleGlobals
          (WindowImplX11.adopt WindowImplX11.sampleGlobals 9 0 99).2 3 4).calls
        = [WindowImplX11.Call.XMoveWindow 0 3 4] ∧
      (WindowImplWin32.setTitle WindowImplWin32.Process.init.g
          (WindowImplWin32.adopt WindowImplWin32.Process.init.g 9 0 0).2 "t").calls
        = [WindowImplWin32.Call.SetWindowText 0 "t"]) ∧
    (WindowImplX11.processEvent WindowImplX11.sampleGlobals
        (WindowImplX11.adopt WindowImplX11.sampleGlobals 9 0 99).2
        ⟨0, WindowImplX11.XEventData.FocusIn⟩).2.events = [Event.GainedFocus] ∧
    (WindowImplWin32.destroy WindowImplWin32.Process.init.g
        (WindowImplWin32.adopt WindowImplWin32.Process.init.g 9 0 0).2).windowCount
      = 4294967295 := by
  decide

/-! ### Display mode after the last fullscreen window -/

/-- The switch leaves the address of the instance alone, and either makes the
instance the owner or leaves the owner slot as it was. -/
theorem WindowImplX11.switchToFullscreen_owner (g : WindowImplX11.Globals) (w : WindowImplX11)
    (mode : VideoMode) :
    (WindowImplX11.switchToFullscreen g w mode).2.addr = w.addr ∧
    ((WindowImplX11.switchToFullscreen g w mode).1.fullscreenWindow = some w.addr ∨
      (WindowImplX11.switchToFullscreen g w mode).1.fullscreenWindow = g.fullscreenWindow) := by
  unfold WindowImplX11.switchToFullscreen
  split
  · split
    · split
      · split
        · split
          · exact ⟨rfl, Or.inl rfl⟩
          · exact ⟨rfl, Or.inr rfl⟩
        · exact ⟨rfl, Or.inr rfl⟩
      · exact ⟨rfl, Or.inr rfl⟩
    · exact ⟨rfl, Or.inr rfl⟩
  · exact ⟨rfl, Or.inr rfl⟩

/-- After the switch the constructor writes neither the owner slot nor the
address of the instance. -/
theorem WindowImplX11.create_owner (g : WindowImplX11.Globals) (addr : Nat) (mode : VideoMode)
    (title : String) (style win wm atom : Nat) :
    (WindowImplX11.create g addr mode title style win wm atom).2.addr = addr ∧
    ((WindowImplX11.create g addr mode title style win wm atom).1.fullscreenWindow = some addr ∨
      (WindowImplX11.create g addr mode title style win wm atom).1.fullscreenWindow
        = g.fullscreenWindow) := by
  obtain ⟨h1, h2⟩ := WindowImplX11.switchToFullscreen_owner g
    { addr := addr, m_window := 0, m_isExternal := false, m_atomClose := 0,
      m_oldVideoMode := -1, events := [] } mode
  simp only [WindowImplX11.create, WindowImplX11.setTitle, WindowImplX11.initializeWindow]
  generalize WindowImplX11.decorate style wm (toInt mode.width) (toInt mode.height) = d
  rcases d with ⟨_ | motif, _ | sizeHints⟩ <;>
    by_cases hf : style &&& Style.Fullscreen ≠ 0 <;> by_cases hw : win = 0 <;>
    simp only [hf, hw, ne_eq, decide_True, decide_False, if_true, if_false, not_true_eq_false,
      not_false_eq_true, Bool.false_eq_true, decide_not, Bool.not_eq_true'] <;>
    first
      | exact ⟨h1, h2⟩
      | exact ⟨rfl, Or.inr rfl⟩
      | exact ⟨trivial, Or.inr trivial⟩

theorem WindowImplX11.construct_owner (g : WindowImplX11.Globals)
    (c : WindowImplX11.Construction) :
    (WindowImplX11.construct g c).2.addr = c.addr ∧
    ((WindowImplX11.construct g c).1.fullscreenWindow = some c.addr ∨
      (WindowImplX11.construct g c).1.fullscreenWindow = g.fullscreenWindow) :=
  WindowImplX11.create_owner (g.answering c.config) c.addr c.mode c.title c.style
    c.createdWindow c.wmHintsAtom c.atom

theorem WindowImplX11.destroy_slot (g : WindowImplX11.Globals) (w : WindowImplX11) :
    (WindowImplX11.destroy g w).fullscreenWindow
      = if g.fullscreenWindow = some w.addr then none else g.fullscreenWindow := by
  by_cases ho : g.fullscreenWindow = some w.addr <;>
    by_cases hw : w.m_window ≠ 0 ∧ w.m_isExternal = false <;>
    simp [WindowImplX11.destroy, WindowImplX11.cleanup, ho, hw]

theorem WindowImplX11.teardown_slot (g : WindowImplX11.Globals) (w : WindowImplX11)
    (config : Bool) :
    (WindowImplX11.teardown g w config).fullscreenWindow
      = if g.fullscreenWindow = some w.addr then none else g.fullscreenWindow :=
  WindowImplX11.destroy_slot (g.answering config) w

/-- Whatever is constructed or destroyed, the owner slot keeps pointing at a
live instance. -/
theorem WindowImplX11.Process.step_ownerIsLive (p : WindowImplX11.Process)
    (op : WindowImplX11.Op) (h : p.ownerIsLive) : (p.step op).ownerIsLive := by
  cases op with
  | create c =>
    obtain ⟨ha, ho⟩ := WindowImplX11.construct_owner p.g c
    intro a hsl
    simp only [WindowImplX11.Process.step] at hsl ⊢
    rcases ho with ho | ho
    · rw [ho] at hsl
      cases hsl
      exact ⟨_, List.mem_append_right _ (List.mem_singleton.mpr rfl), ha⟩
    · rw [ho] at hsl
      obtain ⟨w, hw, hwa⟩ := h a hsl
      exact ⟨w, List.mem_append_left _ hw, hwa⟩
  | destroy addr config =>
    intro a hsl
    simp only [WindowImplX11.Process.step] at hsl ⊢
    cases hf : p.live.find? (fun w => decide (w.addr = addr)) with
    | none =>
      simp only [hf] at hsl ⊢
      exact h a hsl
    | some w =>
      simp only [hf] at hsl ⊢
      have hwa : w.addr = addr := by simpa using List.find?_some hf
      rw [WindowImplX11.teardown_slot] at hsl
      by_cases ho : p.g.fullscreenWindow = some w.addr
      · simp [ho] at hsl
      · rw [if_neg ho] at hsl
        obtain ⟨w2, hw2, hw2a⟩ := h a hsl
        refine ⟨w2, List.mem_filter.mpr ⟨hw2, ?_⟩, hw2a⟩
        have hne : w2.addr ≠ addr := by
          intro he
          apply ho
          rw [hsl, hwa, ← he, hw2a]
        simpa using hne

theorem WindowImplX11.Process.run_ownerIsLive (ops : List WindowImplX11.Op) :
    ∀ p : WindowImplX11.Process, p.ownerIsLive → (p.run ops).ownerIsLive := by
  induction ops with
  | nil => intro p h; exact h
  | cons op rest ih =>
    intro p h
    exact ih (p.step op) (WindowImplX11.Process.step_ownerIsLive p op h)

/-- With one fullscreen window at a time, a fullscreen construction whose
switch succeeds and a destruction whose call of `XRRGetScreenInfo` is answered
keep the display either in mode `m0` without owner, or owned by the only live
instance, which has saved `m0`. -/
theorem WindowImplX11.Process.step_soleOwner (p : WindowImplX11.Process) (m0 : Int)
    (op : WindowImplX11.Op) (h : p.soleOwner m0)
    (hs : WindowImplX11.Process.switchesSucceed p [op])
    (h1 : WindowImplX11.Process.oneAtATime p [op])
    (hc : WindowImplX11.Process.restoresAnswered p [op]) : (p.step op).soleOwner m0 := by
  cases op with
  | create c =>
    obtain ⟨hsw, -⟩ := hs
    obtain ⟨hnone, -⟩ := h1
    obtain ⟨hlive, hmode⟩ := h.1 hnone
    obtain ⟨c1, -, c3, c4⟩ := WindowImplX11.construct_fullscreen p.g c hsw
    constructor
    · intro hsl
      simp only [WindowImplX11.Process.step] at hsl
      rw [c1] at hsl
      cases hsl
    · intro a hsl
      simp only [WindowImplX11.Process.step] at hsl ⊢
      rw [c1] at hsl
      cases hsl
      exact ⟨_, by rw [hlive]; rfl, c3, by rw [c4, hmode]⟩
  | destroy addr config =>
    cases hsl : p.g.fullscreenWindow with
    | none =>
      obtain ⟨hlive, hmode⟩ := h.1 hsl
      have hf : p.live.find? (fun w => decide (w.addr = addr)) = none := by rw [hlive]; rfl
      have hp : p.step (WindowImplX11.Op.destroy addr config) = p := by
        simp only [WindowImplX11.Process.step, hf]
      rw [hp]
      exact h
    | some a =>
      obtain ⟨w, hlive, hwa, hold⟩ := h.2 a hsl
      by_cases hadd : a = addr
      · have hcfg : config = true := hc.1 (by rw [hsl, hadd])
        subst hcfg
        have hf : p.live.find? (fun w => decide (w.addr = addr)) = some w := by
          rw [hlive]
          simp [List.find?, hwa, hadd]
        have ho : (p.g.answering true).fullscreenWindow = some w.addr := by
          rw [hwa]
          exact hsl
        have hslot := WindowImplX11.teardown_slot p.g w true
        rw [if_pos (by rw [hsl, hwa])] at hslot
        have hm : (WindowImplX11.teardown p.g w true).currentMode = w.m_oldVideoMode :=
          WindowImplX11.destroy_owner_mode (p.g.answering true) w ho rfl
        constructor
        · intro _
          simp only [WindowImplX11.Process.step, hf]
          exact ⟨by rw [hlive]; simp [hwa, hadd], by rw [hm, hold]⟩
        · intro a2 hsl2
          simp only [WindowImplX11.Process.step, hf] at hsl2
          rw [hslot] at hsl2
          cases hsl2
      · have hf : p.live.find? (fun w => decide (w.addr = addr)) = none := by
          rw [hlive]
          have : w.addr ≠ addr := by rw [hwa]; exact hadd
          simp [List.find?, this]
        have hp : p.step (WindowImplX11.Op.destroy addr config) = p := by
          simp only [WindowImplX11.Process.step, hf]
        rw [hp]
        exact h

theorem WindowImplX11.Process.run_soleOwner (m0 : Int) (ops : List WindowImplX11.Op) :
    ∀ p : WindowImplX11.Process, p.soleOwner m0 →
      WindowImplX11.Process.switchesSucceed p ops → WindowImplX11.Process.oneAtATime p ops →
      WindowImplX11.Process.restoresAnswered p ops → (p.run ops).soleOwner m0 := by
  induction ops with
  | nil => intro p h _ _ _; exact h
  | cons op rest ih =>
    intro p h hs h1 hc
    have hs1 : WindowImplX11.Process.switchesSucceed p [op] ∧
        WindowImplX11.Process.switchesSucceed (p.step op) rest := by
      cases op with
      | create c => exact ⟨⟨hs.1, trivial⟩, hs.2⟩
      | destroy addr config => exact ⟨trivial, hs⟩
    have h11 : WindowImplX11.Process.oneAtATime p [op] ∧
        WindowImplX11.Process.oneAtATime (p.step op) rest := by
      cases op with
      | create c => exact ⟨⟨h1.1, trivial⟩, h1.2⟩
      | destroy addr config => exact ⟨trivial, h1⟩
    have hc1 : WindowImplX11.Process.restoresAnswered p [op] ∧
        WindowImplX11.Process.restoresAnswered (p.step op) rest := by
      cases op with
      | create c => exact ⟨trivial, hc⟩
      | destroy addr config => exact ⟨⟨hc.1, trivial⟩, hc.2⟩
    exact ih (p.step op) (WindowImplX11.Process.step_soleOwner p m0 op h hs1.1 h11.1 hc1.1)
      hs1.2 h11.2 hc1.2

/-- C21 (as amended): for every sequence of fullscreen window constructions
(each with a successful mode switch) and destructions that starts from display
mode M0 with an empty owner slot and no live instance, once every constructed
window has been destroyed (in any order) the owner slot is null; and the
current display mode is M0 again if no window of the sequence was constructed
while another one held the owner slot and `XRRGetScreenInfo` returned a
configuration to every call made by a teardown. -/
theorem display_mode_after_last_fullscreen_window (g0 : WindowImplX11.Globals)
    (ops : List WindowImplX11.Op) (h0 : g0.fullscreenWindow = none)
    (hs : WindowImplX11.Process.switchesSucceed ⟨g0, []⟩ ops)
    (hd : (WindowImplX11.Process.run ⟨g0, []⟩ ops).live = []) :
    (WindowImplX11.Process.run ⟨g0, []⟩ ops).g.fullscreenWindow = none ∧
    (WindowImplX11.Process.oneAtATime ⟨g0, []⟩ ops →
      WindowImplX11.Process.restoresAnswered ⟨g0, []⟩ ops →
      (WindowImplX11.Process.run ⟨g0, []⟩ ops).g.currentMode = g0.currentMode) := by
  have hlive : (WindowImplX11.Process.run ⟨g0, []⟩ ops).ownerIsLive :=
    WindowImplX11.Process.run_ownerIsLive ops ⟨g0, []⟩ (fun a ha => by
      rw [h0] at ha
      cases ha)
  have hnone : (WindowImplX11.Process.run ⟨g0, []⟩ ops).g.fullscreenWindow = none := by
    cases hsl : (WindowImplX11.Process.run ⟨g0, []⟩ ops).g.fullscreenWindow with
    | none => rfl
    | some a =>
      obtain ⟨w, hw, -⟩ := hlive a hsl
      rw [hd] at hw
      cases hw
  refine ⟨hnone, fun h1 hc => ?_⟩
  have hsole := WindowImplX11.Process.run_soleOwner g0.currentMode ops ⟨g0, []⟩
    ⟨fun _ => ⟨rfl, rfl⟩, fun a ha => by rw [h0] at ha; cases ha⟩ hs h1 hc
  exact (hsole.1 hnone).2

/-- C21, witness: on a display in mode 2, A is created and destroyed, then B is
created and destroyed; every teardown finds a screen configuration. -/
theorem display_mode_after_last_fullscreen_window_witness :
    (WindowImplX11.idleGlobals.fullscreenWindow = none ∧
      WindowImplX11.Process.switchesSucceed ⟨WindowImplX11.idleGlobals, []⟩
        WindowImplX11.sequentialOps ∧
      (WindowImplX11.Process.run ⟨WindowImplX11.idleGlobals, []⟩
        WindowImplX11.sequentialOps).live = [] ∧
      WindowImplX11.Process.oneAtATime ⟨WindowImplX11.idleGlobals, []⟩
        WindowImplX11.sequentialOps ∧
      WindowImplX11.Process.restoresAnswered ⟨WindowImplX11.idleGlobals, []⟩
        WindowImplX11.sequentialOps) ∧
    (WindowImplX11.Process.run ⟨WindowImplX11.idleGlobals, []⟩
      WindowImplX11.sequentialOps).g.fullscreenWindow = none ∧
    (WindowImplX11.Process.run ⟨WindowImplX11.idleGlobals, []⟩
      WindowImplX11.sequentialOps).g.currentMode = WindowImplX11.idleGlobals.currentMode :=
  have hs : WindowImplX11.Process.switchesSucceed ⟨WindowImplX11.idleGlobals, []⟩
      WindowImplX11.sequentialOps := by
    simp only [WindowImplX11.sequentialOps, WindowImplX11.Process.switchesSucceed, and_true]
    exact ⟨⟨by decide, by decide, by decide, [(640, 480), (800, 600), (1024, 768)], 1,
        by decide, by decide⟩,
      ⟨by decide, by decide, by decide, [(640, 480), (800, 600), (1024, 768)], 0, by decide,
        by decide⟩⟩
  have h1 : WindowImplX11.Process.oneAtATime ⟨WindowImplX11.idleGlobals, []⟩
      WindowImplX11.sequentialOps := by
    simp only [WindowImplX11.sequentialOps, WindowImplX11.Process.oneAtATime, and_true]
    exact ⟨by decide, by decide⟩
  have hc : WindowImplX11.Process.restoresAnswered ⟨WindowImplX11.idleGlobals, []⟩
      WindowImplX11.sequentialOps := by
    simp [WindowImplX11.sequentialOps, WindowImplX11.Process.restoresAnswered]
  have h := display_mode_after_last_fullscreen_window WindowImplX11.idleGlobals
    WindowImplX11.sequentialOps rfl hs (by decide)
  ⟨⟨rfl, hs, by decide, h1, hc⟩, h.1, h.2 h1 hc⟩

/-- C21, counterexample: the claim as stated fails in two ways, both from
display mode 2 with an empty owner slot. (1) A (800 x 600, size index 1) and B
(640 x 480, size index 0) are created fullscreen, both mode switches succeed,
then B and A are destroyed, every teardown finding a screen configuration: no
instance is left and the owner slot is null, but the display is in mode 1, the
mode B had saved: A's teardown restores nothing because A is no longer the
owner. (2) A alone is created fullscreen, its mode switch succeeds, and during
its teardown `XRRGetScreenInfo` returns `NULL`: no instance is left and the
owner slot is null, but the display is still in mode 1, the mode A had
switched to. -/
theorem display_mode_after_last_fullscreen_window_counterexample :
    (WindowImplX11.idleGlobals.fullscreenWindow = none ∧
      WindowImplX11.idleGlobals.currentMode = 2) ∧
    (WindowImplX11.Process.switchesSucceed ⟨WindowImplX11.idleGlobals, []⟩
        WindowImplX11.overlappingOps ∧
      (WindowImplX11.Process.run ⟨WindowImplX11.idleGlobals, []⟩
        WindowImplX11.overlappingOps).live = [] ∧
      (WindowImplX11.Process.run ⟨WindowImplX11.idleGlobals, []⟩
        WindowImplX11.overlappingOps).g.fullscreenWindow = none ∧
      (WindowImplX11.Process.run ⟨WindowImplX11.idleGlobals, []⟩
        WindowImplX11.overlappingOps).g.currentMode = 1) ∧
    (WindowImplX11.Process.switchesSucceed ⟨WindowImplX11.idleGlobals, []⟩
        WindowImplX11.unansweredOps ∧
      (WindowImplX11.Process.run ⟨WindowImplX11.idleGlobals, []⟩
        WindowImplX11.unansweredOps).live = [] ∧
      (WindowImplX11.Process.run ⟨WindowImplX11.idleGlobals, []⟩
        WindowImplX11.unansweredOps).g.fullscreenWindow = none ∧
      (WindowImplX11.Process.run ⟨WindowImplX11.idleGlobals, []⟩
        WindowImplX11.unansweredOps).g.currentMode = 1) := by
  refine ⟨⟨rfl, rfl⟩, ⟨?_, by decide, by decide, by decide⟩, ⟨?_, by decide, by decide,
    by decide⟩⟩
  · simp only [WindowImplX11.overlappingOps, WindowImplX11.Process.switchesSucceed, and_true]
    exact ⟨⟨by decide, by decide, by decide, [(640, 480), (800, 600), (1024, 768)], 1,
        by decide, by decide⟩,
      ⟨by decide, by decide, by decide, [(640, 480), (800, 600), (1024, 768)], 0, by decide,
        by decide⟩⟩
  · simp only [WindowImplX11.unansweredOps, WindowImplX11.Process.switchesSucceed, and_true]
    exact ⟨by decide, by decide, by decide, [(640, 480), (800, 600), (1024, 768)], 1,
      by decide, by decide⟩

end SFML
